import Mathlib

/-!
# Verification of the vehicle-pathfinding repository

Shallow embedding of the repository's Rust sources in Lean 4:

* `src/bitarray.rs` — a bit-packed boolean array over `u32` words.
* `src/main.rs`     — the occupancy `Grid` and the `pathfind` query glue.
* `src/cell.rs`     — the search pose (`Cell`), heading arithmetic, the
  motion-template (`NeighborCache`) precomputation, the cost model and the
  heuristic.
* `src/agent.rs`    — the rotated-rectangle footprint cache.
* `src/pathfind.rs` — the generic `optimized_astar` search engine.

Machine integers (`u32`, `i32`, `i16`, `usize`) are embedded as `ℕ` / `ℤ`;
all quantities that arise in the verified scenarios stay far below the
word bounds, so wraparound branches are not modelled.  `f32` arithmetic is
embedded as exact real arithmetic (`ℝ`); every branch, rounding and
truncation decision proved about a concrete scenario below has a margin
many orders of magnitude above the `f32` rounding error of the source's
computation, and the one place where IEEE special values matter (a
division by zero that produces `+∞`) is modelled by an explicit case
split, noted at the definition.  Rust collections are embedded as
follows: `Vec` as `List`, `HashMap` as an association-list map behind a
small map interface (the search results are proved independent of the
map implementation), `BinaryHeap` as a pairing heap ordered by the same
key (ties among equal keys are broken by heap structure, as in the
source).  Fallible or panicking operations return `Option`.
-/

namespace VP

/-! ## §1 `src/bitarray.rs` — `BitArray` -/

/-- `BitArray` (bitarray.rs:1-5): bit-packed booleans in `u32` words.
`bits` holds the words (each a value `< 2^32`), `num_bits` the declared
capacity. -/
structure BitArray where
  bits : List ℕ
  num_bits : ℕ
  deriving Repr, DecidableEq

/-- `BitArray::new` (bitarray.rs:9-16): `(num_bits + 31) / 32` zero words. -/
def BitArray.new (num_bits : ℕ) : BitArray :=
  { bits := List.replicate ((num_bits + 31) / 32) 0, num_bits := num_bits }

/-- `BitArray::set_bit` (bitarray.rs:19-25): sets bit `position` if it is
below the capacity, and silently does nothing otherwise. -/
def BitArray.set_bit (b : BitArray) (position : ℕ) : BitArray :=
  if position < b.num_bits then
    { b with bits := b.bits.set (position / 32) ((b.bits.getD (position / 32) 0) ||| (1 <<< (position % 32))) }
  else b

/-- `BitArray::clear_bit` (bitarray.rs:28-34): clears bit `position` if it
is below the capacity, and silently does nothing otherwise.  The word is
masked with the complement of `1 << bit` within the 32-bit word. -/
def BitArray.clear_bit (b : BitArray) (position : ℕ) : BitArray :=
  if position < b.num_bits then
    { b with bits := b.bits.set (position / 32) ((b.bits.getD (position / 32) 0) &&& (2^32 - 1 - (1 <<< (position % 32)))) }
  else b

/-- `BitArray::toggle_bit` (bitarray.rs:37-43): toggles bit `position` if
it is below the capacity, and silently does nothing otherwise. -/
def BitArray.toggle_bit (b : BitArray) (position : ℕ) : BitArray :=
  if position < b.num_bits then
    { b with bits := b.bits.set (position / 32) ((b.bits.getD (position / 32) 0) ^^^ (1 <<< (position % 32))) }
  else b

/-- `BitArray::is_bit_set` (bitarray.rs:46-54): reads bit `position`;
out-of-capacity reads panic (`panic!("Bit index out of range")`),
modelled as `none`. -/
def BitArray.is_bit_set (b : BitArray) (position : ℕ) : Option Bool :=
  if position < b.num_bits then
    some (((b.bits.getD (position / 32) 0) &&& (1 <<< (position % 32))) ≠ 0)
  else none

/-- `BitArray::set_bool` (bitarray.rs:57-63). -/
def BitArray.set_bool (b : BitArray) (position : ℕ) (value : Bool) : BitArray :=
  if value then b.set_bit position else b.clear_bit position

/-- `BitArray::get_bool` (bitarray.rs:66-68): same as `is_bit_set`. -/
def BitArray.get_bool (b : BitArray) (position : ℕ) : Option Bool :=
  b.is_bit_set position

/-! ## §2 `src/main.rs` — the occupancy `Grid` -/

/-- `Grid` (main.rs:49-53), without the render-only `cell_size` field.
`size` is the `(width, height)` pair of `i32`. -/
structure Grid where
  width : ℤ
  height : ℤ
  cells : BitArray
  deriving Repr, DecidableEq

/-- `Grid::index` (main.rs:66-68): `(y * width + x) as usize`. -/
def Grid.index (g : Grid) (x y : ℤ) : ℕ :=
  (y * g.width + x).toNat

/-- `Grid::is_cell_blocked` (main.rs:76-81): out-of-range coordinates are
blocked; in-range coordinates read the packed bit (which can in principle
panic, hence `Option`). -/
def Grid.is_cell_blocked (g : Grid) (x y : ℤ) : Option Bool :=
  if x < 0 ∨ x ≥ g.width ∨ y < 0 ∨ y ≥ g.height then some true
  else g.cells.get_bool (g.index x y)

/-- Well-formedness of a grid as produced by `Grid::new` (main.rs:55-64):
the bit array's declared capacity is `width * height`, and the word
vector has the length `BitArray::new` allocates. -/
def Grid.WF (g : Grid) : Prop :=
  g.cells.num_bits = (g.width * g.height).toNat ∧
  g.cells.bits.length = (g.cells.num_bits + 31) / 32

/-! ## §3 `src/cell.rs` — `Cell`, heading arithmetic, equality and hashing -/

/-- `Cell` (cell.rs:127-132): the search pose.  `rotation : i16`,
`position : IVec2`, `reverse : bool`. -/
structure Cell where
  rotation : ℤ
  x : ℤ
  y : ℤ
  reverse : Bool
  deriving Repr, DecidableEq

/-- `impl PartialEq for Cell` (cell.rs:297-301): position and rotation
only; the `reverse` flag does not participate. -/
def Cell.beq (a b : Cell) : Bool :=
  a.x = b.x ∧ a.y = b.y ∧ a.rotation = b.rotation

instance : BEq Cell := ⟨Cell.beq⟩

/-- `impl Hash for Cell` (cell.rs:303-309): the field stream fed to the
hasher — position, rotation, **and** the reverse flag. -/
def Cell.hashStream (c : Cell) : List ℤ :=
  [c.x, c.y, c.rotation, if c.reverse then 1 else 0]

/-- `Cell::clamp_rotation` (cell.rs:183-192): one-sided wraparound — adds
`max_increments` to a negative rotation, subtracts it from a rotation
`≥ max_increments`, and otherwise returns the rotation unchanged. -/
def Cell.clamp_rotation (rotation max_increments : ℤ) : ℤ :=
  if rotation < 0 then max_increments + rotation
  else if rotation ≥ max_increments then rotation - max_increments
  else rotation

/-! ## §5 `src/pathfind.rs` — the generic search engine

`optimized_astar` (pathfind.rs:40-93) is generic over a hashable state
type.  The embedding makes two bookkeeping structures explicit:

* the `BinaryHeap` open set becomes a pairing heap ordered by `f_cost`
  (like the source's binary heap, the order among nodes with equal
  `f_cost` is left to the heap structure);
* the two `HashMap`s become values of a small map interface `MapOps`;
  the canonical instance is an association list whose lookups use the
  state type's `==` — the behaviour of `HashMap` *under its `Eq`/`Hash`
  contract*.  For the `Cell` key type the code violates that contract
  (C5: `Hash` feeds the `reverse` flag that `PartialEq` ignores), so a
  real lookup also consults seed-dependent hash values on `==`-equal
  keys; the C10 theorem exhibits such key pairs in the search itself.

The Rust loop has no fuel; the embedding takes a fuel parameter and
returns `none` when it is exhausted, conflating it with the source's
"no path" result — every theorem below conditions on a `some` result,
which the fueled model only produces when the source would. -/

/-- `AStarNode` (pathfind.rs:6-11). -/
structure AStarNode (T : Type) where
  state : T
  g_cost : ℕ
  f_cost : ℕ
  deriving Repr, DecidableEq

/-- The open set: a pairing heap of `AStarNode`s, popped by minimum
`f_cost` (the source's `BinaryHeap` with the reversed `Ord` of
pathfind.rs:13-17). -/
inductive PHeap (T : Type) where
  | nil : PHeap T
  | node (nd : AStarNode T) (children : List (PHeap T)) : PHeap T
  deriving Repr

/-- Merge two pairing heaps; the smaller `f_cost` root wins. -/
def PHeap.merge : PHeap T → PHeap T → PHeap T
  | .nil, h => h
  | .node n c, .nil => .node n c
  | .node n₁ c₁, .node n₂ c₂ =>
      if n₁.f_cost ≤ n₂.f_cost then .node n₁ (.node n₂ c₂ :: c₁)
      else .node n₂ (.node n₁ c₁ :: c₂)

/-- `BinaryHeap::push`. -/
def PHeap.push (h : PHeap T) (nd : AStarNode T) : PHeap T :=
  h.merge (.node nd [])

/-- Pairwise merge of a pairing heap's children (used by `pop`). -/
def PHeap.mergePairs : List (PHeap T) → PHeap T
  | [] => .nil
  | [h] => h
  | h₁ :: h₂ :: rest => (h₁.merge h₂).merge (mergePairs rest)

/-- `BinaryHeap::pop`: the minimum-`f_cost` node and the rest. -/
def PHeap.pop : PHeap T → Option (AStarNode T × PHeap T)
  | .nil => none
  | .node n c => some (n, mergePairs c)

/-- The map interface shared by `came_from` and `g_score`
(pathfind.rs:55-56): `HashMap::new` / `HashMap::get` /
`HashMap::insert`.  The capacity hint of `with_capacity` only affects
allocation and is not modelled. -/
structure MapOps (T V M : Type) where
  empty : M
  find : M → T → Option V
  insert : M → T → V → M

/-- Lookup in an association list by the state type's `==`
(the embedding of `HashMap::get`). -/
def assocFind [BEq T] : List (T × V) → T → Option V
  | [], _ => none
  | (k, v) :: rest, q => if q == k then some v else assocFind rest q

/-- The canonical map instance: an association list, insertion by
consing (later bindings shadow earlier ones, as `HashMap::insert`
replaces). -/
def assocOps (T V : Type) [BEq T] : MapOps T V (List (T × V)) :=
  ⟨[], assocFind, fun m k v => (k, v) :: m⟩

/-- The characteristic law of `HashMap::insert`/`get` an instance must
satisfy: a fresh binding is found, other keys are unaffected. -/
def MapLawful [BEq T] (ops : MapOps T V M) : Prop :=
  (∀ (m : M) (k : T) (v : V) (k' : T),
     ops.find (ops.insert m k v) k' = if k' == k then some v else ops.find m k') ∧
  (∀ k : T, ops.find ops.empty k = none)

theorem assocOps_lawful (T V : Type) [BEq T] : MapLawful (assocOps T V) := by
  constructor
  · intro m k v k'
    rfl
  · intro k
    rfl

/-- The map law restricted to a set of keys `Q`.  The simulation
arguments only ever look up keys the search can reach, so this weaker
law suffices for them, and (unlike the unrestricted law) it is
satisfiable by implementations keyed on a bounded encoding. -/
def MapLawfulOn [BEq T] (Q : T → Prop) (ops : MapOps T V M) : Prop :=
  (∀ (m : M) (k : T) (v : V) (k' : T), Q k → Q k' →
     ops.find (ops.insert m k v) k' = if k' == k then some v else ops.find m k') ∧
  (∀ k : T, Q k → ops.find ops.empty k = none)

theorem MapLawful.on [BEq T] {ops : MapOps T V M} (h : MapLawful ops)
    (Q : T → Prop) : MapLawfulOn Q ops :=
  ⟨fun m k v k' _ _ => h.1 m k v k', fun k _ => h.2 k⟩

/-- The path-reconstruction loop (pathfind.rs:65-70): walk the
predecessor map from the goal state; the resulting chain is
goal-first.  Fuel exhaustion (a cyclic predecessor chain, on which the
source would not terminate) yields `none`. -/
def predWalk (f : T → Option T) : ℕ → T → Option (List T)
  | 0, _ => none
  | fuel + 1, current =>
      match f current with
      | none => some [current]
      | some next => (predWalk f fuel next).map (current :: ·)

/-- The neighbor loop body (pathfind.rs:77-89), threading the open set
and both maps through the `for` loop.  `g_score[&current_state]` is
re-read on every iteration as in the source; a missing entry is the
source's panic, modelled as `none`.  An unseen neighbor's best cost is
`u32::MAX` (pathfind.rs:79). -/
def astarFold (mcf : MapOps T T Mc) (mg : MapOps T ℕ Mg)
    (heuristic : T → ℕ) (current_state : T) :
    List (T × ℕ) → PHeap T × Mc × Mg → Option (PHeap T × Mc × Mg)
  | [], acc => some acc
  | (neighbor, move_cost) :: rest, (open_set, came_from, g_score) =>
      match mg.find g_score current_state with
      | none => none
      | some gc =>
          let tentative := gc + move_cost
          if tentative < (mg.find g_score neighbor).getD (2 ^ 32 - 1) then
            let came_from' := mcf.insert came_from neighbor current_state
            let g_score' := mg.insert g_score neighbor tentative
            let f_cost := tentative + heuristic neighbor
            astarFold mcf mg heuristic current_state rest
              (open_set.push ⟨neighbor, tentative, f_cost⟩, came_from', g_score')
          else
            astarFold mcf mg heuristic current_state rest (open_set, came_from, g_score)

/-- One iteration of the main loop of `optimized_astar`
(pathfind.rs:63-92): pop the minimum-`f_cost` node; if it is a goal,
walk the predecessor chain and return it reversed together with the
node's `g_cost`; otherwise run the neighbor loop and continue
(`recur`). -/
def astarStep (mcf : MapOps T T Mc) (mg : MapOps T ℕ Mg)
    (neighbors_fn : T → List (T × ℕ)) (heuristic_fn : T → ℕ)
    (goal_fn : T → Bool) (walk_fuel : ℕ)
    (recur : PHeap T → Mc → Mg → Option (List T × ℕ))
    (open_set : PHeap T) (came_from : Mc) (g_score : Mg) :
    Option (List T × ℕ) :=
  match open_set.pop with
  | none => none
  | some (current_node, rest) =>
      if goal_fn current_node.state then
        match predWalk (mcf.find came_from) walk_fuel current_node.state with
        | none => none
        | some chain => some (chain.reverse, current_node.g_cost)
      else
        match astarFold mcf mg heuristic_fn current_node.state
            (neighbors_fn current_node.state) (rest, came_from, g_score) with
        | none => none
        | some (open2, cf2, g2) => recur open2 cf2 g2

/-- The main loop of `optimized_astar` (pathfind.rs:63-92), iterated by
fuel.  (The recursion is written with `Nat.rec` directly so that kernel
evaluation of concrete runs is iterative.) -/
def astarLoop (mcf : MapOps T T Mc) (mg : MapOps T ℕ Mg)
    (neighbors_fn : T → List (T × ℕ)) (heuristic_fn : T → ℕ)
    (goal_fn : T → Bool) (fuel : ℕ) :
    PHeap T → Mc → Mg → Option (List T × ℕ) :=
  Nat.rec (motive := fun _ => PHeap T → Mc → Mg → Option (List T × ℕ))
    (fun _ _ _ => none)
    (fun fuel recur =>
      astarStep mcf mg neighbors_fn heuristic_fn goal_fn (fuel + 1) recur)
    fuel

theorem astarLoop_zero (mcf : MapOps T T Mc) (mg : MapOps T ℕ Mg)
    (nf : T → List (T × ℕ)) (hf : T → ℕ) (gf : T → Bool)
    (o : PHeap T) (cf : Mc) (g : Mg) :
    astarLoop mcf mg nf hf gf 0 o cf g = none := rfl

theorem astarLoop_succ (mcf : MapOps T T Mc) (mg : MapOps T ℕ Mg)
    (nf : T → List (T × ℕ)) (hf : T → ℕ) (gf : T → Bool) (fuel : ℕ)
    (o : PHeap T) (cf : Mc) (g : Mg) :
    astarLoop mcf mg nf hf gf (fuel + 1) o cf g =
      astarStep mcf mg nf hf gf (fuel + 1) (astarLoop mcf mg nf hf gf fuel) o cf g := rfl

/-- `optimized_astar` (pathfind.rs:40-93) over a given pair of map
implementations: push the start node with `f = heuristic(start)`,
record `g_score[start] = 0`, and run the loop. -/
def astarWith (mcf : MapOps T T Mc) (mg : MapOps T ℕ Mg) (fuel : ℕ)
    (start : T) (neighbors_fn : T → List (T × ℕ)) (heuristic_fn : T → ℕ)
    (goal_fn : T → Bool) : Option (List T × ℕ) :=
  astarLoop mcf mg neighbors_fn heuristic_fn goal_fn fuel
    (PHeap.nil.push ⟨start, 0, heuristic_fn start⟩)
    mcf.empty
    (mg.insert mg.empty start 0)

/-- `optimized_astar` with the canonical (association list) map
implementation — the embedding of pathfind.rs:40-93. -/
def optimized_astar (T : Type) [BEq T] (fuel : ℕ) (start : T)
    (neighbors_fn : T → List (T × ℕ)) (heuristic_fn : T → ℕ)
    (goal_fn : T → Bool) : Option (List T × ℕ) :=
  astarWith (assocOps T T) (assocOps T ℕ) fuel start neighbors_fn heuristic_fn goal_fn


/-! ## §6 Predicates used to reason about the search -/

/-- Every node of a pairing heap satisfies `P`. -/
inductive PHeap.All (P : AStarNode T → Prop) : PHeap T → Prop
  | nil : PHeap.All P .nil
  | node {nd : AStarNode T} {c : List (PHeap T)} :
      P nd → (∀ h ∈ c, PHeap.All P h) → PHeap.All P (.node nd c)

/-- A state the search has a handle on: the start state, or a state with
a recorded predecessor. -/
def Reach [BEq T] (start : T) (cf : List (T × T)) (s : T) : Prop :=
  s = start ∨ (assocFind cf s).isSome

/-- Invariant of the predecessor map: every recorded predecessor is
itself the start state or has a recorded predecessor. -/
def InvCF [BEq T] (start : T) (cf : List (T × T)) : Prop :=
  ∀ k v, assocFind cf k = some v → Reach start cf v

/-- Map a function over the state of a node (cost fields unchanged). -/
def AStarNode.map (f : T → U) (nd : AStarNode T) : AStarNode U :=
  ⟨f nd.state, nd.g_cost, nd.f_cost⟩

mutual

/-- Map a function over all states of a heap (shape and keys unchanged). -/
def PHeap.map (f : T → U) : PHeap T → PHeap U
  | .nil => .nil
  | .node nd c => .node (nd.map f) (PHeap.mapL f c)

/-- `PHeap.map` over a list of heaps. -/
def PHeap.mapL (f : T → U) : List (PHeap T) → List (PHeap U)
  | [] => []
  | h :: t => PHeap.map f h :: PHeap.mapL f t

end

/-- Values recorded in the predecessor map satisfy `P`. -/
def CFValues [BEq T] (mcf : MapOps T T Mc) (P : T → Prop) (cf : Mc) : Prop :=
  ∀ k v, P k → mcf.find cf k = some v → P v

/-! ## §7 Real-number model of the trigonometric code

`f32` values are embedded as `ℝ` (see the header note).  All decisions
taken on these values in the verified scenarios (roundings to integers,
comparisons, truncations to `u32`) are robust: the values are bounded
away from the decision boundaries by margins that dwarf the `f32`
rounding error of the source computation. -/

open scoped Classical

/-- `f32::round`: round half away from zero, as an integer result
(the source immediately casts to `i32`). -/
noncomputable def roundAway (x : ℝ) : ℤ :=
  if 0 ≤ x then ⌊x + 1 / 2⌋ else -⌊-x + 1 / 2⌋

/-- `i32::clamp(-1, 1)`. -/
def clampI (z : ℤ) : ℤ := max (-1) (min 1 z)

/-- Rust `%` on floats: remainder with the sign of the dividend,
`x - y * trunc(x / y)`. -/
noncomputable def rustRem (x y : ℝ) : ℝ :=
  x - y * (if 0 ≤ x / y then (⌊x / y⌋ : ℝ) else -(⌊-(x / y)⌋ : ℝ))

/-- `angle_difference` (cell.rs:194-206): shortest signed angular
difference, mapped into `(-π, π]`-ish by the two corrections. -/
noncomputable def angle_difference (angle1 angle2 : ℝ) : ℝ :=
  let diff := rustRem (angle2 - angle1) (2 * Real.pi)
  if Real.pi < diff then diff - 2 * Real.pi
  else if diff < -Real.pi then diff + 2 * Real.pi
  else diff

/-- `speed_loss_fraction` (cell.rs:207-227).  The `turn_angle = 0` case
is split off explicitly: in the source, `friction * g * (1.0 / 0.0)`
is `+∞` in `f32`, `sqrt(+∞) = +∞` exceeds `initial_speed`, the speed is
capped at `initial_speed` and the loss is `0`. -/
noncomputable def speed_loss_fraction (turn_angle_rad : ℝ) : ℝ :=
  let initial_speed : ℝ := 40 * 0.27778
  let friction_coefficient : ℝ := 0.75
  let g : ℝ := 9.81
  if turn_angle_rad = 0 then 0
  else
    let max_safe_speed := Real.sqrt (friction_coefficient * g * (1 / turn_angle_rad))
    let capped_max_safe_speed :=
      if initial_speed < max_safe_speed then initial_speed else max_safe_speed
    min (max ((initial_speed - capped_max_safe_speed) / initial_speed) 0) 1

/-- `Cell::cost` (cell.rs:193-247).  `(… * 1000.0) as u32` is the
truncation `Int.toNat ∘ ⌊·⌋` of a non-negative value; `arc` is unused by
the source body and omitted. -/
noncomputable def Cell.cost (self : Cell) (fr : Option Cell) (max_increments : ℕ) : ℕ :=
  let reverse_cost : ℕ := if self.reverse then 10 else 1
  match fr with
  | none => 0
  | some fr =>
      let angle1 := (self.rotation : ℝ) * 2 * Real.pi / max_increments
      let angle2 := (fr.rotation : ℝ) * 2 * Real.pi / max_increments
      let angle_diff := |angle_difference angle1 angle2|
      let speed_loss := speed_loss_fraction angle_diff
      let angle_cost := (⌊speed_loss * 1000⌋).toNat
      let distance : ℝ := ((self.x - fr.x : ℤ) : ℝ) ^ 2 + ((self.y - fr.y : ℤ) : ℝ) ^ 2
      let distance_cost := (⌊distance * 1000⌋).toNat
      (angle_cost + distance_cost) * reverse_cost

/-- `Cell::heuristic` (cell.rs:248-251); the `max_increments` argument
of the source is unused by its body and omitted. -/
noncomputable def Cell.heuristic (self : Cell) (to_x to_y : ℤ) : ℕ :=
  (⌊(((self.x - to_x : ℤ) : ℝ) ^ 2 + ((self.y - to_y : ℤ) : ℝ) ^ 2) * 10⌋).toNat

/-- The spec-side reverse multiplier of the cost model (for C6). -/
def specReverseMult (c : Cell) : ℕ := if c.reverse then 10 else 1

/-- The spec-side angle-cost component of the cost model (for C6). -/
noncomputable def specAngleCost (tc fc : Cell) (m : ℕ) : ℕ :=
  (⌊speed_loss_fraction
      |angle_difference ((tc.rotation : ℝ) * 2 * Real.pi / m)
        ((fc.rotation : ℝ) * 2 * Real.pi / m)| * 1000⌋).toNat

/-- The spec-side distance-cost component of the cost model (for C6). -/
noncomputable def specDistCost (tc fc : Cell) : ℕ :=
  (⌊(((tc.x - fc.x : ℤ) : ℝ) ^ 2 + ((tc.y - fc.y : ℤ) : ℝ) ^ 2) * 1000⌋).toNat

/-- `Cell::precompute_neighbor` (cell.rs:141-159): the unit direction of
a heading (offset by π when reversing), rounded per axis and clamped to
`{-1,0,1}`. -/
noncomputable def Cell.precompute_neighbor (rotation : ℤ) (increment_size : ℝ)
    (reverse : Bool) : Cell :=
  let angle := (rotation : ℝ) * increment_size
  let angle := if reverse then angle + Real.pi else angle
  let x := roundAway (Real.cos angle)
  let y := roundAway (Real.sin angle)
  Cell.mk rotation (clampI x) (clampI y) reverse

/-- The integer range `a..=b` as a list. -/
def intRange (a b : ℤ) : List ℤ :=
  (List.range (b - a + 1).toNat).map (fun (n : ℕ) => a + (n : ℤ))

/-- The `cardinal_directions` vector of `NeighborCache::precompute`
(cell.rs:42-52). -/
def cardinal_directions : List (ℤ × ℤ) :=
  [(0, 1), (1, 0), (0, -1), (-1, 0), (1, 1), (1, -1), (-1, 1), (-1, -1)]

/-- The inner scan of `NeighborCache::precompute` (cell.rs:55-66):
running `(closest_increment, closest_dot)`, updated whenever
`dot > closest_dot`. -/
noncomputable def cardinalScan (increment_size : ℝ) (d : ℤ × ℤ) :
    List ℕ → ℕ × ℝ → ℕ
  | [], acc => acc.1
  | i :: rest, acc =>
      let angle := (i : ℝ) * increment_size
      let dot := Real.cos angle * d.1 + Real.sin angle * d.2
      if acc.2 < dot then cardinalScan increment_size d rest (i, dot)
      else cardinalScan increment_size d rest acc

/-- The values of the `neighbor_xy_to_increment` map after the cardinal
loop of `NeighborCache::precompute` (cell.rs:54-69): one closest
increment per compass direction.  The retain-filter only ever asks
whether some value equals a rotation (`.values().any(…)`), so the map is
embedded as its value list. -/
noncomputable def cardinalValues (m : ℕ) (increment_size : ℝ) : List ℤ :=
  cardinal_directions.map
    (fun d => (cardinalScan increment_size d (List.range m) (0, -1) : ℤ))

/-- One line of `NeighborCache::precompute` (cell.rs:76-111): for
rotation `r`, forward candidates over `[-arc, arc]` and reverse
candidates over `[-2·arc, 2·arc]`, then the retain-filter (turned, or
straight along a cardinal heading, or reversing). -/
noncomputable def precomputeRow (m a : ℕ) (vals : List ℤ)
    (increment_size : ℝ) (r : ℤ) : List ((ℤ × ℤ) × ℤ × Bool) :=
  let fwd := (intRange (-(a : ℤ)) a).map (fun i =>
    let nr := Cell.clamp_rotation (r + i) m
    let c := Cell.precompute_neighbor nr increment_size false
    ((c.x, c.y), c.rotation, c.reverse))
  let rev := (intRange (-(2 * a : ℤ)) (2 * a)).map (fun i =>
    let nr := Cell.clamp_rotation (r + i) m
    let c := Cell.precompute_neighbor nr increment_size true
    ((c.x, c.y), c.rotation, c.reverse))
  (fwd ++ rev).filter (fun e =>
    (e.2.1 != r) || vals.contains e.2.1 || e.2.2)

/-- `NeighborCache::precompute` (cell.rs:38-112): the cardinal-direction
map, then one template line per rotation. -/
noncomputable def NeighborCache.precompute (m a : ℕ) :
    List (List ((ℤ × ℤ) × ℤ × Bool)) :=
  (List.range m).map (fun (r : ℕ) =>
    precomputeRow m a (cardinalValues m (2 * Real.pi / m)) (2 * Real.pi / m)
      (r : ℤ))

/-- `NeighborCache::get` (cell.rs:34-36): `rotation as usize` indexing;
a negative rotation wraps to a huge index and misses. -/
def NeighborCache.get (cache : List (List ((ℤ × ℤ) × ℤ × Bool)))
    (rotation : ℤ) : Option (List ((ℤ × ℤ) × ℤ × Bool)) :=
  if rotation < 0 then none else cache.get? rotation.toNat

/-- `Cell::neighbors` (cell.rs:160-176): translate each cached template
entry by the cell's position (empty when the rotation has no cache
line). -/
def Cell.neighbors (self : Cell)
    (cache : List (List ((ℤ × ℤ) × ℤ × Bool))) : List Cell :=
  match NeighborCache.get cache self.rotation with
  | none => []
  | some cached =>
      cached.map (fun e => Cell.mk e.2.1 (self.x + e.1.1) (self.y + e.1.2) e.2.2)

/-! ## §8 Real-number model of `src/agent.rs` -/

/-- `rotate` (agent.rs:21-25). -/
noncomputable def rotate (x y angle : ℝ) : ℝ × ℝ :=
  (x * Real.cos angle - y * Real.sin angle,
   x * Real.sin angle + y * Real.cos angle)

/-- `project_onto_axis` (agent.rs:34-47): min and max of the dot
products, starting from the first vertex. -/
noncomputable def project_onto_axis (vertices : List (ℝ × ℝ)) (ax ay : ℝ) :
    ℝ × ℝ :=
  match vertices with
  | [] => (0, 0)
  | v :: rest =>
      rest.foldl
        (fun acc w =>
          (min acc.1 (w.1 * ax + w.2 * ay), max acc.2 (w.1 * ax + w.2 * ay)))
        (v.1 * ax + v.2 * ay, v.1 * ax + v.2 * ay)

/-- `aabb_rect_collision` (agent.rs:7-85): SAT test over the rectangle's
two face normals and the two grid axes; disjoint iff some axis strictly
separates the projections. -/
noncomputable def aabb_rect_collision (aabb_x aabb_y rect_center_x
    rect_center_y rect_half_extents_x rect_half_extents_y rect_angle : ℝ) :
    Bool :=
  let rect_vertices :=
    ([(rect_half_extents_x, rect_half_extents_y),
      (rect_half_extents_x, -rect_half_extents_y),
      (-rect_half_extents_x, rect_half_extents_y),
      (-rect_half_extents_x, -rect_half_extents_y)].map
      (fun p =>
        let r := rotate p.1 p.2 rect_angle
        (rect_center_x + r.1, rect_center_y + r.2)))
  let aabb_vertices := [(aabb_x, aabb_y), (aabb_x + 1, aabb_y),
    (aabb_x, aabb_y + 1), (aabb_x + 1, aabb_y + 1)]
  let axes := [rotate 1 0 rect_angle, rotate 0 1 rect_angle,
    ((1 : ℝ), (0 : ℝ)), ((0 : ℝ), (1 : ℝ))]
  axes.all (fun axis =>
    let r := project_onto_axis rect_vertices axis.1 axis.2
    let a := project_onto_axis aabb_vertices axis.1 axis.2
    !(decide (r.2 < a.1) || decide (a.2 < r.1)))

/-- The first-element fold the source writes with an `INFINITY`
initializer (agent.rs:122-129), specialized to non-empty lists. -/
noncomputable def foldMin : List ℝ → ℝ
  | [] => 0
  | x :: rest => rest.foldl min x

/-- See `foldMin`. -/
noncomputable def foldMax : List ℝ → ℝ
  | [] => 0
  | x :: rest => rest.foldl max x

/-- One iteration of the footprint loop of `Agent::new`
(agent.rs:103-154): rotate the four corners, round the bounding box,
keep every cell of the box that passes the SAT test against the agent
rectangle centered at `(0.5, 0.5)`. -/
noncomputable def footprintForIncrement (half_width half_height angle : ℝ) :
    List (ℤ × ℤ) :=
  let corners := [(-half_width, -half_height), (half_width, -half_height),
    (half_width, half_height), (-half_width, half_height)]
  let transformed := corners.map (fun c => rotate c.1 c.2 angle)
  let min_x := foldMin (transformed.map Prod.fst)
  let max_x := foldMax (transformed.map Prod.fst)
  let min_y := foldMin (transformed.map Prod.snd)
  let max_y := foldMax (transformed.map Prod.snd)
  (intRange (roundAway min_x) (roundAway max_x)).flatMap (fun (x : ℤ) =>
    (intRange (roundAway min_y) (roundAway max_y)).filterMap (fun (y : ℤ) =>
      if aabb_rect_collision (x : ℝ) (y : ℝ) 0.5 0.5 half_width half_height
          angle
      then some (x, y) else none))

/-- The `footprints_cache` built by `Agent::new` (agent.rs:98-163) for a
given `size` and `max_increments`. -/
noncomputable def Agent.footprints (size_x size_y : ℝ) (m : ℕ) :
    List (List (ℤ × ℤ)) :=
  let half_width := size_x / 2
  let half_height := size_y / 2
  (List.range m).map (fun (increment : ℕ) =>
    footprintForIncrement half_width half_height
      (2 * Real.pi * (increment : ℝ) / m))

/-- `Agent::rotation_footprint` (agent.rs:165-167): direct index into
the cache (the verified scenarios only index in range). -/
def Agent.rotation_footprint (cache : List (List (ℤ × ℤ))) (rotation : ℤ) :
    List (ℤ × ℤ) :=
  if rotation < 0 then [] else cache.getD rotation.toNat []

/-! ## §9 `pathfind` (main.rs:122-200) -/

/-- The neighbor closure of `pathfind` (main.rs:162-184): template
neighbors, filtered by the occupancy of the target cell and of the whole
rotated footprint, each paired with its edge cost.  A well-formed grid
never panics in `is_cell_blocked`; the `getD true` default is dead code
kept for totality. -/
noncomputable def pathfindNeighbors (grid : Grid)
    (cache : List (List ((ℤ × ℤ) × ℤ × Bool)))
    (footprints : List (List (ℤ × ℤ))) (m : ℕ) (action : Cell) :
    List (Cell × ℕ) :=
  (action.neighbors cache).foldr (fun neigh acc =>
    if (grid.is_cell_blocked neigh.x neigh.y).getD true = false then
      let cost := neigh.cost (some action) m
      let rotation_footprint := Agent.rotation_footprint footprints neigh.rotation
      if rotation_footprint.all (fun cell =>
          (grid.is_cell_blocked (cell.1 + neigh.x) (cell.2 + neigh.y)).getD true
            = false) then
        (neigh, cost) :: acc
      else acc
    else acc) []

/-- `pathfind` (main.rs:122-200): run `optimized_astar` from the agent's
pose over the template neighbors, the distance heuristic and the
position-only goal test.  The start cell's `reverse` flag is `false`
(`Cell::new` is called without one in main.rs:124 — the crate is
mid-refactor and this is the only reading).  `fuel` bounds the loop of
the fueled embedding. -/
noncomputable def pathfind (grid : Grid)
    (cache : List (List ((ℤ × ℤ) × ℤ × Bool)))
    (footprints : List (List (ℤ × ℤ))) (agent_rotation : ℤ)
    (agent_x agent_y : ℤ) (to_x to_y : ℤ) (m : ℕ) (fuel : ℕ) :
    Option (List Cell × ℕ) :=
  let start_action := Cell.mk agent_rotation agent_x agent_y false
  optimized_astar Cell fuel start_action
    (pathfindNeighbors grid cache footprints m)
    (fun action => action.heuristic to_x to_y)
    (fun action => decide (action.x = to_x) && decide (action.y = to_y))

/-! ## §10 An executable instance of the C9 scenario

The reverse-preference scenario of C9 (an empty grid, `max_increments 8`,
`arc 1`, start `(5,5)` heading `0`, goal `(5,6)`; grid `6 × 7`, which
contains both poses) is decided by running the very same search loop on
a ℕ-encoded copy of the state space: states are packed as
`(y*8 + x)*8 + rotation`, the two `HashMap`s become binary tries keyed
by the 9-bit code, and the motion-template/cost tables are the concrete
values the precomputation is proved (below) to produce.  The simulation
theorem `astarWith_sim` transports the result of this executable
instance back to the real-valued model `pathfind`. -/

/-- A binary trie: an executable map keyed by the low `d` bits of a ℕ. -/
inductive BTrie (V : Type) where
  | nil : BTrie V
  | node (val : Option V) (l r : BTrie V) : BTrie V

/-- Lookup by the `d` low bits of `k`, least significant first. -/
def BTrie.find : BTrie V → ℕ → ℕ → Option V
  | .nil, _, _ => none
  | .node v _ _, _, 0 => v
  | .node _ l r, k, d + 1 =>
      BTrie.find (if k % 2 = 1 then r else l) (k / 2) d

/-- Insert at the `d` low bits of `k`. -/
def BTrie.insert : BTrie V → ℕ → ℕ → V → BTrie V
  | .nil, _, 0, v => .node (some v) .nil .nil
  | .node _ l r, _, 0, v => .node (some v) l r
  | .nil, k, d + 1, v =>
      if k % 2 = 1 then .node none .nil (BTrie.insert .nil (k / 2) d v)
      else .node none (BTrie.insert .nil (k / 2) d v) .nil
  | .node w l r, k, d + 1, v =>
      if k % 2 = 1 then .node w l (BTrie.insert r (k / 2) d v)
      else .node w (BTrie.insert l (k / 2) d v) r

/-- The trie map with 9-bit keys (the scenario's state codes are
`< 456 < 2^9`). -/
def trieOps (V : Type) : MapOps ℕ V (BTrie V) :=
  ⟨.nil, fun m k => m.find k 9, fun m k v => m.insert k 9 v⟩

/-- Pack a scenario cell into its ℕ code (injective on the valid
poses of the `6 × 7` grid; the `reverse` flag is dropped exactly as the
source's `PartialEq` ignores it). -/
def encCell (c : Cell) : ℕ :=
  (c.y.toNat * 8 + c.x.toNat) * 8 + c.rotation.toNat

/-- A pose the C9 search can reach: on the `6 × 7` grid with a heading
in `[0, 8)`. -/
def CellOK (c : Cell) : Prop :=
  0 ≤ c.x ∧ c.x < 6 ∧ 0 ≤ c.y ∧ c.y < 7 ∧ 0 ≤ c.rotation ∧ c.rotation < 8

instance (c : Cell) : Decidable (CellOK c) := by
  unfold CellOK
  infer_instance

/-- The empty `6 × 7` grid of the C9 scenario (`Grid::new` with 42
cells). -/
def grid67 : Grid := ⟨6, 7, BitArray.new 42⟩

/-- The motion-template line for heading `r` with the edge costs of the
scenario, ℕ-encoded: entries `(dx+1, dy+1, targetHeading, cost)` (the
offsets are shifted by `+1` to stay in ℕ).  These are the values
`NeighborCache::precompute 8 1` and `Cell::cost` are proved to produce
(`cache_eval`, `cost_eval` below). -/
def rowN : ℕ → List (ℕ × ℕ × ℕ × ℕ)
  | 0 => [(2, 0, 7, 2724), (2, 1, 0, 1000), (2, 2, 1, 2724), (1, 2, 6, 18050), (0, 2, 7, 27240), (0, 1, 0, 10000), (0, 0, 1, 27240), (1, 0, 2, 18050)]
  | 1 => [(2, 1, 0, 1724), (2, 2, 1, 2000), (1, 2, 2, 1724), (0, 2, 7, 28050), (0, 1, 0, 17240), (0, 0, 1, 20000), (1, 0, 2, 17240), (2, 0, 3, 28050)]
  | 2 => [(2, 2, 1, 2724), (1, 2, 2, 1000), (0, 2, 3, 2724), (0, 1, 0, 18050), (0, 0, 1, 27240), (1, 0, 2, 10000), (2, 0, 3, 27240), (2, 1, 4, 18050)]
  | 3 => [(1, 2, 2, 1724), (0, 2, 3, 2000), (0, 1, 4, 1724), (0, 0, 1, 28050), (1, 0, 2, 17240), (2, 0, 3, 20000), (2, 1, 4, 17240), (2, 2, 5, 28050)]
  | 4 => [(0, 2, 3, 2724), (0, 1, 4, 1000), (0, 0, 5, 2724), (1, 0, 2, 18050), (2, 0, 3, 27240), (2, 1, 4, 10000), (2, 2, 5, 27240), (1, 2, 6, 18050)]
  | 5 => [(0, 1, 4, 1724), (0, 0, 5, 2000), (1, 0, 6, 1724), (2, 0, 3, 28050), (2, 1, 4, 17240), (2, 2, 5, 20000), (1, 2, 6, 17240), (0, 2, 7, 28050)]
  | 6 => [(0, 0, 5, 2724), (1, 0, 6, 1000), (2, 0, 7, 2724), (2, 1, 4, 18050), (2, 2, 5, 27240), (1, 2, 6, 10000), (0, 2, 7, 27240), (0, 1, 0, 18050)]
  | 7 => [(1, 0, 6, 1724), (2, 0, 7, 2000), (2, 1, 0, 1724), (2, 2, 5, 28050), (1, 2, 6, 17240), (0, 2, 7, 20000), (0, 1, 0, 17240), (0, 0, 1, 28050)]
  | _ => []

/-- The neighbor function of the executable instance: decode the state
code, walk its template line, keep in-grid targets. -/
def neighborsN (k : ℕ) : List (ℕ × ℕ) :=
  (rowN (k % 8)).foldr (fun ent acc =>
    let nxp := k / 8 % 8 + ent.1
    let nyp := k / 8 / 8 + ent.2.1
    if 1 ≤ nxp ∧ nxp ≤ 6 ∧ 1 ≤ nyp ∧ nyp ≤ 7 then
      (((nyp - 1) * 8 + (nxp - 1)) * 8 + ent.2.2.1, ent.2.2.2) :: acc
    else acc) []

/-- The heuristic of the executable instance: `10 ·` squared distance
to the goal (`Cell::heuristic` is proved to equal this on valid
codes). -/
def heurN (gx gy k : ℕ) : ℕ :=
  10 * ((max (k / 8 % 8) gx - min (k / 8 % 8) gx) ^ 2 +
    (max (k / 8 / 8) gy - min (k / 8 / 8) gy) ^ 2)

/-- The position-only goal test of the executable instance. -/
def goalN (gx gy k : ℕ) : Bool :=
  decide (k / 8 % 8 = gx) && decide (k / 8 / 8 = gy)

/-- The C9 search, executable: start `(5,5)` heading `0` (code `360`),
goal `(5,6)`, fuel `120`. -/
def runC9 : Option (List ℕ × ℕ) :=
  astarWith (trieOps ℕ) (trieOps ℕ) 120 ((5 * 8 + 5) * 8)
    neighborsN (heurN 5 6) (goalN 5 6)

/-! # Theorems -/

/-! ## §4 Claims C2, C5, C7, C8 -/

/-- Spec-side description for C2: the bit of a well-formed grid at the
flat index `y*width + x`. -/
def Grid.bitAt (g : Grid) (x y : ℤ) : Bool :=
  ((g.cells.bits.getD ((y * g.width + x).toNat / 32) 0) &&& (1 <<< ((y * g.width + x).toNat % 32))) ≠ 0

/-- C2: on a well-formed grid, `is_cell_blocked (x, y)` returns `true`
for every coordinate outside `[0,width) × [0,height)`, and otherwise
returns (without failing) the value of the packed bit at index
`y*width + x`. -/
theorem C2_is_cell_blocked_spec (g : Grid) (hwf : g.WF) (x y : ℤ) :
    (¬ (0 ≤ x ∧ x < g.width ∧ 0 ≤ y ∧ y < g.height) →
       g.is_cell_blocked x y = some true) ∧
    ((0 ≤ x ∧ x < g.width ∧ 0 ≤ y ∧ y < g.height) →
       g.is_cell_blocked x y = some (g.bitAt x y)) := by
  constructor
  · intro hout
    unfold Grid.is_cell_blocked
    rw [if_pos]
    omega
  · rintro ⟨h0, h1, h2, h3⟩
    unfold Grid.is_cell_blocked
    rw [if_neg (by push_neg; exact ⟨h0, h1, h2, h3⟩)]
    unfold BitArray.get_bool BitArray.is_bit_set
    rw [if_pos]
    · rfl
    · -- the flat index is below the declared capacity
      rw [hwf.1]
      unfold Grid.index
      have hx : x < g.width := h1
      have hy : y < g.height := h3
      have hw : 0 < g.width := lt_of_le_of_lt h0 h1
      have hbound : y * g.width + x < g.width * g.height := by
        have hy' : y + 1 ≤ g.height := hy
        calc y * g.width + x < y * g.width + g.width := by omega
          _ = (y + 1) * g.width := by ring
          _ ≤ g.height * g.width := by
              apply mul_le_mul_of_nonneg_right hy' (le_of_lt hw)
          _ = g.width * g.height := by ring
      have hnn : 0 ≤ y * g.width := mul_nonneg h2 (le_of_lt hw)
      omega

/-- C2 witness: a concrete well-formed 2×2 grid with bit (1,0) set:
in-range reads return the bit, out-of-range reads return `some true`. -/
theorem C2_is_cell_blocked_spec_witness :
    (let g : Grid := ⟨2, 2, (BitArray.new 4).set_bit 1⟩
     g.WF ∧ g.is_cell_blocked 1 0 = some (g.bitAt 1 0) ∧
       g.bitAt 1 0 = true ∧ g.is_cell_blocked 0 0 = some false ∧
       g.is_cell_blocked 2 0 = some true ∧ g.is_cell_blocked 0 (-1) = some true) := by
  refine ⟨⟨by decide, by decide⟩, (C2_is_cell_blocked_spec _ ⟨by decide, by decide⟩ 1 0).2 (by decide), by decide, by decide, ?_, ?_⟩
  · exact (C2_is_cell_blocked_spec _ ⟨by decide, by decide⟩ 2 0).1 (by decide)
  · exact (C2_is_cell_blocked_spec _ ⟨by decide, by decide⟩ 0 (-1)).1 (by decide)

/-- C7 (general form of the divergence): every write at or beyond the
declared capacity is a silent no-op — `set_bit`, `clear_bit` and
`toggle_bit` return the array unchanged instead of failing fast. -/
theorem C7_out_of_range_writes_are_silent_noops (b : BitArray) (position : ℕ)
    (h : b.num_bits ≤ position) :
    b.set_bit position = b ∧ b.clear_bit position = b ∧ b.toggle_bit position = b := by
  unfold BitArray.set_bit BitArray.clear_bit BitArray.toggle_bit
  refine ⟨?_, ?_, ?_⟩ <;> rw [if_neg (by omega)]

/-- C7 witness: writing bit 64 of a 64-bit array silently does nothing
(the failing input of the claim). -/
theorem C7_out_of_range_writes_are_silent_noops_witness :
    (BitArray.new 64).num_bits ≤ 64 ∧
      (BitArray.new 64).set_bit 64 = BitArray.new 64 ∧
      (BitArray.new 64).clear_bit 64 = BitArray.new 64 ∧
      (BitArray.new 64).toggle_bit 64 = BitArray.new 64 :=
  ⟨by decide, C7_out_of_range_writes_are_silent_noops (BitArray.new 64) 64 (by decide)⟩

/-- C5: two cells at the same position with the same rotation but
different `reverse` flags compare equal under the source's `PartialEq`,
yet feed different field streams to the hasher (`Hash` includes
`reverse`), so equal keys need not have equal hashes — the code violates
the `Eq`/`Hash` contract the search's hash maps rely on. -/
theorem C5_equal_cells_different_hash_stream :
    (Cell.mk 0 0 0 false == Cell.mk 0 0 0 true) = true ∧
      Cell.hashStream (Cell.mk 0 0 0 false) ≠ Cell.hashStream (Cell.mk 0 0 0 true) := by
  constructor
  · decide
  · decide

/-- C8 counterexample: `clamp_rotation` is *not* reduction modulo
`max_increments` on all integers: at rotation `-10` with
`max_increments = 8` it returns `-2`, which is neither `(-10) mod 8 = 6`
nor inside `[0, 8)`. -/
theorem C8_clamp_rotation_not_modular_counterexample :
    Cell.clamp_rotation (-10) 8 = -2 ∧ (-10 : ℤ) % 8 = 6 ∧
      ¬ (0 ≤ Cell.clamp_rotation (-10) 8) := by
  refine ⟨by decide, by decide, by decide⟩

/-- C8 (amended): `clamp_rotation r m` agrees with `r mod m` and lands in
`[0, m)` for every `m > 0` and every `r` within one wrap of the range,
i.e. `-m ≤ r < 2m` — the only inputs the search ever produces, since the
source always passes `r + i` with `r ∈ [0, m)` and `|i| ≤ 2·arc ≤ m`. -/
theorem C8_clamp_rotation_modular (r m : ℤ) (hm : 0 < m) (hlo : -m ≤ r)
    (hhi : r < 2 * m) :
    Cell.clamp_rotation r m = r % m ∧ 0 ≤ Cell.clamp_rotation r m ∧
      Cell.clamp_rotation r m < m := by
  unfold Cell.clamp_rotation
  by_cases h1 : r < 0
  · rw [if_pos h1]
    have h3 := Int.add_mul_emod_self_left (a := r) (b := m) (c := 1)
    rw [mul_one] at h3
    have h4 : (r + m) % m = r + m := Int.emod_eq_of_lt (by omega) (by omega)
    omega
  · rw [if_neg h1]
    by_cases h2 : r ≥ m
    · rw [if_pos h2]
      have h3 := Int.add_mul_emod_self_left (a := r - m) (b := m) (c := 1)
      rw [mul_one] at h3
      have he : r - m + m = r := by ring
      rw [he] at h3
      have h4 : (r - m) % m = r - m := Int.emod_eq_of_lt (by omega) (by omega)
      omega
    · rw [if_neg h2]
      have h4 : r % m = r := Int.emod_eq_of_lt (by omega) (by omega)
      omega

/-- C8 witness: the amended statement at `r = -3`, `m = 8`. -/
theorem C8_clamp_rotation_modular_witness :
    (0 : ℤ) < 8 ∧ (-8 : ℤ) ≤ -3 ∧ (-3 : ℤ) < 2 * 8 ∧
      (Cell.clamp_rotation (-3) 8 = (-3) % 8 ∧ 0 ≤ Cell.clamp_rotation (-3) 8 ∧
        Cell.clamp_rotation (-3) 8 < 8) :=
  ⟨by decide, by decide, by decide, C8_clamp_rotation_modular (-3) 8 (by decide) (by decide) (by decide)⟩

/-! ## Heap node predicates -/

theorem PHeap.All.imp {P Q : AStarNode T → Prop} (hpq : ∀ nd, P nd → Q nd) :
    ∀ {h : PHeap T}, PHeap.All P h → PHeap.All Q h := by
  intro h hall
  induction hall with
  | nil => exact .nil
  | node hp _ ih => exact .node (hpq _ hp) ih

theorem PHeap.All.merge {P : AStarNode T → Prop} {a b : PHeap T}
    (ha : PHeap.All P a) (hb : PHeap.All P b) : PHeap.All P (a.merge b) := by
  cases a with
  | nil => simpa [PHeap.merge] using hb
  | node n1 c1 =>
      cases b with
      | nil => simpa [PHeap.merge] using ha
      | node n2 c2 =>
          cases ha with
          | node hp1 hc1 =>
              cases hb with
              | node hp2 hc2 =>
                  simp only [PHeap.merge]
                  split
                  · refine .node hp1 ?_
                    intro h hh
                    rcases List.mem_cons.mp hh with rfl | hh
                    · exact .node hp2 hc2
                    · exact hc1 h hh
                  · refine .node hp2 ?_
                    intro h hh
                    rcases List.mem_cons.mp hh with rfl | hh
                    · exact .node hp1 hc1
                    · exact hc2 h hh

theorem PHeap.All.mergePairs {P : AStarNode T → Prop} :
    ∀ (l : List (PHeap T)), (∀ h ∈ l, PHeap.All P h) →
      PHeap.All P (PHeap.mergePairs l)
  | [], _ => .nil
  | [h], hl => hl h (by simp)
  | h₁ :: h₂ :: rest, hl => by
      rw [PHeap.mergePairs]
      exact ((hl h₁ (by simp)).merge (hl h₂ (by simp))).merge
        (PHeap.All.mergePairs rest (fun h hh => hl h (by simp [hh])))

theorem PHeap.All.push {P : AStarNode T → Prop} {h : PHeap T}
    (hh : PHeap.All P h) {nd : AStarNode T} (hnd : P nd) :
    PHeap.All P (h.push nd) :=
  hh.merge (.node hnd (by intro x hx; cases hx))

theorem PHeap.All.pop {P : AStarNode T → Prop} {h : PHeap T}
    (hh : PHeap.All P h) {nd : AStarNode T} {rest : PHeap T}
    (he : h.pop = some (nd, rest)) : P nd ∧ PHeap.All P rest := by
  cases hh with
  | nil => simp [PHeap.pop] at he
  | node hp hc =>
      simp only [PHeap.pop, Option.some.injEq, Prod.mk.injEq] at he
      obtain ⟨rfl, rfl⟩ := he
      exact ⟨hp, PHeap.All.mergePairs _ hc⟩

/-! ## Predecessor-map invariants -/

theorem Reach.mono [BEq T] {start : T} {cf : List (T × T)} {s : T}
    (h : Reach start cf s) (k v : T) : Reach start ((k, v) :: cf) s := by
  rcases h with rfl | h
  · exact Or.inl rfl
  · right
    simp only [assocFind]
    split <;> simp_all

theorem InvCF.insert [BEq T] {start : T} {cf : List (T × T)}
    (hinv : InvCF start cf) {cur : T} (hcur : Reach start cf cur) (n : T) :
    InvCF start ((n, cur) :: cf) := by
  intro k v hfind
  simp only [assocFind] at hfind
  split at hfind
  · cases hfind
    exact hcur.mono n cur
  · exact (hinv k v hfind).mono n cur

/-- The neighbor loop preserves the heap and predecessor-map
invariants.  `hrefl` is reflexivity of the state type's `==`
(a `Hash`/`Eq` prerequisite of the source's `HashMap`s). -/
theorem astarFold_inv [BEq T] (hrefl : ∀ t : T, (t == t) = true)
    {start : T} (hf : T → ℕ) (cur : T) :
    ∀ (l : List (T × ℕ)) (o : PHeap T) (cf : List (T × T)) (g : List (T × ℕ))
      (o2 : PHeap T) (cf2 : List (T × T)) (g2 : List (T × ℕ)),
      astarFold (assocOps T T) (assocOps T ℕ) hf cur l (o, cf, g) =
          some (o2, cf2, g2) →
      PHeap.All (fun nd => Reach start cf nd.state) o →
      InvCF start cf → Reach start cf cur →
      PHeap.All (fun nd => Reach start cf2 nd.state) o2 ∧ InvCF start cf2
  | [], o, cf, g, o2, cf2, g2, he, hall, hinv, _ => by
      simp only [astarFold, Option.some.injEq, Prod.mk.injEq] at he
      obtain ⟨rfl, rfl, rfl⟩ := he
      exact ⟨hall, hinv⟩
  | (neighbor, move_cost) :: rest, o, cf, g, o2, cf2, g2, he, hall, hinv, hcur => by
      rw [astarFold] at he
      rcases hg : (assocOps T ℕ).find g cur with _ | gc
      · rw [hg] at he
        cases he
      · rw [hg] at he
        simp only at he
        split at he
        · refine astarFold_inv hrefl hf cur rest _ _ _ _ _ _ he ?_ ?_ ?_
          · refine PHeap.All.push (hall.imp ?_) ?_
            · exact fun nd hnd => hnd.mono neighbor cur
            · right
              show (assocFind ((neighbor, cur) :: cf) neighbor).isSome
              simp [assocFind, hrefl neighbor]
          · exact hinv.insert hcur neighbor
          · exact hcur.mono neighbor cur
        · exact astarFold_inv hrefl hf cur rest _ _ _ _ _ _ he hall hinv hcur

/-- A completed predecessor walk from a reachable state is a non-empty
chain from that state back to the start state. -/
theorem predWalk_chain [BEq T] {start : T} {cf : List (T × T)}
    (hinv : InvCF start cf) :
    ∀ (fuel : ℕ) (s : T), Reach start cf s →
      ∀ chain, predWalk (assocFind cf) fuel s = some chain →
        chain ≠ [] ∧ chain.head? = some s ∧ chain.getLast? = some start
  | 0, s, _, chain, he => by cases he
  | fuel + 1, s, hs, chain, he => by
      rw [predWalk] at he
      rcases hf : assocFind cf s with _ | next
      · rw [hf] at he
        cases he
        rcases hs with rfl | hs
        · exact ⟨by simp, by simp, by simp⟩
        · rw [hf] at hs
          cases hs
      · rw [hf] at he
        have he2 : Option.map (fun x => s :: x)
            (predWalk (assocFind cf) fuel next) = some chain := he
        rcases hw : predWalk (assocFind cf) fuel next with _ | chain'
        · rw [hw] at he2
          cases he2
        · rw [hw] at he2
          cases he2
          have hnext : Reach start cf next := hinv s next hf
          obtain ⟨hne, _, hlast⟩ := predWalk_chain hinv fuel next hnext chain' hw
          refine ⟨by simp, by simp, ?_⟩
          cases chain' with
          | nil => exact absurd rfl hne
          | cons a t =>
              show (s :: a :: t).getLast? = some start
              rw [List.getLast?_cons_cons]
              exact hlast

/-- Main induction for C1: whenever the loop returns a result, the path
is the reversed predecessor chain of a goal state, and therefore starts
at the start state and ends in a goal state. -/
theorem astarLoop_result [BEq T] (hrefl : ∀ t : T, (t == t) = true)
    {start : T} (nf : T → List (T × ℕ)) (hf : T → ℕ) (gf : T → Bool) :
    ∀ (fuel : ℕ) (o : PHeap T) (cf : List (T × T)) (g : List (T × ℕ))
      (path : List T) (cost : ℕ),
      astarLoop (assocOps T T) (assocOps T ℕ) nf hf gf fuel o cf g =
          some (path, cost) →
      PHeap.All (fun nd => Reach start cf nd.state) o →
      InvCF start cf →
      path ≠ [] ∧ path.head? = some start ∧
        (∃ g2, path.getLast? = some g2 ∧ gf g2 = true) ∧
        (∃ (cfX : List (T × T)) (n : ℕ) (s : T), gf s = true ∧
          predWalk (assocFind cfX) n s = some path.reverse)
  | 0, o, cf, g, path, cost, he, _, _ => by cases he
  | fuel + 1, o, cf, g, path, cost, he, hall, hinv => by
      rw [astarLoop_succ] at he
      unfold astarStep at he
      rcases hp : o.pop with _ | ⟨cur, rest⟩
      · rw [hp] at he
        cases he
      · rw [hp] at he
        obtain ⟨hcur, hrest⟩ := hall.pop hp
        simp only at he
        split at he
        · rcases hw : predWalk ((assocOps T T).find cf) (fuel + 1) cur.state with _ | chain
          · rw [hw] at he
            cases he
          · rw [hw] at he
            cases he
            obtain ⟨hne, hhead, hlast⟩ :=
              predWalk_chain hinv (fuel + 1) cur.state hcur chain hw
            refine ⟨by simpa using hne, ?_, ?_, ?_⟩
            · rw [List.head?_reverse]
              exact hlast
            · refine ⟨cur.state, ?_, by assumption⟩
              rw [List.getLast?_reverse]
              exact hhead
            · exact ⟨cf, fuel + 1, cur.state, by assumption, by simpa using hw⟩
        · rcases hfold : astarFold (assocOps T T) (assocOps T ℕ) hf cur.state
              (nf cur.state) (rest, cf, g) with _ | ⟨o2, cf2, g2⟩
          · rw [hfold] at he
            cases he
          · rw [hfold] at he
            simp only at he
            obtain ⟨hall2, hinv2⟩ :=
              astarFold_inv hrefl hf cur.state (nf cur.state) rest cf g o2 cf2 g2
                hfold hrest hinv hcur
            exact astarLoop_result hrefl nf hf gf fuel o2 cf2 g2 path cost he
              hall2 hinv2

/-- C1: whenever `optimized_astar` returns `some (path, cost)`, the path
is non-empty, its first element is the start state, its last element
satisfies the goal predicate, and the path is the reversal of a
predecessor-chain walk from the goal state back to the start. -/
theorem C1_astar_path_shape (T : Type) [BEq T]
    (hrefl : ∀ t : T, (t == t) = true) (fuel : ℕ) (start : T)
    (neighbors_fn : T → List (T × ℕ)) (heuristic_fn : T → ℕ)
    (goal_fn : T → Bool) (path : List T) (cost : ℕ)
    (h : optimized_astar T fuel start neighbors_fn heuristic_fn goal_fn =
      some (path, cost)) :
    path ≠ [] ∧ path.head? = some start ∧
      (∃ g2, path.getLast? = some g2 ∧ goal_fn g2 = true) ∧
      (∃ (cfX : List (T × T)) (n : ℕ) (s : T), goal_fn s = true ∧
        predWalk (assocFind cfX) n s = some path.reverse) := by
  refine astarLoop_result hrefl neighbors_fn heuristic_fn goal_fn fuel _ _ _
    path cost h ?_ ?_
  · refine PHeap.All.push .nil ?_
    exact Or.inl rfl
  · intro k v hfind
    cases hfind

/-- C1 witness: a one-state search (the start is the goal) returns the
path `[0]`, which satisfies all four conclusions. -/
theorem C1_astar_path_shape_witness :
    (∀ t : ℕ, (t == t) = true) ∧
      optimized_astar ℕ 1 0 (fun _ => []) (fun _ => 0) (fun n => n == 0) =
        some ([0], 0) ∧
      ([0] : List ℕ) ≠ [] ∧ ([0] : List ℕ).head? = some 0 ∧
      (∃ g2, ([0] : List ℕ).getLast? = some g2 ∧ (g2 == 0) = true) ∧
      (∃ (cfX : List (ℕ × ℕ)) (n : ℕ) (s : ℕ), (s == 0) = true ∧
        predWalk (assocFind cfX) n s = some ([0] : List ℕ).reverse) := by
  refine ⟨fun t => by simp, by decide, ?_⟩
  exact C1_astar_path_shape ℕ (fun t => by simp) 1 0 (fun _ => []) (fun _ => 0)
    (fun n => n == 0) [0] 0 (by decide)

/-! ## `PHeap.map` commutes with the heap operations -/

theorem PHeap.map_merge (f : T → U) (a b : PHeap T) :
    (a.merge b).map f = (a.map f).merge (b.map f) := by
  cases a with
  | nil => simp [PHeap.merge, PHeap.map]
  | node n1 c1 =>
      cases b with
      | nil => simp [PHeap.merge, PHeap.map]
      | node n2 c2 =>
          simp only [PHeap.merge, PHeap.map]
          by_cases h : n1.f_cost ≤ n2.f_cost
          · rw [if_pos h, if_pos (by simpa [AStarNode.map] using h)]
            simp [PHeap.map, PHeap.mapL]
          · rw [if_neg h, if_neg (by simpa [AStarNode.map] using h)]
            simp [PHeap.map, PHeap.mapL]

theorem PHeap.map_mergePairs (f : T → U) :
    ∀ l : List (PHeap T),
      (PHeap.mergePairs l).map f = PHeap.mergePairs (PHeap.mapL f l)
  | [] => by simp [PHeap.mergePairs, PHeap.map, PHeap.mapL]
  | [h] => by simp [PHeap.mergePairs, PHeap.mapL]
  | h₁ :: h₂ :: rest => by
      show ((h₁.merge h₂).merge (PHeap.mergePairs rest)).map f = _
      rw [PHeap.map_merge, PHeap.map_merge, PHeap.map_mergePairs f rest]
      rfl

theorem PHeap.map_push (f : T → U) (h : PHeap T) (nd : AStarNode T) :
    (h.push nd).map f = (h.map f).push (nd.map f) := by
  unfold PHeap.push
  rw [PHeap.map_merge]
  rfl

theorem PHeap.map_pop (f : T → U) (h : PHeap T) :
    (h.map f).pop = h.pop.map (fun p => (p.1.map f, p.2.map f)) := by
  cases h with
  | nil => rfl
  | node n c => simp [PHeap.pop, PHeap.map, PHeap.map_mergePairs]

/-! ## Simulation: the search result only depends on the map
implementations through the map law, and is preserved by injective
re-encodings of the state space. -/

theorem predWalk_sim (find1 : T → Option T) (find2 : U → Option U)
    (e : T → U) (P : T → Prop)
    (hrel : ∀ s, P s → find2 (e s) = (find1 s).map e)
    (hval : ∀ s v, P s → find1 s = some v → P v) :
    ∀ (fuel : ℕ) (s : T), P s →
      predWalk find2 fuel (e s) = (predWalk find1 fuel s).map (List.map e)
  | 0, s, _ => rfl
  | fuel + 1, s, hs => by
      simp only [predWalk]
      rw [hrel s hs]
      rcases h : find1 s with _ | next
      · rfl
      · show Option.map (fun x => e s :: x) (predWalk find2 fuel (e next)) =
          Option.map (List.map e)
            (Option.map (fun x => s :: x) (predWalk find1 fuel next))
        rw [predWalk_sim find1 find2 e P hrel hval fuel next (hval s next hs h)]
        rcases predWalk find1 fuel next with _ | chain <;> rfl

theorem astarFold_sim [BEq T] [BEq U]
    {Mc1 Mg1 Mc2 Mg2 : Type}
    (mcf1 : MapOps T T Mc1) (mg1 : MapOps T ℕ Mg1)
    (mcf2 : MapOps U U Mc2) (mg2 : MapOps U ℕ Mg2)
    (e : T → U) (P : T → Prop) (Q : U → Prop) (hQ : ∀ s, P s → Q (e s))
    (lcf1 : MapLawfulOn P mcf1) (lg1 : MapLawfulOn P mg1)
    (lcf2 : MapLawfulOn Q mcf2) (lg2 : MapLawfulOn Q mg2)
    (hkey : ∀ s t, P s → P t → (e s == e t) = (s == t))
    (h1 : T → ℕ) (h2 : U → ℕ) (hh : ∀ s, P s → h2 (e s) = h1 s)
    (cur : T) (hcur : P cur) :
    ∀ (l : List (T × ℕ)), (∀ p ∈ l, P p.1) →
      ∀ (o1 : PHeap T) (cf1 : Mc1) (g1 : Mg1) (cf2 : Mc2) (g2 : Mg2),
      (∀ k, P k → mcf2.find cf2 (e k) = (mcf1.find cf1 k).map e) →
      (∀ k, P k → mg2.find g2 (e k) = mg1.find g1 k) →
      PHeap.All (fun nd => P nd.state) o1 →
      CFValues mcf1 P cf1 →
      (astarFold mcf1 mg1 h1 cur l (o1, cf1, g1) = none →
        astarFold mcf2 mg2 h2 (e cur) (l.map (fun p => (e p.1, p.2)))
          (PHeap.map e o1, cf2, g2) = none) ∧
      (∀ o' cf' g',
        astarFold mcf1 mg1 h1 cur l (o1, cf1, g1) = some (o', cf', g') →
        ∃ cf2' g2',
          astarFold mcf2 mg2 h2 (e cur) (l.map (fun p => (e p.1, p.2)))
            (PHeap.map e o1, cf2, g2) = some (PHeap.map e o', cf2', g2') ∧
          (∀ k, P k → mcf2.find cf2' (e k) = (mcf1.find cf' k).map e) ∧
          (∀ k, P k → mg2.find g2' (e k) = mg1.find g' k) ∧
          PHeap.All (fun nd => P nd.state) o' ∧ CFValues mcf1 P cf')
  | [], _, o1, cf1, g1, cf2, g2, hcf, hg, hall, hvals => by
      constructor
      · intro h
        cases h
      · intro o' cf' g' h
        simp only [astarFold, Option.some.injEq, Prod.mk.injEq] at h
        obtain ⟨rfl, rfl, rfl⟩ := h
        exact ⟨cf2, g2, rfl, hcf, hg, hall, hvals⟩
  | (n, w) :: rest, hl, o1, cf1, g1, cf2, g2, hcf, hg, hall, hvals => by
      have hn : P n := hl (n, w) (by simp)
      have hrest : ∀ p ∈ rest, P p.1 := fun p hp => hl p (by simp [hp])
      simp only [List.map_cons, astarFold]
      rw [hg cur hcur]
      rcases hgc : mg1.find g1 cur with _ | gc
      · exact ⟨fun _ => rfl, fun o' cf' g' h => by cases h⟩
      · simp only
        rw [hg n hn]
        by_cases hcond : gc + w < (mg1.find g1 n).getD (2 ^ 32 - 1)
        · rw [if_pos hcond, if_pos hcond]
          rw [hh n hn]
          have hpush : PHeap.map e (o1.push ⟨n, gc + w, gc + w + h1 n⟩) =
              (PHeap.map e o1).push ⟨e n, gc + w, gc + w + h1 n⟩ := by
            rw [PHeap.map_push]
            rfl
          rw [← hpush]
          refine astarFold_sim mcf1 mg1 mcf2 mg2 e P Q hQ lcf1 lg1 lcf2 lg2 hkey
            h1 h2 hh cur hcur rest hrest _ _ _ _ _ ?_ ?_ ?_ ?_
          · intro k hk
            rw [lcf2.1 _ _ _ _ (hQ n hn) (hQ k hk), lcf1.1 _ _ _ _ hn hk,
              hkey k n hk hn]
            by_cases hkn : (k == n) = true
            · simp [hkn]
            · have : (k == n) = false := by
                cases h : (k == n)
                · rfl
                · exact absurd h hkn
              simp only [this, Bool.false_eq_true, if_false]
              exact hcf k hk
          · intro k hk
            rw [lg2.1 _ _ _ _ (hQ n hn) (hQ k hk), lg1.1 _ _ _ _ hn hk,
              hkey k n hk hn]
            by_cases hkn : (k == n) = true
            · simp [hkn]
            · have : (k == n) = false := by
                cases h : (k == n)
                · rfl
                · exact absurd h hkn
              simp only [this, Bool.false_eq_true, if_false]
              exact hg k hk
          · exact hall.push hn
          · intro k v hk hfind
            rw [lcf1.1 _ _ _ _ hn hk] at hfind
            split at hfind
            · cases hfind
              exact hcur
            · exact hvals k v hk hfind
        · rw [if_neg hcond, if_neg hcond]
          exact astarFold_sim mcf1 mg1 mcf2 mg2 e P Q hQ lcf1 lg1 lcf2 lg2 hkey
            h1 h2 hh cur hcur rest hrest o1 cf1 g1 cf2 g2 hcf hg hall hvals

theorem astarLoop_sim [BEq T] [BEq U]
    {Mc1 Mg1 Mc2 Mg2 : Type}
    (mcf1 : MapOps T T Mc1) (mg1 : MapOps T ℕ Mg1)
    (mcf2 : MapOps U U Mc2) (mg2 : MapOps U ℕ Mg2)
    (e : T → U) (P : T → Prop) (Q : U → Prop) (hQ : ∀ s, P s → Q (e s))
    (lcf1 : MapLawfulOn P mcf1) (lg1 : MapLawfulOn P mg1)
    (lcf2 : MapLawfulOn Q mcf2) (lg2 : MapLawfulOn Q mg2)
    (hkey : ∀ s t, P s → P t → (e s == e t) = (s == t))
    (nf1 : T → List (T × ℕ)) (nf2 : U → List (U × ℕ))
    (hneigh : ∀ s, P s → nf2 (e s) = (nf1 s).map (fun p => (e p.1, p.2)))
    (hclosed : ∀ s, P s → ∀ p ∈ nf1 s, P p.1)
    (h1 : T → ℕ) (h2 : U → ℕ) (hh : ∀ s, P s → h2 (e s) = h1 s)
    (gf1 : T → Bool) (gf2 : U → Bool) (hgoal : ∀ s, P s → gf2 (e s) = gf1 s) :
    ∀ (fuel : ℕ) (o1 : PHeap T) (cf1 : Mc1) (g1 : Mg1) (cf2 : Mc2) (g2 : Mg2),
      (∀ k, P k → mcf2.find cf2 (e k) = (mcf1.find cf1 k).map e) →
      (∀ k, P k → mg2.find g2 (e k) = mg1.find g1 k) →
      PHeap.All (fun nd => P nd.state) o1 →
      CFValues mcf1 P cf1 →
      astarLoop mcf2 mg2 nf2 h2 gf2 fuel (PHeap.map e o1) cf2 g2 =
        (astarLoop mcf1 mg1 nf1 h1 gf1 fuel o1 cf1 g1).map
          (fun pc => (pc.1.map e, pc.2))
  | 0, o1, cf1, g1, cf2, g2, hcf, hg, hall, hvals => rfl
  | fuel + 1, o1, cf1, g1, cf2, g2, hcf, hg, hall, hvals => by
      rw [astarLoop_succ, astarLoop_succ]
      unfold astarStep
      rw [PHeap.map_pop]
      rcases hp : o1.pop with _ | ⟨cur, rest⟩
      · rfl
      · obtain ⟨hcur, hrest⟩ := hall.pop hp
        simp only [Option.map_some']
        rw [show (AStarNode.map e cur).state = e cur.state from rfl]
        rw [hgoal cur.state hcur]
        by_cases hgcur : gf1 cur.state = true
        · rw [if_pos hgcur, if_pos hgcur]
          rw [predWalk_sim (mcf1.find cf1) (mcf2.find cf2) e P
            (fun s hs => hcf s hs) (fun s v hs hf => hvals s v hs hf)
            (fuel + 1) cur.state hcur]
          rcases predWalk (mcf1.find cf1) (fuel + 1) cur.state with _ | chain
          · rfl
          · simp [AStarNode.map, List.map_reverse]
        · rw [if_neg hgcur, if_neg hgcur]
          have hsim := astarFold_sim mcf1 mg1 mcf2 mg2 e P Q hQ lcf1 lg1 lcf2
            lg2 hkey h1 h2 hh cur.state hcur (nf1 cur.state)
            (hclosed cur.state hcur) rest cf1 g1 cf2 g2 hcf hg hrest hvals
          rw [hneigh cur.state hcur]
          rcases hfold : astarFold mcf1 mg1 h1 cur.state (nf1 cur.state)
              (rest, cf1, g1) with _ | ⟨o', cf', g'⟩
          · rw [hsim.1 hfold]
            rfl
          · obtain ⟨cf2', g2', hfold2, hcf', hg', hall', hvals'⟩ :=
              hsim.2 o' cf' g' hfold
            rw [hfold2]
            exact astarLoop_sim mcf1 mg1 mcf2 mg2 e P Q hQ lcf1 lg1 lcf2 lg2
              hkey nf1 nf2 hneigh hclosed h1 h2 hh gf1 gf2 hgoal fuel o' cf' g'
              cf2' g2' hcf' hg' hall' hvals'

/-- Top-level simulation: a search from `e start` with the second map
implementation and the re-encoded callbacks returns exactly the
re-encoded result of the search from `start` with the first map
implementation. -/
theorem astarWith_sim [BEq T] [BEq U]
    {Mc1 Mg1 Mc2 Mg2 : Type}
    (mcf1 : MapOps T T Mc1) (mg1 : MapOps T ℕ Mg1)
    (mcf2 : MapOps U U Mc2) (mg2 : MapOps U ℕ Mg2)
    (e : T → U) (P : T → Prop) (Q : U → Prop) (hQ : ∀ s, P s → Q (e s))
    (lcf1 : MapLawfulOn P mcf1) (lg1 : MapLawfulOn P mg1)
    (lcf2 : MapLawfulOn Q mcf2) (lg2 : MapLawfulOn Q mg2)
    (hkey : ∀ s t, P s → P t → (e s == e t) = (s == t))
    (nf1 : T → List (T × ℕ)) (nf2 : U → List (U × ℕ))
    (hneigh : ∀ s, P s → nf2 (e s) = (nf1 s).map (fun p => (e p.1, p.2)))
    (hclosed : ∀ s, P s → ∀ p ∈ nf1 s, P p.1)
    (h1 : T → ℕ) (h2 : U → ℕ) (hh : ∀ s, P s → h2 (e s) = h1 s)
    (gf1 : T → Bool) (gf2 : U → Bool) (hgoal : ∀ s, P s → gf2 (e s) = gf1 s)
    (fuel : ℕ) (start : T) (hstart : P start) :
    astarWith mcf2 mg2 fuel (e start) nf2 h2 gf2 =
      (astarWith mcf1 mg1 fuel start nf1 h1 gf1).map
        (fun pc => (pc.1.map e, pc.2)) := by
  unfold astarWith
  have hinit : (PHeap.nil.push ⟨e start, 0, h2 (e start)⟩ : PHeap U) =
      PHeap.map e (PHeap.nil.push ⟨start, 0, h1 start⟩) := by
    rw [PHeap.map_push]
    simp [AStarNode.map, PHeap.map, hh start hstart]
  rw [hinit]
  refine astarLoop_sim mcf1 mg1 mcf2 mg2 e P Q hQ lcf1 lg1 lcf2 lg2 hkey
    nf1 nf2 hneigh hclosed h1 h2 hh gf1 gf2 hgoal fuel _ _ _ _ _ ?_ ?_ ?_ ?_
  · intro k hk
    rw [lcf2.2 _ (hQ k hk), lcf1.2 _ hk]
    rfl
  · intro k hk
    rw [lg2.1 _ _ _ _ (hQ start hstart) (hQ k hk), lg1.1 _ _ _ _ hstart hk,
      hkey k start hk hstart]
    by_cases hks : (k == start) = true
    · simp [hks]
    · have : (k == start) = false := by
        cases h : (k == start)
        · rfl
        · exact absurd h hks
      simp only [this, Bool.false_eq_true, if_false]
      rw [lg2.2 _ (hQ k hk), lg1.2 _ hk]
  · exact PHeap.All.push .nil hstart
  · intro k v hk hfind
    rw [lcf1.2 _ hk] at hfind
    cases hfind

/-! ## Validity of every state on a returned path -/

theorem predWalk_all {f : T → Option T} {P : T → Prop}
    (hstep : ∀ s v, P s → f s = some v → P v) :
    ∀ (fuel : ℕ) (s : T), P s → ∀ chain, predWalk f fuel s = some chain →
      ∀ t ∈ chain, P t
  | 0, _, _, _, h => by cases h
  | fuel + 1, s, hs, chain, h => by
      simp only [predWalk] at h
      rcases hf : f s with _ | next
      · rw [hf] at h
        have h2 : some [s] = some chain := h
        cases h2
        intro t ht
        rcases List.mem_singleton.mp ht with rfl
        exact hs
      · rw [hf] at h
        have h2 : Option.map (fun x => s :: x) (predWalk f fuel next) =
            some chain := h
        rcases hw : predWalk f fuel next with _ | chain'
        · rw [hw] at h2
          cases h2
        · rw [hw] at h2
          simp only [Option.map_some'] at h2
          cases h2
          intro t ht
          rcases List.mem_cons.mp ht with rfl | ht'
          · exact hs
          · exact predWalk_all hstep fuel next (hstep s next hs hf)
              chain' hw t ht'

theorem astarFold_valid [BEq T] {Mc Mg : Type} {P : T → Prop}
    {mcf : MapOps T T Mc} {mg : MapOps T ℕ Mg}
    (lcf : MapLawfulOn P mcf)
    (hf : T → ℕ) (cur : T) (hcur : P cur) :
    ∀ (l : List (T × ℕ)), (∀ p ∈ l, P p.1) →
      ∀ (o : PHeap T) (cf : Mc) (g : Mg),
      PHeap.All (fun nd => P nd.state) o → CFValues mcf P cf →
      ∀ o' cf' g', astarFold mcf mg hf cur l (o, cf, g) = some (o', cf', g') →
        PHeap.All (fun nd => P nd.state) o' ∧ CFValues mcf P cf'
  | [], _, o, cf, g, hall, hvals, o', cf', g', h => by
      simp only [astarFold, Option.some.injEq, Prod.mk.injEq] at h
      obtain ⟨rfl, rfl, rfl⟩ := h
      exact ⟨hall, hvals⟩
  | (n, w) :: rest, hl, o, cf, g, hall, hvals, o', cf', g', h => by
      have hn : P n := hl (n, w) (by simp)
      have hrest : ∀ p ∈ rest, P p.1 := fun p hp => hl p (by simp [hp])
      simp only [astarFold] at h
      rcases hgc : mg.find g cur with _ | gc
      · rw [hgc] at h
        cases h
      · rw [hgc] at h
        simp only at h
        by_cases hcond : gc + w < (mg.find g n).getD (2 ^ 32 - 1)
        · rw [if_pos hcond] at h
          refine astarFold_valid lcf hf cur hcur rest hrest _ _ _
            (hall.push hn) ?_ o' cf' g' h
          intro k v hk hfind
          rw [lcf.1 _ _ _ _ hn hk] at hfind
          split at hfind
          · cases hfind
            exact hcur
          · exact hvals k v hk hfind
        · rw [if_neg hcond] at h
          exact astarFold_valid lcf hf cur hcur rest hrest o cf g
            hall hvals o' cf' g' h

theorem astarLoop_path_all [BEq T] {Mc Mg : Type} {P : T → Prop}
    {mcf : MapOps T T Mc} {mg : MapOps T ℕ Mg}
    (lcf : MapLawfulOn P mcf)
    (nf : T → List (T × ℕ)) (hclosed : ∀ s, P s → ∀ p ∈ nf s, P p.1)
    (hf : T → ℕ) (gf : T → Bool) :
    ∀ (fuel : ℕ) (o : PHeap T) (cf : Mc) (g : Mg),
      PHeap.All (fun nd => P nd.state) o → CFValues mcf P cf →
      ∀ path c, astarLoop mcf mg nf hf gf fuel o cf g = some (path, c) →
        ∀ s ∈ path, P s
  | 0, _, _, _, _, _, _, _, h => by cases h
  | fuel + 1, o, cf, g, hall, hvals, path, c, h => by
      rw [astarLoop_succ] at h
      unfold astarStep at h
      rcases hp : o.pop with _ | ⟨cur, rest⟩
      · rw [hp] at h
        cases h
      · rw [hp] at h
        obtain ⟨hcur, hrest⟩ := hall.pop hp
        simp only at h
        by_cases hgcur : gf cur.state = true
        · rw [if_pos hgcur] at h
          rcases hw : predWalk (mcf.find cf) (fuel + 1) cur.state
            with _ | chain
          · rw [hw] at h
            cases h
          · rw [hw] at h
            simp only [Option.some.injEq, Prod.mk.injEq] at h
            obtain ⟨rfl, rfl⟩ := h
            intro s hs
            exact predWalk_all (fun s v hsv hfind => hvals s v hsv hfind)
              (fuel + 1) cur.state hcur chain hw s (List.mem_reverse.mp hs)
        · rw [if_neg hgcur] at h
          rcases hfold : astarFold mcf mg hf cur.state (nf cur.state)
              (rest, cf, g) with _ | ⟨o', cf', g'⟩
          · rw [hfold] at h
            cases h
          · rw [hfold] at h
            obtain ⟨hall', hvals'⟩ := astarFold_valid lcf hf cur.state hcur
              (nf cur.state) (hclosed cur.state hcur) rest cf g hrest hvals
              o' cf' g' hfold
            exact astarLoop_path_all lcf nf hclosed hf gf fuel o' cf' g'
              hall' hvals' path c h

/-- Every state on a path returned by the search satisfies any
predicate that holds at the start and is preserved by the neighbor
function, provided the predecessor map obeys the map law on that
predicate. -/
theorem astarWith_path_all [BEq T] {Mc Mg : Type} {P : T → Prop}
    {mcf : MapOps T T Mc} {mg : MapOps T ℕ Mg}
    (lcf : MapLawfulOn P mcf)
    (nf : T → List (T × ℕ)) (hclosed : ∀ s, P s → ∀ p ∈ nf s, P p.1)
    (hf : T → ℕ) (gf : T → Bool) (fuel : ℕ) (start : T) (hstart : P start)
    (path : List T) (c : ℕ)
    (h : astarWith mcf mg fuel start nf hf gf = some (path, c)) :
    ∀ s ∈ path, P s := by
  unfold astarWith at h
  refine astarLoop_path_all lcf nf hclosed hf gf fuel _ _ _
    (PHeap.All.push .nil hstart) ?_ path c h
  intro k v hk hfind
  rw [lcf.2 _ hk] at hfind
  cases hfind

/-! ## The cost model (C6) -/

theorem speed_loss_fraction_nonneg (θ : ℝ) : 0 ≤ speed_loss_fraction θ := by
  unfold speed_loss_fraction
  split
  · simp
  · simp [le_min_iff, le_max_iff]

theorem speed_loss_fraction_le_one (θ : ℝ) : speed_loss_fraction θ ≤ 1 := by
  unfold speed_loss_fraction
  split
  · simp
  · simp [min_le_iff]

/-- C6: the cost of the start state is 0; every edge cost decomposes as
`(angleCost + distanceCost) * reverseMultiplier` with the multiplier
`10 > 1` exactly on reverse poses and `1` otherwise, the angle cost a
`[0,1]`-clamped speed-loss fraction scaled by 1000 (and truncated to an
integer), and the distance cost the squared Euclidean distance scaled by
1000. -/
theorem C6_cost_decomposition (tc fc : Cell) (m : ℕ) :
    Cell.cost tc none m = 0 ∧
    Cell.cost tc (some fc) m =
      (specAngleCost tc fc m + specDistCost tc fc) * specReverseMult tc ∧
    (1 < specReverseMult tc ↔ tc.reverse = true) ∧
    (tc.reverse = true → specReverseMult tc = 10) ∧
    (tc.reverse = false → specReverseMult tc = 1) ∧
    (∃ loss : ℝ, 0 ≤ loss ∧ loss ≤ 1 ∧
      specAngleCost tc fc m = (⌊loss * 1000⌋).toNat) ∧
    specDistCost tc fc =
      (⌊(((tc.x - fc.x : ℤ) : ℝ) ^ 2 + ((tc.y - fc.y : ℤ) : ℝ) ^ 2) * 1000⌋).toNat := by
  refine ⟨rfl, rfl, ?_, ?_, ?_, ?_, rfl⟩
  · cases h : tc.reverse <;> simp [specReverseMult, h]
  · intro h
    simp [specReverseMult, h]
  · intro h
    simp [specReverseMult, h]
  · exact ⟨speed_loss_fraction _, speed_loss_fraction_nonneg _,
      speed_loss_fraction_le_one _, rfl⟩

/-! ## The motion-template cache (C3) -/

theorem mem_intRange {z a b : ℤ} : z ∈ intRange a b ↔ a ≤ z ∧ z ≤ b := by
  unfold intRange
  simp only [List.mem_map, List.mem_range]
  constructor
  · rintro ⟨n, hn, rfl⟩
    omega
  · intro ⟨h1, h2⟩
    exact ⟨(z - a).toNat, by omega, by omega⟩

theorem clampI_eq_zero {z : ℤ} : clampI z = 0 ↔ z = 0 := by
  unfold clampI
  rw [Int.max_def, Int.min_def]
  split <;> split <;> omega

theorem roundAway_eq_zero {x : ℝ} (h1 : -(1 / 2) < x) (h2 : x < 1 / 2) :
    roundAway x = 0 := by
  unfold roundAway
  split
  · rw [Int.floor_eq_zero_iff]
    constructor
    · linarith
    · linarith
  · rw [neg_eq_zero, Int.floor_eq_zero_iff]
    constructor
    · linarith
    · linarith

theorem roundAway_ne_zero_offset (α : ℝ) :
    ¬(clampI (roundAway (Real.cos α)) = 0 ∧ clampI (roundAway (Real.sin α)) = 0) := by
  rintro ⟨hx, hy⟩
  rw [clampI_eq_zero] at hx hy
  unfold roundAway at hx hy
  have hc : |Real.cos α| < 1 / 2 := by
    split at hx
    · rw [Int.floor_eq_zero_iff] at hx
      obtain ⟨h1, h2⟩ := hx
      rw [abs_lt]
      constructor <;> [linarith; linarith]
    · rw [neg_eq_zero, Int.floor_eq_zero_iff] at hx
      obtain ⟨h1, h2⟩ := hx
      rw [abs_lt]
      constructor <;> [linarith; linarith]
  have hs : |Real.sin α| < 1 / 2 := by
    split at hy
    · rw [Int.floor_eq_zero_iff] at hy
      obtain ⟨h1, h2⟩ := hy
      rw [abs_lt]
      constructor <;> [linarith; linarith]
    · rw [neg_eq_zero, Int.floor_eq_zero_iff] at hy
      obtain ⟨h1, h2⟩ := hy
      rw [abs_lt]
      constructor <;> [linarith; linarith]
  have hsq := Real.sin_sq_add_cos_sq α
  have hc2 : Real.cos α ^ 2 < (1 / 2) ^ 2 :=
    sq_lt_sq' (by linarith [(abs_lt.mp hc).1]) (abs_lt.mp hc).2
  have hs2 : Real.sin α ^ 2 < (1 / 2) ^ 2 :=
    sq_lt_sq' (by linarith [(abs_lt.mp hs).1]) (abs_lt.mp hs).2
  nlinarith

/-- C3: for every `maxIncrements ≥ 1`, every `arc`, and every heading
`h < maxIncrements`, the precomputed template list for `h` is non-empty
and contains no entry with offset `(0, 0)`. -/
theorem precompute_getD (m a h : ℕ) (hh : h < m) :
    (NeighborCache.precompute m a).getD h [] =
      precomputeRow m a (cardinalValues m (2 * Real.pi / m))
        (2 * Real.pi / m) (h : ℤ) := by
  unfold NeighborCache.precompute
  rw [List.getD_eq_getElem?_getD, List.getElem?_map, List.getElem?_range hh]
  rfl

theorem C3_templates_nonempty_no_zero_offset (m a h : ℕ) (hm : 1 ≤ m)
    (hh : h < m) :
    (NeighborCache.precompute m a).getD h [] ≠ [] ∧
      ∀ e ∈ (NeighborCache.precompute m a).getD h [],
        ¬(e.1.1 = 0 ∧ e.1.2 = 0) := by
  rw [precompute_getD m a h hh]
  unfold precomputeRow
  constructor
  · intro hnil
    rw [List.filter_eq_nil] at hnil
    set c := Cell.precompute_neighbor (Cell.clamp_rotation ((h : ℤ) + 0) m)
      (2 * Real.pi / m) true with hc
    refine hnil ((c.x, c.y), c.rotation, c.reverse) ?_ ?_
    · refine List.mem_append_right _ ?_
      refine List.mem_map.mpr ⟨0, ?_, rfl⟩
      rw [mem_intRange]
      omega
    · have hrev : c.reverse = true := rfl
      simp [hrev]
  · intro e he
    have hmem := (List.mem_filter.mp he).1
    rcases List.mem_append.mp hmem with hf | hr
    · obtain ⟨i, _, rfl⟩ := List.mem_map.mp hf
      intro ⟨hx, hy⟩
      exact roundAway_ne_zero_offset _ ⟨hx, hy⟩
    · obtain ⟨i, _, rfl⟩ := List.mem_map.mp hr
      intro ⟨hx, hy⟩
      exact roundAway_ne_zero_offset _ ⟨hx, hy⟩

/-- C3 witness: `maxIncrements = 1`, `arc = 0`, heading `0`. -/
theorem C3_templates_nonempty_no_zero_offset_witness :
    1 ≤ 1 ∧ 0 < 1 ∧
      ((NeighborCache.precompute 1 0).getD 0 [] ≠ [] ∧
        ∀ e ∈ (NeighborCache.precompute 1 0).getD 0 [],
          ¬(e.1.1 = 0 ∧ e.1.2 = 0)) :=
  ⟨by decide, by decide,
    C3_templates_nonempty_no_zero_offset 1 0 0 (by decide) (by decide)⟩

/-! ## Fold bounds for the SAT projections -/

theorem foldl_min_le_init {l : List ℝ} {i : ℝ} : List.foldl min i l ≤ i := by
  induction l generalizing i with
  | nil => exact le_refl i
  | cons x rest ih => exact le_trans ih (min_le_left i x)

theorem init_le_foldl_max {l : List ℝ} {i : ℝ} : i ≤ List.foldl max i l := by
  induction l generalizing i with
  | nil => exact le_refl i
  | cons x rest ih => exact le_trans (le_max_left i x) ih

theorem mem_le_foldl_max {l : List ℝ} {i a : ℝ} (ha : a ∈ l) :
    a ≤ List.foldl max i l := by
  induction l generalizing i with
  | nil => cases ha
  | cons x rest ih =>
      rcases List.mem_cons.mp ha with rfl | ha
      · exact le_trans (le_max_right i a) init_le_foldl_max
      · exact ih ha

theorem foldl_min_le_mem {l : List ℝ} {i a : ℝ} (ha : a ∈ l) :
    List.foldl min i l ≤ a := by
  induction l generalizing i with
  | nil => cases ha
  | cons x rest ih =>
      rcases List.mem_cons.mp ha with rfl | ha
      · show List.foldl min (min i a) rest ≤ a
        exact le_trans foldl_min_le_init (min_le_right i a)
      · exact ih ha

/-- The running pair of `project_onto_axis` only shrinks its min and
grows its max. -/
theorem proj_fold_bounds (ax ay : ℝ) :
    ∀ (rest : List (ℝ × ℝ)) (acc : ℝ × ℝ),
      (List.foldl (fun acc w =>
          (min acc.1 (w.1 * ax + w.2 * ay), max acc.2 (w.1 * ax + w.2 * ay)))
        acc rest).1 ≤ acc.1 ∧
      acc.2 ≤ (List.foldl (fun acc w =>
          (min acc.1 (w.1 * ax + w.2 * ay), max acc.2 (w.1 * ax + w.2 * ay)))
        acc rest).2
  | [], acc => ⟨le_refl _, le_refl _⟩
  | w :: rest, acc => by
      have ih := proj_fold_bounds ax ay rest
        (min acc.1 (w.1 * ax + w.2 * ay), max acc.2 (w.1 * ax + w.2 * ay))
      exact ⟨le_trans ih.1 (min_le_left _ _), le_trans (le_max_left _ _) ih.2⟩

/-- Every scanned vertex bounds the running pair of
`project_onto_axis`. -/
theorem proj_fold_mem (ax ay : ℝ) {w : ℝ × ℝ} :
    ∀ (rest : List (ℝ × ℝ)) (acc : ℝ × ℝ), w ∈ rest →
      (List.foldl (fun acc v =>
          (min acc.1 (v.1 * ax + v.2 * ay), max acc.2 (v.1 * ax + v.2 * ay)))
        acc rest).1 ≤ w.1 * ax + w.2 * ay ∧
      w.1 * ax + w.2 * ay ≤ (List.foldl (fun acc v =>
          (min acc.1 (v.1 * ax + v.2 * ay), max acc.2 (v.1 * ax + v.2 * ay)))
        acc rest).2
  | w' :: rest, acc, hw => by
      rcases List.mem_cons.mp hw with rfl | hw
      · have hb := proj_fold_bounds ax ay rest
          (min acc.1 (w.1 * ax + w.2 * ay), max acc.2 (w.1 * ax + w.2 * ay))
        exact ⟨le_trans hb.1 (min_le_right _ _),
          le_trans (le_max_right _ _) hb.2⟩
      · exact proj_fold_mem ax ay rest _ hw

/-- Lower/upper bounds of a projection by its first vertex. -/
theorem proj_head_bounds (ax ay : ℝ) (v : ℝ × ℝ) (rest : List (ℝ × ℝ)) :
    (project_onto_axis (v :: rest) ax ay).1 ≤ v.1 * ax + v.2 * ay ∧
      v.1 * ax + v.2 * ay ≤ (project_onto_axis (v :: rest) ax ay).2 := by
  have hb := proj_fold_bounds ax ay rest (v.1 * ax + v.2 * ay, v.1 * ax + v.2 * ay)
  exact ⟨hb.1, hb.2⟩

/-- Lower/upper bounds of a projection by any later vertex. -/
theorem proj_mem_bounds (ax ay : ℝ) (v : ℝ × ℝ) {w : ℝ × ℝ}
    (rest : List (ℝ × ℝ)) (hw : w ∈ rest) :
    (project_onto_axis (v :: rest) ax ay).1 ≤ w.1 * ax + w.2 * ay ∧
      w.1 * ax + w.2 * ay ≤ (project_onto_axis (v :: rest) ax ay).2 :=
  proj_fold_mem ax ay rest _ hw

/-! ## The agent footprint at heading 0 (C4) -/

theorem rotate_zero (x y : ℝ) : rotate x y 0 = (x, y) := by
  simp [rotate]

theorem filterMap_if_map {α β : Type} (p : α → Bool) (f : α → β) :
    ∀ l : List α, (∀ x ∈ l, p x = true) →
      l.filterMap (fun x => if p x then some (f x) else none) = l.map f
  | [], _ => rfl
  | x :: rest, hp => by
      have hx := hp x (by simp)
      simp [List.filterMap_cons, hx,
        filterMap_if_map p f rest (fun a ha => hp a (by simp [ha]))]

/-- Evaluation of the footprint loop for half-extents `(3/4, 3/4)` at
angle 0: the 1.5×1.5 agent rectangle, centered at `(0.5, 0.5)`, spans
`[-0.25, 1.25]²` and genuinely overlaps all nine cells of the rounded
bounding box. -/
theorem footprintForIncrement_heading0_eval :
    footprintForIncrement (3/4) (3/4) 0 =
      [(-1,-1),(-1,0),(-1,1),(0,-1),(0,0),(0,1),(1,-1),(1,0),(1,1)] := by
  norm_num [footprintForIncrement, aabb_rect_collision, rotate,
    project_onto_axis, min_def, max_def, foldMin, foldMax, roundAway,
    intRange, List.range_succ, Int.floor_eq_iff, Int.toNat_ofNat,
    List.filterMap_cons, Function.comp]
  norm_num [show Int.toNat 3 = 3 from rfl, List.range_succ,
    List.filterMap_cons, List.filterMap_append, Function.comp]

/-- The heading-0 entry of the footprint cache is the angle-0 footprint
loop (the angle `2π·0/m` is 0 for every `m ≥ 1`). -/
theorem footprints_getD_zero (sx sy : ℝ) (m : ℕ) (hm : 1 ≤ m) :
    (Agent.footprints sx sy m).getD 0 [] =
      footprintForIncrement (sx / 2) (sy / 2) 0 := by
  unfold Agent.footprints
  rw [List.getD_eq_getElem?_getD, List.getElem?_map, List.getElem?_range hm]
  norm_num

/-- C4 counterexample: for the agent of half-extents `(0.75, 0.75)`
(size 1.5×1.5), the heading-0 footprint is *not* the claimed four-cell
set `{(0,0),(0,1),(1,0),(1,1)}` — it has nine cells. -/
theorem C4_footprint_counterexample :
    ((Agent.footprints (3/2) (3/2) 8).getD 0 []).toFinset ≠
      ({((0:ℤ), (0:ℤ)), ((0:ℤ), (1:ℤ)), ((1:ℤ), (0:ℤ)), ((1:ℤ), (1:ℤ))} :
        Finset (ℤ × ℤ)) := by
  rw [footprints_getD_zero (3/2) (3/2) 8 (by norm_num)]
  rw [show ((3:ℝ)/2) / 2 = 3/4 by norm_num]
  rw [footprintForIncrement_heading0_eval]
  decide

/-- C4 (amended): for the agent of half-extents `(0.75, 0.75)` built
with any `maxIncrements ≥ 1`, the heading-0 footprint equals, as a set,
the full 3×3 block `{-1,0,1}²` of cell offsets. -/
theorem C4_footprint_3x3 (m : ℕ) (hm : 1 ≤ m) :
    (Agent.footprints (3/2) (3/2) m).getD 0 [] =
      [(-1,-1),(-1,0),(-1,1),(0,-1),(0,0),(0,1),(1,-1),(1,0),(1,1)] ∧
    ((Agent.footprints (3/2) (3/2) m).getD 0 []).toFinset =
      ({(-1,-1),(-1,0),(-1,1),(0,-1),(0,0),(0,1),(1,-1),(1,0),(1,1)} :
        Finset (ℤ × ℤ)) := by
  rw [footprints_getD_zero (3/2) (3/2) m hm]
  rw [show ((3:ℝ)/2) / 2 = 3/4 by norm_num]
  rw [footprintForIncrement_heading0_eval]
  exact ⟨rfl, by decide⟩

/-- C4 witness: the amended statement at `maxIncrements = 8` (the value
the repository's tests build agents with). -/
theorem C4_footprint_3x3_witness :
    1 ≤ 8 ∧
      ((Agent.footprints (3/2) (3/2) 8).getD 0 [] =
        [(-1,-1),(-1,0),(-1,1),(0,-1),(0,0),(0,1),(1,-1),(1,0),(1,1)] ∧
      ((Agent.footprints (3/2) (3/2) 8).getD 0 []).toFinset =
        ({(-1,-1),(-1,0),(-1,1),(0,-1),(0,0),(0,1),(1,-1),(1,0),(1,1)} :
          Finset (ℤ × ℤ))) :=
  ⟨by decide, C4_footprint_3x3 8 (by decide)⟩

/-! ## The C9 reverse-preference scenario -/

theorem BTrie.find_insert {V : Type} :
    ∀ (d : ℕ) (t : BTrie V) (k k' : ℕ) (v : V), k < 2 ^ d → k' < 2 ^ d →
      (BTrie.insert t k d v).find k' d = if k' = k then some v else t.find k' d
  | 0, t, k, k', v, hk, hk' => by
      have hk0 : k = 0 := by simpa using hk
      have hk'0 : k' = 0 := by simpa using hk'
      subst hk0 hk'0
      cases t <;> simp [BTrie.insert, BTrie.find]
  | d + 1, t, k, k', v, hk, hk' => by
      have h2 : 2 ^ (d + 1) = 2 ^ d * 2 := pow_succ 2 d
      rw [h2] at hk hk'
      have hk2 : k / 2 < 2 ^ d := (Nat.div_lt_iff_lt_mul (by norm_num)).mpr hk
      have hk2' : k' / 2 < 2 ^ d := (Nat.div_lt_iff_lt_mul (by norm_num)).mpr hk'
      rcases Nat.mod_two_eq_zero_or_one k with hp | hp <;>
        rcases Nat.mod_two_eq_zero_or_one k' with hp' | hp' <;>
        cases t <;>
          simp only [BTrie.insert, BTrie.find, hp, hp'] <;>
          norm_num <;>
          first
            | (rw [BTrie.find_insert d _ _ _ v hk2 hk2'] <;>
                split_ifs with h1 h2 <;>
                first
                  | rfl
                  | (exfalso; omega)
                  | (simp [BTrie.find]))
            | (rw [if_neg (show ¬ k' = k by omega)] <;>
                first
                  | rfl
                  | (simp [BTrie.find]))

/-- The trie map obeys the map law on the 9-bit key range the C9
search uses. -/
theorem trieOps_lawful (V : Type) :
    MapLawfulOn (fun k => k < 512) (trieOps V) := by
  constructor
  · intro m k v k' hk hk'
    show BTrie.find (BTrie.insert m k 9 v) k' 9 =
      if (k' == k) = true then some v else BTrie.find m k' 9
    rw [BTrie.find_insert 9 m k k' v (by norm_num at hk ⊢; omega)
      (by norm_num at hk' ⊢; omega)]
    by_cases h : k' = k
    · rw [if_pos h, if_pos (by simp [h])]
    · rw [if_neg h, if_neg (by simp [h])]
  · intro k _
    rfl

theorem encCell_lt (c : Cell) (h : CellOK c) : encCell c < 512 := by
  obtain ⟨h1, h2, h3, h4, h5, h6⟩ := h
  unfold encCell
  omega

theorem encCell_key (s t : Cell) (hs : CellOK s) (ht : CellOK t) :
    (encCell s == encCell t) = (s == t) := by
  obtain ⟨a1, a2, a3, a4, a5, a6⟩ := hs
  obtain ⟨b1, b2, b3, b4, b5, b6⟩ := ht
  show _ = Cell.beq s t
  unfold Cell.beq
  by_cases h : s.x = t.x ∧ s.y = t.y ∧ s.rotation = t.rotation
  · have he : encCell s = encCell t := by
      unfold encCell
      omega
    simp [he, h.1, h.2.1, h.2.2]
  · have he : encCell s ≠ encCell t := by
      unfold encCell
      omega
    simp [he, h]

theorem enc_decode_x (c : Cell) (h : CellOK c) :
    encCell c / 8 % 8 = c.x.toNat := by
  obtain ⟨h1, h2, h3, h4, h5, h6⟩ := h
  unfold encCell
  omega

theorem enc_decode_y (c : Cell) (h : CellOK c) :
    encCell c / 8 / 8 = c.y.toNat := by
  obtain ⟨h1, h2, h3, h4, h5, h6⟩ := h
  unfold encCell
  omega

theorem enc_decode_rot (c : Cell) (h : CellOK c) :
    encCell c % 8 = c.rotation.toNat := by
  obtain ⟨h1, h2, h3, h4, h5, h6⟩ := h
  unfold encCell
  omega

theorem heur_eval (c : Cell) (h : CellOK c) :
    Cell.heuristic c 5 6 = heurN 5 6 (encCell c) := by
  unfold heurN
  rw [enc_decode_x c h, enc_decode_y c h]
  obtain ⟨h1, h2, h3, h4, h5, h6⟩ := h
  unfold Cell.heuristic
  rw [show ((((c.x - 5 : ℤ) : ℝ)) ^ 2 + (((c.y - 6 : ℤ) : ℝ)) ^ 2) * 10 =
      (((c.x - 5) ^ 2 + (c.y - 6) ^ 2) * 10 : ℤ) by push_cast; ring,
    Int.floor_intCast]
  have hx : ((c.x - 5) ^ 2 : ℤ) =
      ((max c.x.toNat 5 - min c.x.toNat 5 : ℕ) : ℤ) ^ 2 := by
    rcases le_or_lt c.x 5 with hc | hc
    · rw [show c.x - 5 = -((max c.x.toNat 5 - min c.x.toNat 5 : ℕ) : ℤ) by
        omega, neg_sq]
    · rw [show c.x - 5 = ((max c.x.toNat 5 - min c.x.toNat 5 : ℕ) : ℤ) by
        omega]
  have hy : ((c.y - 6) ^ 2 : ℤ) =
      ((max c.y.toNat 6 - min c.y.toNat 6 : ℕ) : ℤ) ^ 2 := by
    rcases le_or_lt c.y 6 with hc | hc
    · rw [show c.y - 6 = -((max c.y.toNat 6 - min c.y.toNat 6 : ℕ) : ℤ) by
        omega, neg_sq]
    · rw [show c.y - 6 = ((max c.y.toNat 6 - min c.y.toNat 6 : ℕ) : ℤ) by
        omega]
  rw [hx, hy,
    show (((max c.x.toNat 5 - min c.x.toNat 5 : ℕ) : ℤ) ^ 2 +
        ((max c.y.toNat 6 - min c.y.toNat 6 : ℕ) : ℤ) ^ 2) * 10 =
      ((10 * ((max c.x.toNat 5 - min c.x.toNat 5) ^ 2 +
        (max c.y.toNat 6 - min c.y.toNat 6) ^ 2) : ℕ) : ℤ) by
        push_cast; ring]
  exact Int.toNat_natCast _

theorem goal_eval (c : Cell) (h : CellOK c) :
    (decide (c.x = 5) && decide (c.y = 6)) = goalN 5 6 (encCell c) := by
  unfold goalN
  rw [enc_decode_x c h, enc_decode_y c h]
  obtain ⟨h1, h2, h3, h4, h5, h6⟩ := h
  rw [decide_eq_decide.mpr (show (c.x = 5) ↔ (c.x.toNat = 5) by omega),
    decide_eq_decide.mpr (show (c.y = 6) ↔ (c.y.toNat = 6) by omega)]

/-- On the empty `6 × 7` grid a cell is unblocked exactly when it is
in range (the query never panics: the packed words exist and hold 0). -/
theorem grid67_blocked (a b : ℤ) :
    ((grid67.is_cell_blocked a b).getD true = false) ↔
      (0 ≤ a ∧ a < 6 ∧ 0 ≤ b ∧ b < 7) := by
  unfold grid67 Grid.is_cell_blocked
  by_cases h : a < 0 ∨ a ≥ (6 : ℤ) ∨ b < 0 ∨ b ≥ (7 : ℤ)
  · rw [if_pos h]
    simp only [Option.getD_some, Bool.true_eq_false, false_iff]
    omega
  · rw [if_neg h]
    push_neg at h
    unfold Grid.index BitArray.get_bool BitArray.is_bit_set BitArray.new
    have hidx : (b * 6 + a).toNat < 42 := by omega
    rw [if_pos hidx]
    have hz : (List.replicate ((42 + 31) / 32) (0 : ℕ)).getD
        ((b * 6 + a).toNat / 32) 0 = 0 := by
      have h32 : (b * 6 + a).toNat / 32 = 0 ∨ (b * 6 + a).toNat / 32 = 1 := by
        omega
      rcases h32 with hh | hh <;> rw [hh] <;> rfl
    rw [hz]
    simp
    omega

/-! ### The footprint of the 0.01-size agent is the single cell `(0,0)` -/

theorem sep_core {c d r a : ℝ} (h1 : c ≤ r) (h2 : d ≤ r) (h3 : a ≤ 0)
    (h4 : a ≤ c + d) : a ≤ r := by linarith

theorem sep_core_rev {c d r a : ℝ} (h1 : r ≤ c) (h2 : r ≤ d) (h3 : 0 ≤ a)
    (h4 : c + d ≤ a) : r ≤ a := by linarith

theorem collision_axis (hx hy θ ax ay : ℝ) :
    (!(decide ((project_onto_axis
          [(0.5 + (rotate hx hy θ).1, 0.5 + (rotate hx hy θ).2),
           (0.5 + (rotate hx (-hy) θ).1, 0.5 + (rotate hx (-hy) θ).2),
           (0.5 + (rotate (-hx) hy θ).1, 0.5 + (rotate (-hx) hy θ).2),
           (0.5 + (rotate (-hx) (-hy) θ).1, 0.5 + (rotate (-hx) (-hy) θ).2)]
          ax ay).2 <
        (project_onto_axis [(0, 0), (0 + 1, 0), (0, 0 + 1), (0 + 1, 0 + 1)]
          ax ay).1) ||
      decide ((project_onto_axis [(0, 0), (0 + 1, 0), (0, 0 + 1), (0 + 1, 0 + 1)]
          ax ay).2 <
        (project_onto_axis
          [(0.5 + (rotate hx hy θ).1, 0.5 + (rotate hx hy θ).2),
           (0.5 + (rotate hx (-hy) θ).1, 0.5 + (rotate hx (-hy) θ).2),
           (0.5 + (rotate (-hx) hy θ).1, 0.5 + (rotate (-hx) hy θ).2),
           (0.5 + (rotate (-hx) (-hy) θ).1, 0.5 + (rotate (-hx) (-hy) θ).2)]
          ax ay).1))) = true := by
  have hneg : rotate (-hx) (-hy) θ = (-(rotate hx hy θ).1, -(rotate hx hy θ).2) := by
    unfold rotate
    simp only [Prod.mk.injEq]
    constructor <;> ring
  rw [hneg]
  have hR0 := proj_head_bounds ax ay
    (0.5 + (rotate hx hy θ).1, 0.5 + (rotate hx hy θ).2)
    [(0.5 + (rotate hx (-hy) θ).1, 0.5 + (rotate hx (-hy) θ).2),
     (0.5 + (rotate (-hx) hy θ).1, 0.5 + (rotate (-hx) hy θ).2),
     (0.5 + -(rotate hx hy θ).1, 0.5 + -(rotate hx hy θ).2)]
  have hR3 := proj_mem_bounds ax ay
    (0.5 + (rotate hx hy θ).1, 0.5 + (rotate hx hy θ).2)
    (w := (0.5 + -(rotate hx hy θ).1, 0.5 + -(rotate hx hy θ).2))
    [(0.5 + (rotate hx (-hy) θ).1, 0.5 + (rotate hx (-hy) θ).2),
     (0.5 + (rotate (-hx) hy θ).1, 0.5 + (rotate (-hx) hy θ).2),
     (0.5 + -(rotate hx hy θ).1, 0.5 + -(rotate hx hy θ).2)] (by simp)
  have hA0 := proj_head_bounds ax ay ((0:ℝ), (0:ℝ))
    [(0 + 1, 0), (0, 0 + 1), (0 + 1, 0 + 1)]
  have hA3 := proj_mem_bounds ax ay ((0:ℝ), (0:ℝ))
    (w := ((0:ℝ) + 1, (0:ℝ) + 1))
    [(0 + 1, 0), (0, 0 + 1), (0 + 1, 0 + 1)] (by simp)
  simp only [Bool.not_eq_true', Bool.or_eq_false_iff, decide_eq_false_iff_not,
    not_lt]
  obtain ⟨hR0a, hR0b⟩ := hR0
  obtain ⟨hR3a, hR3b⟩ := hR3
  obtain ⟨hA0a, hA0b⟩ := hA0
  obtain ⟨hA3a, hA3b⟩ := hA3
  simp only [Prod.fst, Prod.snd] at hR0a hR0b hR3a hR3b hA0a hA0b hA3a hA3b
  constructor
  · refine sep_core hR0b hR3b ?_ ?_
    · calc (project_onto_axis [((0:ℝ), (0:ℝ)), (0 + 1, 0), (0, 0 + 1), (0 + 1, 0 + 1)]
            ax ay).1 ≤ 0 * ax + 0 * ay := hA0a
        _ = 0 := by ring
    · calc (project_onto_axis [((0:ℝ), (0:ℝ)), (0 + 1, 0), (0, 0 + 1), (0 + 1, 0 + 1)]
            ax ay).1 ≤ (0 + 1) * ax + (0 + 1) * ay := hA3a
        _ = ((0.5 + (rotate hx hy θ).1) * ax + (0.5 + (rotate hx hy θ).2) * ay) +
            ((0.5 + -(rotate hx hy θ).1) * ax + (0.5 + -(rotate hx hy θ).2) * ay) := by
          ring
  · refine sep_core_rev hR0a hR3a ?_ ?_
    · calc (0:ℝ) = 0 * ax + 0 * ay := by ring
        _ ≤ (project_onto_axis [((0:ℝ), (0:ℝ)), (0 + 1, 0), (0, 0 + 1), (0 + 1, 0 + 1)]
            ax ay).2 := hA0b
    · calc ((0.5 + (rotate hx hy θ).1) * ax + (0.5 + (rotate hx hy θ).2) * ay) +
            ((0.5 + -(rotate hx hy θ).1) * ax + (0.5 + -(rotate hx hy θ).2) * ay) =
            (0 + 1) * ax + (0 + 1) * ay := by ring
        _ ≤ (project_onto_axis [((0:ℝ), (0:ℝ)), (0 + 1, 0), (0, 0 + 1), (0 + 1, 0 + 1)]
            ax ay).2 := hA3b

theorem aabb_origin_collision (hx hy θ : ℝ) :
    aabb_rect_collision 0 0 0.5 0.5 hx hy θ = true := by
  unfold aabb_rect_collision
  simp only [List.map_cons, List.map_nil, List.all_cons, List.all_nil,
    Bool.and_true]
  rw [collision_axis, collision_axis, collision_axis, collision_axis]
  rfl

theorem le_foldl_min {l : List ℝ} {i c : ℝ} (hi : c ≤ i) (h : ∀ a ∈ l, c ≤ a) :
    c ≤ List.foldl min i l := by
  induction l generalizing i with
  | nil => exact hi
  | cons x rest ih =>
      exact ih (le_min hi (h x (by simp))) (fun a ha => h a (by simp [ha]))

theorem foldl_max_le {l : List ℝ} {i c : ℝ} (hi : i ≤ c) (h : ∀ a ∈ l, a ≤ c) :
    List.foldl max i l ≤ c := by
  induction l generalizing i with
  | nil => exact hi
  | cons x rest ih =>
      exact ih (max_le hi (h x (by simp))) (fun a ha => h a (by simp [ha]))

theorem rotate_abs_bound (a b θ c : ℝ) (ha : |a| ≤ c) (hb : |b| ≤ c) :
    |(rotate a b θ).1| ≤ 2 * c ∧ |(rotate a b θ).2| ≤ 2 * c := by
  have hca : |a * Real.cos θ| ≤ c :=
    calc |a * Real.cos θ| = |a| * |Real.cos θ| := abs_mul _ _
      _ ≤ c * 1 := mul_le_mul ha (Real.abs_cos_le_one θ) (abs_nonneg _)
          (le_trans (abs_nonneg a) ha)
      _ = c := mul_one c
  have hsa : |a * Real.sin θ| ≤ c :=
    calc |a * Real.sin θ| = |a| * |Real.sin θ| := abs_mul _ _
      _ ≤ c * 1 := mul_le_mul ha (Real.abs_sin_le_one θ) (abs_nonneg _)
          (le_trans (abs_nonneg a) ha)
      _ = c := mul_one c
  have hcb : |b * Real.cos θ| ≤ c :=
    calc |b * Real.cos θ| = |b| * |Real.cos θ| := abs_mul _ _
      _ ≤ c * 1 := mul_le_mul hb (Real.abs_cos_le_one θ) (abs_nonneg _)
          (le_trans (abs_nonneg b) hb)
      _ = c := mul_one c
  have hsb : |b * Real.sin θ| ≤ c :=
    calc |b * Real.sin θ| = |b| * |Real.sin θ| := abs_mul _ _
      _ ≤ c * 1 := mul_le_mul hb (Real.abs_sin_le_one θ) (abs_nonneg _)
          (le_trans (abs_nonneg b) hb)
      _ = c := mul_one c
  unfold rotate
  constructor
  · show |a * Real.cos θ - b * Real.sin θ| ≤ 2 * c
    calc |a * Real.cos θ - b * Real.sin θ|
        = |a * Real.cos θ + -(b * Real.sin θ)| := by rw [sub_eq_add_neg]
      _ ≤ |a * Real.cos θ| + |(-(b * Real.sin θ))| := abs_add _ _
      _ = |a * Real.cos θ| + |b * Real.sin θ| := by rw [abs_neg]
      _ ≤ c + c := add_le_add hca hsb
      _ = 2 * c := by ring
  · show |a * Real.sin θ + b * Real.cos θ| ≤ 2 * c
    calc |a * Real.sin θ + b * Real.cos θ|
        ≤ |a * Real.sin θ| + |b * Real.cos θ| := abs_add _ _
      _ ≤ c + c := add_le_add hsa hcb
      _ = 2 * c := by ring

theorem footprint_small (hw : ℝ) (h0 : 0 < hw) (h1 : hw ≤ 1/5) (θ : ℝ) :
    footprintForIncrement hw hw θ = [(0, 0)] := by
  have hc : |hw| ≤ hw := le_of_eq (abs_of_pos h0)
  have hcn : |(-hw)| ≤ hw := by rw [abs_neg]; exact hc
  have hb1 := rotate_abs_bound (-hw) (-hw) θ hw hcn hcn
  have hb2 := rotate_abs_bound hw (-hw) θ hw hc hcn
  have hb3 := rotate_abs_bound hw hw θ hw hc hc
  have hb4 := rotate_abs_bound (-hw) hw θ hw hcn hc
  obtain ⟨hb1x, hb1y⟩ := hb1
  obtain ⟨hb2x, hb2y⟩ := hb2
  obtain ⟨hb3x, hb3y⟩ := hb3
  obtain ⟨hb4x, hb4y⟩ := hb4
  rw [abs_le] at hb1x hb1y hb2x hb2y hb3x hb3y hb4x hb4y
  unfold footprintForIncrement
  simp only [List.map_cons, List.map_nil, foldMin, foldMax]
  have hminx : roundAway (List.foldl min (rotate (-hw) (-hw) θ).1
      [(rotate hw (-hw) θ).1, (rotate hw hw θ).1, (rotate (-hw) hw θ).1]) = 0 := by
    apply roundAway_eq_zero
    · have hlow : -(2 * hw) ≤ List.foldl min (rotate (-hw) (-hw) θ).1
          [(rotate hw (-hw) θ).1, (rotate hw hw θ).1, (rotate (-hw) hw θ).1] :=
        le_foldl_min hb1x.1 (by
          intro a ha
          simp only [List.mem_cons, List.not_mem_nil, or_false] at ha
          rcases ha with rfl | rfl | rfl
          · exact hb2x.1
          · exact hb3x.1
          · exact hb4x.1)
      linarith
    · have hup := foldl_min_le_init (l := [(rotate hw (-hw) θ).1,
        (rotate hw hw θ).1, (rotate (-hw) hw θ).1]) (i := (rotate (-hw) (-hw) θ).1)
      linarith [hb1x.2]
  have hmaxx : roundAway (List.foldl max (rotate (-hw) (-hw) θ).1
      [(rotate hw (-hw) θ).1, (rotate hw hw θ).1, (rotate (-hw) hw θ).1]) = 0 := by
    apply roundAway_eq_zero
    · have hlow := init_le_foldl_max (l := [(rotate hw (-hw) θ).1,
        (rotate hw hw θ).1, (rotate (-hw) hw θ).1]) (i := (rotate (-hw) (-hw) θ).1)
      linarith [hb1x.1]
    · have hup : List.foldl max (rotate (-hw) (-hw) θ).1
          [(rotate hw (-hw) θ).1, (rotate hw hw θ).1, (rotate (-hw) hw θ).1] ≤ 2 * hw :=
        foldl_max_le hb1x.2 (by
          intro a ha
          simp only [List.mem_cons, List.not_mem_nil, or_false] at ha
          rcases ha with rfl | rfl | rfl
          · exact hb2x.2
          · exact hb3x.2
          · exact hb4x.2)
      linarith
  have hminy : roundAway (List.foldl min (rotate (-hw) (-hw) θ).2
      [(rotate hw (-hw) θ).2, (rotate hw hw θ).2, (rotate (-hw) hw θ).2]) = 0 := by
    apply roundAway_eq_zero
    · have hlow : -(2 * hw) ≤ List.foldl min (rotate (-hw) (-hw) θ).2
          [(rotate hw (-hw) θ).2, (rotate hw hw θ).2, (rotate (-hw) hw θ).2] :=
        le_foldl_min hb1y.1 (by
          intro a ha
          simp only [List.mem_cons, List.not_mem_nil, or_false] at ha
          rcases ha with rfl | rfl | rfl
          · exact hb2y.1
          · exact hb3y.1
          · exact hb4y.1)
      linarith
    · have hup := foldl_min_le_init (l := [(rotate hw (-hw) θ).2,
        (rotate hw hw θ).2, (rotate (-hw) hw θ).2]) (i := (rotate (-hw) (-hw) θ).2)
      linarith [hb1y.2]
  have hmaxy : roundAway (List.foldl max (rotate (-hw) (-hw) θ).2
      [(rotate hw (-hw) θ).2, (rotate hw hw θ).2, (rotate (-hw) hw θ).2]) = 0 := by
    apply roundAway_eq_zero
    · have hlow := init_le_foldl_max (l := [(rotate hw (-hw) θ).2,
        (rotate hw hw θ).2, (rotate (-hw) hw θ).2]) (i := (rotate (-hw) (-hw) θ).2)
      linarith [hb1y.1]
    · have hup : List.foldl max (rotate (-hw) (-hw) θ).2
          [(rotate hw (-hw) θ).2, (rotate hw hw θ).2, (rotate (-hw) hw θ).2] ≤ 2 * hw :=
        foldl_max_le hb1y.2 (by
          intro a ha
          simp only [List.mem_cons, List.not_mem_nil, or_false] at ha
          rcases ha with rfl | rfl | rfl
          · exact hb2y.2
          · exact hb3y.2
          · exact hb4y.2)
      linarith
  rw [hminx, hmaxx, hminy, hmaxy]
  rw [show intRange 0 0 = [(0:ℤ)] by decide]
  simp only [List.flatMap_cons, List.flatMap_nil, List.filterMap_cons,
    List.filterMap_nil, List.append_nil]
  rw [show ((0:ℤ):ℝ) = (0:ℝ) by norm_num]
  rw [aabb_origin_collision]
  rfl

theorem fps001_eval (r : ℤ) (hr0 : 0 ≤ r) (hr8 : r < 8) :
    Agent.rotation_footprint (Agent.footprints 0.01 0.01 8) r = [(0, 0)] := by
  unfold Agent.rotation_footprint
  rw [if_neg (not_lt.mpr hr0)]
  unfold Agent.footprints
  have hrn : r.toNat < 8 := by omega
  rw [List.getD_eq_getElem?_getD, List.getElem?_map, List.getElem?_range hrn]
  simp only [Option.map_some', Option.getD_some]
  exact footprint_small (0.01 / 2) (by norm_num) (by norm_num) _

/-! ### Evaluation of the `maxIncrements 8, arc 1` motion-template cache -/

theorem sqrt2_gt : (1.41 : ℝ) < Real.sqrt 2 := by
  nlinarith [Real.sq_sqrt (show (0:ℝ) ≤ 2 by norm_num), Real.sqrt_nonneg 2]

theorem sqrt2_lt : Real.sqrt 2 < 1.42 := by
  nlinarith [Real.sq_sqrt (show (0:ℝ) ≤ 2 by norm_num), Real.sqrt_nonneg 2]

theorem cos_add_pi' (x : ℝ) : Real.cos (x + Real.pi) = -Real.cos x := by
  rw [Real.cos_add, Real.cos_pi, Real.sin_pi]
  ring

theorem sin_add_pi' (x : ℝ) : Real.sin (x + Real.pi) = -Real.sin x := by
  rw [Real.sin_add, Real.cos_pi, Real.sin_pi]
  ring

theorem cosA0 : Real.cos (0 * (Real.pi / 4)) = 1 := by
  rw [zero_mul, Real.cos_zero]

theorem sinA0 : Real.sin (0 * (Real.pi / 4)) = 0 := by
  rw [zero_mul, Real.sin_zero]

theorem cosA1 : Real.cos (1 * (Real.pi / 4)) = Real.sqrt 2 / 2 := by
  rw [one_mul, Real.cos_pi_div_four]

theorem sinA1 : Real.sin (1 * (Real.pi / 4)) = Real.sqrt 2 / 2 := by
  rw [one_mul, Real.sin_pi_div_four]

theorem cosA2 : Real.cos (2 * (Real.pi / 4)) = 0 := by
  rw [show (2:ℝ) * (Real.pi / 4) = Real.pi / 2 by ring, Real.cos_pi_div_two]

theorem sinA2 : Real.sin (2 * (Real.pi / 4)) = 1 := by
  rw [show (2:ℝ) * (Real.pi / 4) = Real.pi / 2 by ring, Real.sin_pi_div_two]

theorem cosA3 : Real.cos (3 * (Real.pi / 4)) = -(Real.sqrt 2 / 2) := by
  rw [show (3:ℝ) * (Real.pi / 4) = Real.pi - Real.pi / 4 by ring,
    Real.cos_pi_sub, Real.cos_pi_div_four]

theorem sinA3 : Real.sin (3 * (Real.pi / 4)) = Real.sqrt 2 / 2 := by
  rw [show (3:ℝ) * (Real.pi / 4) = Real.pi - Real.pi / 4 by ring,
    Real.sin_pi_sub, Real.sin_pi_div_four]

theorem cosA4 : Real.cos (4 * (Real.pi / 4)) = -1 := by
  rw [show (4:ℝ) * (Real.pi / 4) = Real.pi by ring, Real.cos_pi]

theorem sinA4 : Real.sin (4 * (Real.pi / 4)) = 0 := by
  rw [show (4:ℝ) * (Real.pi / 4) = Real.pi by ring, Real.sin_pi]

theorem cosA5 : Real.cos (5 * (Real.pi / 4)) = -(Real.sqrt 2 / 2) := by
  rw [show (5:ℝ) * (Real.pi / 4) = Real.pi / 4 + Real.pi by ring, cos_add_pi',
    Real.cos_pi_div_four]

theorem sinA5 : Real.sin (5 * (Real.pi / 4)) = -(Real.sqrt 2 / 2) := by
  rw [show (5:ℝ) * (Real.pi / 4) = Real.pi / 4 + Real.pi by ring, sin_add_pi',
    Real.sin_pi_div_four]

theorem cosA6 : Real.cos (6 * (Real.pi / 4)) = 0 := by
  rw [show (6:ℝ) * (Real.pi / 4) = Real.pi / 2 + Real.pi by ring, cos_add_pi',
    Real.cos_pi_div_two, neg_zero]

theorem sinA6 : Real.sin (6 * (Real.pi / 4)) = -1 := by
  rw [show (6:ℝ) * (Real.pi / 4) = Real.pi / 2 + Real.pi by ring, sin_add_pi',
    Real.sin_pi_div_two]

theorem cosA7 : Real.cos (7 * (Real.pi / 4)) = Real.sqrt 2 / 2 := by
  rw [show (7:ℝ) * (Real.pi / 4) = 3 * (Real.pi / 4) + Real.pi by ring,
    cos_add_pi', cosA3, neg_neg]

theorem sinA7 : Real.sin (7 * (Real.pi / 4)) = -(Real.sqrt 2 / 2) := by
  rw [show (7:ℝ) * (Real.pi / 4) = 3 * (Real.pi / 4) + Real.pi by ring,
    sin_add_pi', sinA3]

theorem ra_zero : roundAway 0 = 0 := by
  unfold roundAway
  rw [if_pos (le_refl (0:ℝ))]
  norm_num

theorem ra_one : roundAway 1 = 1 := by
  unfold roundAway
  rw [if_pos (by norm_num : (0:ℝ) ≤ 1)]
  rw [Int.floor_eq_iff]
  norm_num

theorem ra_neg_one : roundAway (-1) = -1 := by
  unfold roundAway
  rw [if_neg (by norm_num : ¬ (0:ℝ) ≤ -1)]
  rw [show -(-1:ℝ) = 1 by norm_num,
    show ⌊(1:ℝ) + 1 / 2⌋ = 1 by rw [Int.floor_eq_iff]; norm_num]

theorem ra_half_sqrt : roundAway (Real.sqrt 2 / 2) = 1 := by
  unfold roundAway
  rw [if_pos (by positivity : (0:ℝ) ≤ Real.sqrt 2 / 2)]
  rw [Int.floor_eq_iff]
  push_cast
  constructor
  · linarith [sqrt2_gt]
  · linarith [sqrt2_lt]

theorem ra_neg_half_sqrt : roundAway (-(Real.sqrt 2 / 2)) = -1 := by
  unfold roundAway
  rw [if_neg (by nlinarith [sqrt2_gt] : ¬ (0:ℝ) ≤ -(Real.sqrt 2 / 2))]
  rw [neg_neg]
  rw [show ⌊(Real.sqrt 2 / 2 + 1 / 2 : ℝ)⌋ = 1 by
    rw [Int.floor_eq_iff]
    push_cast
    constructor
    · linarith [sqrt2_gt]
    · linarith [sqrt2_lt]]

theorem pnF0 : Cell.precompute_neighbor 0 (Real.pi / 4) false =
    Cell.mk 0 (1) (0) false := by
  unfold Cell.precompute_neighbor
  rw [show (((0:ℤ)):ℝ) = (0:ℝ) by norm_num]
  simp only [Bool.false_eq_true, if_false]
  rw [cosA0, sinA0]
  simp only [ra_one, ra_zero]
  decide

theorem pnT0 : Cell.precompute_neighbor 0 (Real.pi / 4) true =
    Cell.mk 0 (-1) (0) true := by
  unfold Cell.precompute_neighbor
  rw [show (((0:ℤ)):ℝ) = (0:ℝ) by norm_num]
  simp only [eq_self_iff_true, if_true]
  rw [cos_add_pi', sin_add_pi', cosA0, sinA0]
  simp only [neg_zero, ra_neg_one, ra_zero]
  decide

theorem pnF1 : Cell.precompute_neighbor 1 (Real.pi / 4) false =
    Cell.mk 1 (1) (1) false := by
  unfold Cell.precompute_neighbor
  rw [show (((1:ℤ)):ℝ) = (1:ℝ) by norm_num]
  simp only [Bool.false_eq_true, if_false]
  rw [cosA1, sinA1]
  simp only [ra_half_sqrt]
  decide

theorem pnT1 : Cell.precompute_neighbor 1 (Real.pi / 4) true =
    Cell.mk 1 (-1) (-1) true := by
  unfold Cell.precompute_neighbor
  rw [show (((1:ℤ)):ℝ) = (1:ℝ) by norm_num]
  simp only [eq_self_iff_true, if_true]
  rw [cos_add_pi', sin_add_pi', cosA1, sinA1]
  simp only [ra_neg_half_sqrt]
  decide

theorem pnF2 : Cell.precompute_neighbor 2 (Real.pi / 4) false =
    Cell.mk 2 (0) (1) false := by
  unfold Cell.precompute_neighbor
  rw [show (((2:ℤ)):ℝ) = (2:ℝ) by norm_num]
  simp only [Bool.false_eq_true, if_false]
  rw [cosA2, sinA2]
  simp only [ra_zero, ra_one]
  decide

theorem pnT2 : Cell.precompute_neighbor 2 (Real.pi / 4) true =
    Cell.mk 2 (0) (-1) true := by
  unfold Cell.precompute_neighbor
  rw [show (((2:ℤ)):ℝ) = (2:ℝ) by norm_num]
  simp only [eq_self_iff_true, if_true]
  rw [cos_add_pi', sin_add_pi', cosA2, sinA2]
  simp only [neg_zero, ra_zero, ra_neg_one]
  decide

theorem pnF3 : Cell.precompute_neighbor 3 (Real.pi / 4) false =
    Cell.mk 3 (-1) (1) false := by
  unfold Cell.precompute_neighbor
  rw [show (((3:ℤ)):ℝ) = (3:ℝ) by norm_num]
  simp only [Bool.false_eq_true, if_false]
  rw [cosA3, sinA3]
  simp only [ra_neg_half_sqrt, ra_half_sqrt]
  decide

theorem pnT3 : Cell.precompute_neighbor 3 (Real.pi / 4) true =
    Cell.mk 3 (1) (-1) true := by
  unfold Cell.precompute_neighbor
  rw [show (((3:ℤ)):ℝ) = (3:ℝ) by norm_num]
  simp only [eq_self_iff_true, if_true]
  rw [cos_add_pi', sin_add_pi', cosA3, sinA3]
  simp only [neg_neg, ra_half_sqrt, ra_neg_half_sqrt]
  decide

theorem pnF4 : Cell.precompute_neighbor 4 (Real.pi / 4) false =
    Cell.mk 4 (-1) (0) false := by
  unfold Cell.precompute_neighbor
  rw [show (((4:ℤ)):ℝ) = (4:ℝ) by norm_num]
  simp only [Bool.false_eq_true, if_false]
  rw [cosA4, sinA4]
  simp only [ra_neg_one, ra_zero]
  decide

theorem pnT4 : Cell.precompute_neighbor 4 (Real.pi / 4) true =
    Cell.mk 4 (1) (0) true := by
  unfold Cell.precompute_neighbor
  rw [show (((4:ℤ)):ℝ) = (4:ℝ) by norm_num]
  simp only [eq_self_iff_true, if_true]
  rw [cos_add_pi', sin_add_pi', cosA4, sinA4]
  simp only [neg_neg, neg_zero, ra_one, ra_zero]
  decide

theorem pnF5 : Cell.precompute_neighbor 5 (Real.pi / 4) false =
    Cell.mk 5 (-1) (-1) false := by
  unfold Cell.precompute_neighbor
  rw [show (((5:ℤ)):ℝ) = (5:ℝ) by norm_num]
  simp only [Bool.false_eq_true, if_false]
  rw [cosA5, sinA5]
  simp only [ra_neg_half_sqrt]
  decide

theorem pnT5 : Cell.precompute_neighbor 5 (Real.pi / 4) true =
    Cell.mk 5 (1) (1) true := by
  unfold Cell.precompute_neighbor
  rw [show (((5:ℤ)):ℝ) = (5:ℝ) by norm_num]
  simp only [eq_self_iff_true, if_true]
  rw [cos_add_pi', sin_add_pi', cosA5, sinA5]
  simp only [neg_neg, ra_half_sqrt]
  decide

theorem pnF6 : Cell.precompute_neighbor 6 (Real.pi / 4) false =
    Cell.mk 6 (0) (-1) false := by
  unfold Cell.precompute_neighbor
  rw [show (((6:ℤ)):ℝ) = (6:ℝ) by norm_num]
  simp only [Bool.false_eq_true, if_false]
  rw [cosA6, sinA6]
  simp only [ra_zero, ra_neg_one]
  decide

theorem pnT6 : Cell.precompute_neighbor 6 (Real.pi / 4) true =
    Cell.mk 6 (0) (1) true := by
  unfold Cell.precompute_neighbor
  rw [show (((6:ℤ)):ℝ) = (6:ℝ) by norm_num]
  simp only [eq_self_iff_true, if_true]
  rw [cos_add_pi', sin_add_pi', cosA6, sinA6]
  simp only [neg_zero, neg_neg, ra_zero, ra_one]
  decide

theorem pnF7 : Cell.precompute_neighbor 7 (Real.pi / 4) false =
    Cell.mk 7 (1) (-1) false := by
  unfold Cell.precompute_neighbor
  rw [show (((7:ℤ)):ℝ) = (7:ℝ) by norm_num]
  simp only [Bool.false_eq_true, if_false]
  rw [cosA7, sinA7]
  simp only [ra_half_sqrt, ra_neg_half_sqrt]
  decide

theorem pnT7 : Cell.precompute_neighbor 7 (Real.pi / 4) true =
    Cell.mk 7 (-1) (1) true := by
  unfold Cell.precompute_neighbor
  rw [show (((7:ℤ)):ℝ) = (7:ℝ) by norm_num]
  simp only [eq_self_iff_true, if_true]
  rw [cos_add_pi', sin_add_pi', cosA7, sinA7]
  simp only [neg_neg, ra_neg_half_sqrt, ra_half_sqrt]
  decide

theorem scan_nil (inc : ℝ) (d : ℤ × ℤ) (acc : ℕ × ℝ) :
    cardinalScan inc d [] acc = acc.1 := rfl

theorem scan_step_lt (inc : ℝ) (d : ℤ × ℤ) (i : ℕ) (rest : List ℕ)
    (acc : ℕ × ℝ) (v : ℝ)
    (hv : Real.cos (i * inc) * d.1 + Real.sin (i * inc) * d.2 = v)
    (h : acc.2 < v) :
    cardinalScan inc d (i :: rest) acc = cardinalScan inc d rest (i, v) := by
  simp only [cardinalScan]
  rw [hv, if_pos h]

theorem scan_step_ge (inc : ℝ) (d : ℤ × ℤ) (i : ℕ) (rest : List ℕ)
    (acc : ℕ × ℝ) (v : ℝ)
    (hv : Real.cos (i * inc) * d.1 + Real.sin (i * inc) * d.2 = v)
    (h : v ≤ acc.2) :
    cardinalScan inc d (i :: rest) acc = cardinalScan inc d rest acc := by
  simp only [cardinalScan]
  rw [hv, if_neg (not_lt.mpr h)]

theorem scanD0 : cardinalScan (Real.pi / 4) ((0, 1) : ℤ × ℤ)
    [0, 1, 2, 3, 4, 5, 6, 7] (0, -1) = 2 := by
  rw [scan_step_lt _ _ _ _ _ (0:ℝ) (by dsimp only; push_cast; rw [cosA0, sinA0]; ring) (by dsimp only; nlinarith [sqrt2_gt, sqrt2_lt])]
  rw [scan_step_lt _ _ _ _ _ (Real.sqrt 2 / 2) (by dsimp only; push_cast; rw [cosA1, sinA1]; ring) (by dsimp only; nlinarith [sqrt2_gt, sqrt2_lt])]
  rw [scan_step_lt _ _ _ _ _ (1:ℝ) (by dsimp only; push_cast; rw [cosA2, sinA2]; ring) (by dsimp only; nlinarith [sqrt2_gt, sqrt2_lt])]
  rw [scan_step_ge _ _ _ _ _ (Real.sqrt 2 / 2) (by dsimp only; push_cast; rw [cosA3, sinA3]; ring) (by dsimp only; nlinarith [sqrt2_gt, sqrt2_lt])]
  rw [scan_step_ge _ _ _ _ _ (0:ℝ) (by dsimp only; push_cast; rw [cosA4, sinA4]; ring) (by dsimp only; nlinarith [sqrt2_gt, sqrt2_lt])]
  rw [scan_step_ge _ _ _ _ _ (-(Real.sqrt 2 / 2)) (by dsimp only; push_cast; rw [cosA5, sinA5]; ring) (by dsimp only; nlinarith [sqrt2_gt, sqrt2_lt])]
  rw [scan_step_ge _ _ _ _ _ (-1:ℝ) (by dsimp only; push_cast; rw [cosA6, sinA6]; ring) (by dsimp only; nlinarith [sqrt2_gt, sqrt2_lt])]
  rw [scan_step_ge _ _ _ _ _ (-(Real.sqrt 2 / 2)) (by dsimp only; push_cast; rw [cosA7, sinA7]; ring) (by dsimp only; nlinarith [sqrt2_gt, sqrt2_lt])]
  rw [scan_nil]

theorem scanD1 : cardinalScan (Real.pi / 4) ((1, 0) : ℤ × ℤ)
    [0, 1, 2, 3, 4, 5, 6, 7] (0, -1) = 0 := by
  rw [scan_step_lt _ _ _ _ _ (1:ℝ) (by dsimp only; push_cast; rw [cosA0, sinA0]; ring) (by dsimp only; nlinarith [sqrt2_gt, sqrt2_lt])]
  rw [scan_step_ge _ _ _ _ _ (Real.sqrt 2 / 2) (by dsimp only; push_cast; rw [cosA1, sinA1]; ring) (by dsimp only; nlinarith [sqrt2_gt, sqrt2_lt])]
  rw [scan_step_ge _ _ _ _ _ (0:ℝ) (by dsimp only; push_cast; rw [cosA2, sinA2]; ring) (by dsimp only; nlinarith [sqrt2_gt, sqrt2_lt])]
  rw [scan_step_ge _ _ _ _ _ (-(Real.sqrt 2 / 2)) (by dsimp only; push_cast; rw [cosA3, sinA3]; ring) (by dsimp only; nlinarith [sqrt2_gt, sqrt2_lt])]
  rw [scan_step_ge _ _ _ _ _ (-1:ℝ) (by dsimp only; push_cast; rw [cosA4, sinA4]; ring) (by dsimp only; nlinarith [sqrt2_gt, sqrt2_lt])]
  rw [scan_step_ge _ _ _ _ _ (-(Real.sqrt 2 / 2)) (by dsimp only; push_cast; rw [cosA5, sinA5]; ring) (by dsimp only; nlinarith [sqrt2_gt, sqrt2_lt])]
  rw [scan_step_ge _ _ _ _ _ (0:ℝ) (by dsimp only; push_cast; rw [cosA6, sinA6]; ring) (by dsimp only; nlinarith [sqrt2_gt, sqrt2_lt])]
  rw [scan_step_ge _ _ _ _ _ (Real.sqrt 2 / 2) (by dsimp only; push_cast; rw [cosA7, sinA7]; ring) (by dsimp only; nlinarith [sqrt2_gt, sqrt2_lt])]
  rw [scan_nil]

theorem scanD2 : cardinalScan (Real.pi / 4) ((0, -1) : ℤ × ℤ)
    [0, 1, 2, 3, 4, 5, 6, 7] (0, -1) = 6 := by
  rw [scan_step_lt _ _ _ _ _ (0:ℝ) (by dsimp only; push_cast; rw [cosA0, sinA0]; ring) (by dsimp only; nlinarith [sqrt2_gt, sqrt2_lt])]
  rw [scan_step_ge _ _ _ _ _ (-(Real.sqrt 2 / 2)) (by dsimp only; push_cast; rw [cosA1, sinA1]; ring) (by dsimp only; nlinarith [sqrt2_gt, sqrt2_lt])]
  rw [scan_step_ge _ _ _ _ _ (-1:ℝ) (by dsimp only; push_cast; rw [cosA2, sinA2]; ring) (by dsimp only; nlinarith [sqrt2_gt, sqrt2_lt])]
  rw [scan_step_ge _ _ _ _ _ (-(Real.sqrt 2 / 2)) (by dsimp only; push_cast; rw [cosA3, sinA3]; ring) (by dsimp only; nlinarith [sqrt2_gt, sqrt2_lt])]
  rw [scan_step_ge _ _ _ _ _ (0:ℝ) (by dsimp only; push_cast; rw [cosA4, sinA4]; ring) (by dsimp only; nlinarith [sqrt2_gt, sqrt2_lt])]
  rw [scan_step_lt _ _ _ _ _ (Real.sqrt 2 / 2) (by dsimp only; push_cast; rw [cosA5, sinA5]; ring) (by dsimp only; nlinarith [sqrt2_gt, sqrt2_lt])]
  rw [scan_step_lt _ _ _ _ _ (1:ℝ) (by dsimp only; push_cast; rw [cosA6, sinA6]; ring) (by dsimp only; nlinarith [sqrt2_gt, sqrt2_lt])]
  rw [scan_step_ge _ _ _ _ _ (Real.sqrt 2 / 2) (by dsimp only; push_cast; rw [cosA7, sinA7]; ring) (by dsimp only; nlinarith [sqrt2_gt, sqrt2_lt])]
  rw [scan_nil]

theorem scanD3 : cardinalScan (Real.pi / 4) ((-1, 0) : ℤ × ℤ)
    [0, 1, 2, 3, 4, 5, 6, 7] (0, -1) = 4 := by
  rw [scan_step_ge _ _ _ _ _ (-1:ℝ) (by dsimp only; push_cast; rw [cosA0, sinA0]; ring) (by dsimp only; nlinarith [sqrt2_gt, sqrt2_lt])]
  rw [scan_step_lt _ _ _ _ _ (-(Real.sqrt 2 / 2)) (by dsimp only; push_cast; rw [cosA1, sinA1]; ring) (by dsimp only; nlinarith [sqrt2_gt, sqrt2_lt])]
  rw [scan_step_lt _ _ _ _ _ (0:ℝ) (by dsimp only; push_cast; rw [cosA2, sinA2]; ring) (by dsimp only; nlinarith [sqrt2_gt, sqrt2_lt])]
  rw [scan_step_lt _ _ _ _ _ (Real.sqrt 2 / 2) (by dsimp only; push_cast; rw [cosA3, sinA3]; ring) (by dsimp only; nlinarith [sqrt2_gt, sqrt2_lt])]
  rw [scan_step_lt _ _ _ _ _ (1:ℝ) (by dsimp only; push_cast; rw [cosA4, sinA4]; ring) (by dsimp only; nlinarith [sqrt2_gt, sqrt2_lt])]
  rw [scan_step_ge _ _ _ _ _ (Real.sqrt 2 / 2) (by dsimp only; push_cast; rw [cosA5, sinA5]; ring) (by dsimp only; nlinarith [sqrt2_gt, sqrt2_lt])]
  rw [scan_step_ge _ _ _ _ _ (0:ℝ) (by dsimp only; push_cast; rw [cosA6, sinA6]; ring) (by dsimp only; nlinarith [sqrt2_gt, sqrt2_lt])]
  rw [scan_step_ge _ _ _ _ _ (-(Real.sqrt 2 / 2)) (by dsimp only; push_cast; rw [cosA7, sinA7]; ring) (by dsimp only; nlinarith [sqrt2_gt, sqrt2_lt])]
  rw [scan_nil]

theorem scanD4 : cardinalScan (Real.pi / 4) ((1, 1) : ℤ × ℤ)
    [0, 1, 2, 3, 4, 5, 6, 7] (0, -1) = 1 := by
  rw [scan_step_lt _ _ _ _ _ (1:ℝ) (by dsimp only; push_cast; rw [cosA0, sinA0]; ring) (by dsimp only; nlinarith [sqrt2_gt, sqrt2_lt])]
  rw [scan_step_lt _ _ _ _ _ (Real.sqrt 2) (by dsimp only; push_cast; rw [cosA1, sinA1]; ring) (by dsimp only; nlinarith [sqrt2_gt, sqrt2_lt])]
  rw [scan_step_ge _ _ _ _ _ (1:ℝ) (by dsimp only; push_cast; rw [cosA2, sinA2]; ring) (by dsimp only; nlinarith [sqrt2_gt, sqrt2_lt])]
  rw [scan_step_ge _ _ _ _ _ (0:ℝ) (by dsimp only; push_cast; rw [cosA3, sinA3]; ring) (by dsimp only; nlinarith [sqrt2_gt, sqrt2_lt])]
  rw [scan_step_ge _ _ _ _ _ (-1:ℝ) (by dsimp only; push_cast; rw [cosA4, sinA4]; ring) (by dsimp only; nlinarith [sqrt2_gt, sqrt2_lt])]
  rw [scan_step_ge _ _ _ _ _ (-Real.sqrt 2) (by dsimp only; push_cast; rw [cosA5, sinA5]; ring) (by dsimp only; nlinarith [sqrt2_gt, sqrt2_lt])]
  rw [scan_step_ge _ _ _ _ _ (-1:ℝ) (by dsimp only; push_cast; rw [cosA6, sinA6]; ring) (by dsimp only; nlinarith [sqrt2_gt, sqrt2_lt])]
  rw [scan_step_ge _ _ _ _ _ (0:ℝ) (by dsimp only; push_cast; rw [cosA7, sinA7]; ring) (by dsimp only; nlinarith [sqrt2_gt, sqrt2_lt])]
  rw [scan_nil]

theorem scanD5 : cardinalScan (Real.pi / 4) ((1, -1) : ℤ × ℤ)
    [0, 1, 2, 3, 4, 5, 6, 7] (0, -1) = 7 := by
  rw [scan_step_lt _ _ _ _ _ (1:ℝ) (by dsimp only; push_cast; rw [cosA0, sinA0]; ring) (by dsimp only; nlinarith [sqrt2_gt, sqrt2_lt])]
  rw [scan_step_ge _ _ _ _ _ (0:ℝ) (by dsimp only; push_cast; rw [cosA1, sinA1]; ring) (by dsimp only; nlinarith [sqrt2_gt, sqrt2_lt])]
  rw [scan_step_ge _ _ _ _ _ (-1:ℝ) (by dsimp only; push_cast; rw [cosA2, sinA2]; ring) (by dsimp only; nlinarith [sqrt2_gt, sqrt2_lt])]
  rw [scan_step_ge _ _ _ _ _ (-Real.sqrt 2) (by dsimp only; push_cast; rw [cosA3, sinA3]; ring) (by dsimp only; nlinarith [sqrt2_gt, sqrt2_lt])]
  rw [scan_step_ge _ _ _ _ _ (-1:ℝ) (by dsimp only; push_cast; rw [cosA4, sinA4]; ring) (by dsimp only; nlinarith [sqrt2_gt, sqrt2_lt])]
  rw [scan_step_ge _ _ _ _ _ (0:ℝ) (by dsimp only; push_cast; rw [cosA5, sinA5]; ring) (by dsimp only; nlinarith [sqrt2_gt, sqrt2_lt])]
  rw [scan_step_ge _ _ _ _ _ (1:ℝ) (by dsimp only; push_cast; rw [cosA6, sinA6]; ring) (by dsimp only; nlinarith [sqrt2_gt, sqrt2_lt])]
  rw [scan_step_lt _ _ _ _ _ (Real.sqrt 2) (by dsimp only; push_cast; rw [cosA7, sinA7]; ring) (by dsimp only; nlinarith [sqrt2_gt, sqrt2_lt])]
  rw [scan_nil]

theorem scanD6 : cardinalScan (Real.pi / 4) ((-1, 1) : ℤ × ℤ)
    [0, 1, 2, 3, 4, 5, 6, 7] (0, -1) = 3 := by
  rw [scan_step_ge _ _ _ _ _ (-1:ℝ) (by dsimp only; push_cast; rw [cosA0, sinA0]; ring) (by dsimp only; nlinarith [sqrt2_gt, sqrt2_lt])]
  rw [scan_step_lt _ _ _ _ _ (0:ℝ) (by dsimp only; push_cast; rw [cosA1, sinA1]; ring) (by dsimp only; nlinarith [sqrt2_gt, sqrt2_lt])]
  rw [scan_step_lt _ _ _ _ _ (1:ℝ) (by dsimp only; push_cast; rw [cosA2, sinA2]; ring) (by dsimp only; nlinarith [sqrt2_gt, sqrt2_lt])]
  rw [scan_step_lt _ _ _ _ _ (Real.sqrt 2) (by dsimp only; push_cast; rw [cosA3, sinA3]; ring) (by dsimp only; nlinarith [sqrt2_gt, sqrt2_lt])]
  rw [scan_step_ge _ _ _ _ _ (1:ℝ) (by dsimp only; push_cast; rw [cosA4, sinA4]; ring) (by dsimp only; nlinarith [sqrt2_gt, sqrt2_lt])]
  rw [scan_step_ge _ _ _ _ _ (0:ℝ) (by dsimp only; push_cast; rw [cosA5, sinA5]; ring) (by dsimp only; nlinarith [sqrt2_gt, sqrt2_lt])]
  rw [scan_step_ge _ _ _ _ _ (-1:ℝ) (by dsimp only; push_cast; rw [cosA6, sinA6]; ring) (by dsimp only; nlinarith [sqrt2_gt, sqrt2_lt])]
  rw [scan_step_ge _ _ _ _ _ (-Real.sqrt 2) (by dsimp only; push_cast; rw [cosA7, sinA7]; ring) (by dsimp only; nlinarith [sqrt2_gt, sqrt2_lt])]
  rw [scan_nil]

theorem scanD7 : cardinalScan (Real.pi / 4) ((-1, -1) : ℤ × ℤ)
    [0, 1, 2, 3, 4, 5, 6, 7] (0, -1) = 5 := by
  rw [scan_step_ge _ _ _ _ _ (-1:ℝ) (by dsimp only; push_cast; rw [cosA0, sinA0]; ring) (by dsimp only; nlinarith [sqrt2_gt, sqrt2_lt])]
  rw [scan_step_ge _ _ _ _ _ (-Real.sqrt 2) (by dsimp only; push_cast; rw [cosA1, sinA1]; ring) (by dsimp only; nlinarith [sqrt2_gt, sqrt2_lt])]
  rw [scan_step_ge _ _ _ _ _ (-1:ℝ) (by dsimp only; push_cast; rw [cosA2, sinA2]; ring) (by dsimp only; nlinarith [sqrt2_gt, sqrt2_lt])]
  rw [scan_step_lt _ _ _ _ _ (0:ℝ) (by dsimp only; push_cast; rw [cosA3, sinA3]; ring) (by dsimp only; nlinarith [sqrt2_gt, sqrt2_lt])]
  rw [scan_step_lt _ _ _ _ _ (1:ℝ) (by dsimp only; push_cast; rw [cosA4, sinA4]; ring) (by dsimp only; nlinarith [sqrt2_gt, sqrt2_lt])]
  rw [scan_step_lt _ _ _ _ _ (Real.sqrt 2) (by dsimp only; push_cast; rw [cosA5, sinA5]; ring) (by dsimp only; nlinarith [sqrt2_gt, sqrt2_lt])]
  rw [scan_step_ge _ _ _ _ _ (1:ℝ) (by dsimp only; push_cast; rw [cosA6, sinA6]; ring) (by dsimp only; nlinarith [sqrt2_gt, sqrt2_lt])]
  rw [scan_step_ge _ _ _ _ _ (0:ℝ) (by dsimp only; push_cast; rw [cosA7, sinA7]; ring) (by dsimp only; nlinarith [sqrt2_gt, sqrt2_lt])]
  rw [scan_nil]

theorem cardinalValues8 :
    cardinalValues 8 (Real.pi / 4) = [2, 0, 6, 4, 1, 7, 3, 5] := by
  unfold cardinalValues cardinal_directions
  simp only [List.map_cons, List.map_nil]
  rw [show List.range 8 = [0, 1, 2, 3, 4, 5, 6, 7] from rfl]
  rw [scanD0, scanD1, scanD2, scanD3, scanD4, scanD5, scanD6, scanD7]
  decide

theorem rowEval0 : precomputeRow 8 1 [2, 0, 6, 4, 1, 7, 3, 5] (Real.pi / 4) 0 =
    [((1, -1), 7, false), ((1, 0), 0, false), ((1, 1), 1, false), ((0, 1), 6, true), ((-1, 1), 7, true), ((-1, 0), 0, true), ((-1, -1), 1, true), ((0, -1), 2, true)] := by
  unfold precomputeRow
  rw [show ((8:ℕ):ℤ) = 8 from by norm_num]
  rw [show (-(↑(1:ℕ)) : ℤ) = -1 from by norm_num,
    show ((↑(1:ℕ)) : ℤ) = 1 from by norm_num]
  rw [show (-(2 * (1:ℤ))) = -2 from by norm_num,
    show ((2 * (1:ℤ)) : ℤ) = 2 from by norm_num]
  rw [show intRange (-1) 1 = [-1, 0, 1] from by decide,
    show intRange (-2) 2 = [-2, -1, 0, 1, 2] from by decide]
  simp only [List.map_cons, List.map_nil]
  rw [show Cell.precompute_neighbor (Cell.clamp_rotation (0 + -1) 8) (Real.pi / 4) false = Cell.mk 7 (1) (-1) false from by
    rw [show Cell.clamp_rotation (0 + -1) 8 = 7 from by decide]
    exact pnF7]
  rw [show Cell.precompute_neighbor (Cell.clamp_rotation (0 + 0) 8) (Real.pi / 4) false = Cell.mk 0 (1) (0) false from by
    rw [show Cell.clamp_rotation (0 + 0) 8 = 0 from by decide]
    exact pnF0]
  rw [show Cell.precompute_neighbor (Cell.clamp_rotation (0 + 1) 8) (Real.pi / 4) false = Cell.mk 1 (1) (1) false from by
    rw [show Cell.clamp_rotation (0 + 1) 8 = 1 from by decide]
    exact pnF1]
  rw [show Cell.precompute_neighbor (Cell.clamp_rotation (0 + -2) 8) (Real.pi / 4) true = Cell.mk 6 (0) (1) true from by
    rw [show Cell.clamp_rotation (0 + -2) 8 = 6 from by decide]
    exact pnT6]
  rw [show Cell.precompute_neighbor (Cell.clamp_rotation (0 + -1) 8) (Real.pi / 4) true = Cell.mk 7 (-1) (1) true from by
    rw [show Cell.clamp_rotation (0 + -1) 8 = 7 from by decide]
    exact pnT7]
  rw [show Cell.precompute_neighbor (Cell.clamp_rotation (0 + 0) 8) (Real.pi / 4) true = Cell.mk 0 (-1) (0) true from by
    rw [show Cell.clamp_rotation (0 + 0) 8 = 0 from by decide]
    exact pnT0]
  rw [show Cell.precompute_neighbor (Cell.clamp_rotation (0 + 1) 8) (Real.pi / 4) true = Cell.mk 1 (-1) (-1) true from by
    rw [show Cell.clamp_rotation (0 + 1) 8 = 1 from by decide]
    exact pnT1]
  rw [show Cell.precompute_neighbor (Cell.clamp_rotation (0 + 2) 8) (Real.pi / 4) true = Cell.mk 2 (0) (-1) true from by
    rw [show Cell.clamp_rotation (0 + 2) 8 = 2 from by decide]
    exact pnT2]
  decide

theorem rowEval1 : precomputeRow 8 1 [2, 0, 6, 4, 1, 7, 3, 5] (Real.pi / 4) 1 =
    [((1, 0), 0, false), ((1, 1), 1, false), ((0, 1), 2, false), ((-1, 1), 7, true), ((-1, 0), 0, true), ((-1, -1), 1, true), ((0, -1), 2, true), ((1, -1), 3, true)] := by
  unfold precomputeRow
  rw [show ((8:ℕ):ℤ) = 8 from by norm_num]
  rw [show (-(↑(1:ℕ)) : ℤ) = -1 from by norm_num,
    show ((↑(1:ℕ)) : ℤ) = 1 from by norm_num]
  rw [show (-(2 * (1:ℤ))) = -2 from by norm_num,
    show ((2 * (1:ℤ)) : ℤ) = 2 from by norm_num]
  rw [show intRange (-1) 1 = [-1, 0, 1] from by decide,
    show intRange (-2) 2 = [-2, -1, 0, 1, 2] from by decide]
  simp only [List.map_cons, List.map_nil]
  rw [show Cell.precompute_neighbor (Cell.clamp_rotation (1 + -1) 8) (Real.pi / 4) false = Cell.mk 0 (1) (0) false from by
    rw [show Cell.clamp_rotation (1 + -1) 8 = 0 from by decide]
    exact pnF0]
  rw [show Cell.precompute_neighbor (Cell.clamp_rotation (1 + 0) 8) (Real.pi / 4) false = Cell.mk 1 (1) (1) false from by
    rw [show Cell.clamp_rotation (1 + 0) 8 = 1 from by decide]
    exact pnF1]
  rw [show Cell.precompute_neighbor (Cell.clamp_rotation (1 + 1) 8) (Real.pi / 4) false = Cell.mk 2 (0) (1) false from by
    rw [show Cell.clamp_rotation (1 + 1) 8 = 2 from by decide]
    exact pnF2]
  rw [show Cell.precompute_neighbor (Cell.clamp_rotation (1 + -2) 8) (Real.pi / 4) true = Cell.mk 7 (-1) (1) true from by
    rw [show Cell.clamp_rotation (1 + -2) 8 = 7 from by decide]
    exact pnT7]
  rw [show Cell.precompute_neighbor (Cell.clamp_rotation (1 + -1) 8) (Real.pi / 4) true = Cell.mk 0 (-1) (0) true from by
    rw [show Cell.clamp_rotation (1 + -1) 8 = 0 from by decide]
    exact pnT0]
  rw [show Cell.precompute_neighbor (Cell.clamp_rotation (1 + 0) 8) (Real.pi / 4) true = Cell.mk 1 (-1) (-1) true from by
    rw [show Cell.clamp_rotation (1 + 0) 8 = 1 from by decide]
    exact pnT1]
  rw [show Cell.precompute_neighbor (Cell.clamp_rotation (1 + 1) 8) (Real.pi / 4) true = Cell.mk 2 (0) (-1) true from by
    rw [show Cell.clamp_rotation (1 + 1) 8 = 2 from by decide]
    exact pnT2]
  rw [show Cell.precompute_neighbor (Cell.clamp_rotation (1 + 2) 8) (Real.pi / 4) true = Cell.mk 3 (1) (-1) true from by
    rw [show Cell.clamp_rotation (1 + 2) 8 = 3 from by decide]
    exact pnT3]
  decide

theorem rowEval2 : precomputeRow 8 1 [2, 0, 6, 4, 1, 7, 3, 5] (Real.pi / 4) 2 =
    [((1, 1), 1, false), ((0, 1), 2, false), ((-1, 1), 3, false), ((-1, 0), 0, true), ((-1, -1), 1, true), ((0, -1), 2, true), ((1, -1), 3, true), ((1, 0), 4, true)] := by
  unfold precomputeRow
  rw [show ((8:ℕ):ℤ) = 8 from by norm_num]
  rw [show (-(↑(1:ℕ)) : ℤ) = -1 from by norm_num,
    show ((↑(1:ℕ)) : ℤ) = 1 from by norm_num]
  rw [show (-(2 * (1:ℤ))) = -2 from by norm_num,
    show ((2 * (1:ℤ)) : ℤ) = 2 from by norm_num]
  rw [show intRange (-1) 1 = [-1, 0, 1] from by decide,
    show intRange (-2) 2 = [-2, -1, 0, 1, 2] from by decide]
  simp only [List.map_cons, List.map_nil]
  rw [show Cell.precompute_neighbor (Cell.clamp_rotation (2 + -1) 8) (Real.pi / 4) false = Cell.mk 1 (1) (1) false from by
    rw [show Cell.clamp_rotation (2 + -1) 8 = 1 from by decide]
    exact pnF1]
  rw [show Cell.precompute_neighbor (Cell.clamp_rotation (2 + 0) 8) (Real.pi / 4) false = Cell.mk 2 (0) (1) false from by
    rw [show Cell.clamp_rotation (2 + 0) 8 = 2 from by decide]
    exact pnF2]
  rw [show Cell.precompute_neighbor (Cell.clamp_rotation (2 + 1) 8) (Real.pi / 4) false = Cell.mk 3 (-1) (1) false from by
    rw [show Cell.clamp_rotation (2 + 1) 8 = 3 from by decide]
    exact pnF3]
  rw [show Cell.precompute_neighbor (Cell.clamp_rotation (2 + -2) 8) (Real.pi / 4) true = Cell.mk 0 (-1) (0) true from by
    rw [show Cell.clamp_rotation (2 + -2) 8 = 0 from by decide]
    exact pnT0]
  rw [show Cell.precompute_neighbor (Cell.clamp_rotation (2 + -1) 8) (Real.pi / 4) true = Cell.mk 1 (-1) (-1) true from by
    rw [show Cell.clamp_rotation (2 + -1) 8 = 1 from by decide]
    exact pnT1]
  rw [show Cell.precompute_neighbor (Cell.clamp_rotation (2 + 0) 8) (Real.pi / 4) true = Cell.mk 2 (0) (-1) true from by
    rw [show Cell.clamp_rotation (2 + 0) 8 = 2 from by decide]
    exact pnT2]
  rw [show Cell.precompute_neighbor (Cell.clamp_rotation (2 + 1) 8) (Real.pi / 4) true = Cell.mk 3 (1) (-1) true from by
    rw [show Cell.clamp_rotation (2 + 1) 8 = 3 from by decide]
    exact pnT3]
  rw [show Cell.precompute_neighbor (Cell.clamp_rotation (2 + 2) 8) (Real.pi / 4) true = Cell.mk 4 (1) (0) true from by
    rw [show Cell.clamp_rotation (2 + 2) 8 = 4 from by decide]
    exact pnT4]
  decide

theorem rowEval3 : precomputeRow 8 1 [2, 0, 6, 4, 1, 7, 3, 5] (Real.pi / 4) 3 =
    [((0, 1), 2, false), ((-1, 1), 3, false), ((-1, 0), 4, false), ((-1, -1), 1, true), ((0, -1), 2, true), ((1, -1), 3, true), ((1, 0), 4, true), ((1, 1), 5, true)] := by
  unfold precomputeRow
  rw [show ((8:ℕ):ℤ) = 8 from by norm_num]
  rw [show (-(↑(1:ℕ)) : ℤ) = -1 from by norm_num,
    show ((↑(1:ℕ)) : ℤ) = 1 from by norm_num]
  rw [show (-(2 * (1:ℤ))) = -2 from by norm_num,
    show ((2 * (1:ℤ)) : ℤ) = 2 from by norm_num]
  rw [show intRange (-1) 1 = [-1, 0, 1] from by decide,
    show intRange (-2) 2 = [-2, -1, 0, 1, 2] from by decide]
  simp only [List.map_cons, List.map_nil]
  rw [show Cell.precompute_neighbor (Cell.clamp_rotation (3 + -1) 8) (Real.pi / 4) false = Cell.mk 2 (0) (1) false from by
    rw [show Cell.clamp_rotation (3 + -1) 8 = 2 from by decide]
    exact pnF2]
  rw [show Cell.precompute_neighbor (Cell.clamp_rotation (3 + 0) 8) (Real.pi / 4) false = Cell.mk 3 (-1) (1) false from by
    rw [show Cell.clamp_rotation (3 + 0) 8 = 3 from by decide]
    exact pnF3]
  rw [show Cell.precompute_neighbor (Cell.clamp_rotation (3 + 1) 8) (Real.pi / 4) false = Cell.mk 4 (-1) (0) false from by
    rw [show Cell.clamp_rotation (3 + 1) 8 = 4 from by decide]
    exact pnF4]
  rw [show Cell.precompute_neighbor (Cell.clamp_rotation (3 + -2) 8) (Real.pi / 4) true = Cell.mk 1 (-1) (-1) true from by
    rw [show Cell.clamp_rotation (3 + -2) 8 = 1 from by decide]
    exact pnT1]
  rw [show Cell.precompute_neighbor (Cell.clamp_rotation (3 + -1) 8) (Real.pi / 4) true = Cell.mk 2 (0) (-1) true from by
    rw [show Cell.clamp_rotation (3 + -1) 8 = 2 from by decide]
    exact pnT2]
  rw [show Cell.precompute_neighbor (Cell.clamp_rotation (3 + 0) 8) (Real.pi / 4) true = Cell.mk 3 (1) (-1) true from by
    rw [show Cell.clamp_rotation (3 + 0) 8 = 3 from by decide]
    exact pnT3]
  rw [show Cell.precompute_neighbor (Cell.clamp_rotation (3 + 1) 8) (Real.pi / 4) true = Cell.mk 4 (1) (0) true from by
    rw [show Cell.clamp_rotation (3 + 1) 8 = 4 from by decide]
    exact pnT4]
  rw [show Cell.precompute_neighbor (Cell.clamp_rotation (3 + 2) 8) (Real.pi / 4) true = Cell.mk 5 (1) (1) true from by
    rw [show Cell.clamp_rotation (3 + 2) 8 = 5 from by decide]
    exact pnT5]
  decide

theorem rowEval4 : precomputeRow 8 1 [2, 0, 6, 4, 1, 7, 3, 5] (Real.pi / 4) 4 =
    [((-1, 1), 3, false), ((-1, 0), 4, false), ((-1, -1), 5, false), ((0, -1), 2, true), ((1, -1), 3, true), ((1, 0), 4, true), ((1, 1), 5, true), ((0, 1), 6, true)] := by
  unfold precomputeRow
  rw [show ((8:ℕ):ℤ) = 8 from by norm_num]
  rw [show (-(↑(1:ℕ)) : ℤ) = -1 from by norm_num,
    show ((↑(1:ℕ)) : ℤ) = 1 from by norm_num]
  rw [show (-(2 * (1:ℤ))) = -2 from by norm_num,
    show ((2 * (1:ℤ)) : ℤ) = 2 from by norm_num]
  rw [show intRange (-1) 1 = [-1, 0, 1] from by decide,
    show intRange (-2) 2 = [-2, -1, 0, 1, 2] from by decide]
  simp only [List.map_cons, List.map_nil]
  rw [show Cell.precompute_neighbor (Cell.clamp_rotation (4 + -1) 8) (Real.pi / 4) false = Cell.mk 3 (-1) (1) false from by
    rw [show Cell.clamp_rotation (4 + -1) 8 = 3 from by decide]
    exact pnF3]
  rw [show Cell.precompute_neighbor (Cell.clamp_rotation (4 + 0) 8) (Real.pi / 4) false = Cell.mk 4 (-1) (0) false from by
    rw [show Cell.clamp_rotation (4 + 0) 8 = 4 from by decide]
    exact pnF4]
  rw [show Cell.precompute_neighbor (Cell.clamp_rotation (4 + 1) 8) (Real.pi / 4) false = Cell.mk 5 (-1) (-1) false from by
    rw [show Cell.clamp_rotation (4 + 1) 8 = 5 from by decide]
    exact pnF5]
  rw [show Cell.precompute_neighbor (Cell.clamp_rotation (4 + -2) 8) (Real.pi / 4) true = Cell.mk 2 (0) (-1) true from by
    rw [show Cell.clamp_rotation (4 + -2) 8 = 2 from by decide]
    exact pnT2]
  rw [show Cell.precompute_neighbor (Cell.clamp_rotation (4 + -1) 8) (Real.pi / 4) true = Cell.mk 3 (1) (-1) true from by
    rw [show Cell.clamp_rotation (4 + -1) 8 = 3 from by decide]
    exact pnT3]
  rw [show Cell.precompute_neighbor (Cell.clamp_rotation (4 + 0) 8) (Real.pi / 4) true = Cell.mk 4 (1) (0) true from by
    rw [show Cell.clamp_rotation (4 + 0) 8 = 4 from by decide]
    exact pnT4]
  rw [show Cell.precompute_neighbor (Cell.clamp_rotation (4 + 1) 8) (Real.pi / 4) true = Cell.mk 5 (1) (1) true from by
    rw [show Cell.clamp_rotation (4 + 1) 8 = 5 from by decide]
    exact pnT5]
  rw [show Cell.precompute_neighbor (Cell.clamp_rotation (4 + 2) 8) (Real.pi / 4) true = Cell.mk 6 (0) (1) true from by
    rw [show Cell.clamp_rotation (4 + 2) 8 = 6 from by decide]
    exact pnT6]
  decide

theorem rowEval5 : precomputeRow 8 1 [2, 0, 6, 4, 1, 7, 3, 5] (Real.pi / 4) 5 =
    [((-1, 0), 4, false), ((-1, -1), 5, false), ((0, -1), 6, false), ((1, -1), 3, true), ((1, 0), 4, true), ((1, 1), 5, true), ((0, 1), 6, true), ((-1, 1), 7, true)] := by
  unfold precomputeRow
  rw [show ((8:ℕ):ℤ) = 8 from by norm_num]
  rw [show (-(↑(1:ℕ)) : ℤ) = -1 from by norm_num,
    show ((↑(1:ℕ)) : ℤ) = 1 from by norm_num]
  rw [show (-(2 * (1:ℤ))) = -2 from by norm_num,
    show ((2 * (1:ℤ)) : ℤ) = 2 from by norm_num]
  rw [show intRange (-1) 1 = [-1, 0, 1] from by decide,
    show intRange (-2) 2 = [-2, -1, 0, 1, 2] from by decide]
  simp only [List.map_cons, List.map_nil]
  rw [show Cell.precompute_neighbor (Cell.clamp_rotation (5 + -1) 8) (Real.pi / 4) false = Cell.mk 4 (-1) (0) false from by
    rw [show Cell.clamp_rotation (5 + -1) 8 = 4 from by decide]
    exact pnF4]
  rw [show Cell.precompute_neighbor (Cell.clamp_rotation (5 + 0) 8) (Real.pi / 4) false = Cell.mk 5 (-1) (-1) false from by
    rw [show Cell.clamp_rotation (5 + 0) 8 = 5 from by decide]
    exact pnF5]
  rw [show Cell.precompute_neighbor (Cell.clamp_rotation (5 + 1) 8) (Real.pi / 4) false = Cell.mk 6 (0) (-1) false from by
    rw [show Cell.clamp_rotation (5 + 1) 8 = 6 from by decide]
    exact pnF6]
  rw [show Cell.precompute_neighbor (Cell.clamp_rotation (5 + -2) 8) (Real.pi / 4) true = Cell.mk 3 (1) (-1) true from by
    rw [show Cell.clamp_rotation (5 + -2) 8 = 3 from by decide]
    exact pnT3]
  rw [show Cell.precompute_neighbor (Cell.clamp_rotation (5 + -1) 8) (Real.pi / 4) true = Cell.mk 4 (1) (0) true from by
    rw [show Cell.clamp_rotation (5 + -1) 8 = 4 from by decide]
    exact pnT4]
  rw [show Cell.precompute_neighbor (Cell.clamp_rotation (5 + 0) 8) (Real.pi / 4) true = Cell.mk 5 (1) (1) true from by
    rw [show Cell.clamp_rotation (5 + 0) 8 = 5 from by decide]
    exact pnT5]
  rw [show Cell.precompute_neighbor (Cell.clamp_rotation (5 + 1) 8) (Real.pi / 4) true = Cell.mk 6 (0) (1) true from by
    rw [show Cell.clamp_rotation (5 + 1) 8 = 6 from by decide]
    exact pnT6]
  rw [show Cell.precompute_neighbor (Cell.clamp_rotation (5 + 2) 8) (Real.pi / 4) true = Cell.mk 7 (-1) (1) true from by
    rw [show Cell.clamp_rotation (5 + 2) 8 = 7 from by decide]
    exact pnT7]
  decide

theorem rowEval6 : precomputeRow 8 1 [2, 0, 6, 4, 1, 7, 3, 5] (Real.pi / 4) 6 =
    [((-1, -1), 5, false), ((0, -1), 6, false), ((1, -1), 7, false), ((1, 0), 4, true), ((1, 1), 5, true), ((0, 1), 6, true), ((-1, 1), 7, true), ((-1, 0), 0, true)] := by
  unfold precomputeRow
  rw [show ((8:ℕ):ℤ) = 8 from by norm_num]
  rw [show (-(↑(1:ℕ)) : ℤ) = -1 from by norm_num,
    show ((↑(1:ℕ)) : ℤ) = 1 from by norm_num]
  rw [show (-(2 * (1:ℤ))) = -2 from by norm_num,
    show ((2 * (1:ℤ)) : ℤ) = 2 from by norm_num]
  rw [show intRange (-1) 1 = [-1, 0, 1] from by decide,
    show intRange (-2) 2 = [-2, -1, 0, 1, 2] from by decide]
  simp only [List.map_cons, List.map_nil]
  rw [show Cell.precompute_neighbor (Cell.clamp_rotation (6 + -1) 8) (Real.pi / 4) false = Cell.mk 5 (-1) (-1) false from by
    rw [show Cell.clamp_rotation (6 + -1) 8 = 5 from by decide]
    exact pnF5]
  rw [show Cell.precompute_neighbor (Cell.clamp_rotation (6 + 0) 8) (Real.pi / 4) false = Cell.mk 6 (0) (-1) false from by
    rw [show Cell.clamp_rotation (6 + 0) 8 = 6 from by decide]
    exact pnF6]
  rw [show Cell.precompute_neighbor (Cell.clamp_rotation (6 + 1) 8) (Real.pi / 4) false = Cell.mk 7 (1) (-1) false from by
    rw [show Cell.clamp_rotation (6 + 1) 8 = 7 from by decide]
    exact pnF7]
  rw [show Cell.precompute_neighbor (Cell.clamp_rotation (6 + -2) 8) (Real.pi / 4) true = Cell.mk 4 (1) (0) true from by
    rw [show Cell.clamp_rotation (6 + -2) 8 = 4 from by decide]
    exact pnT4]
  rw [show Cell.precompute_neighbor (Cell.clamp_rotation (6 + -1) 8) (Real.pi / 4) true = Cell.mk 5 (1) (1) true from by
    rw [show Cell.clamp_rotation (6 + -1) 8 = 5 from by decide]
    exact pnT5]
  rw [show Cell.precompute_neighbor (Cell.clamp_rotation (6 + 0) 8) (Real.pi / 4) true = Cell.mk 6 (0) (1) true from by
    rw [show Cell.clamp_rotation (6 + 0) 8 = 6 from by decide]
    exact pnT6]
  rw [show Cell.precompute_neighbor (Cell.clamp_rotation (6 + 1) 8) (Real.pi / 4) true = Cell.mk 7 (-1) (1) true from by
    rw [show Cell.clamp_rotation (6 + 1) 8 = 7 from by decide]
    exact pnT7]
  rw [show Cell.precompute_neighbor (Cell.clamp_rotation (6 + 2) 8) (Real.pi / 4) true = Cell.mk 0 (-1) (0) true from by
    rw [show Cell.clamp_rotation (6 + 2) 8 = 0 from by decide]
    exact pnT0]
  decide

theorem rowEval7 : precomputeRow 8 1 [2, 0, 6, 4, 1, 7, 3, 5] (Real.pi / 4) 7 =
    [((0, -1), 6, false), ((1, -1), 7, false), ((1, 0), 0, false), ((1, 1), 5, true), ((0, 1), 6, true), ((-1, 1), 7, true), ((-1, 0), 0, true), ((-1, -1), 1, true)] := by
  unfold precomputeRow
  rw [show ((8:ℕ):ℤ) = 8 from by norm_num]
  rw [show (-(↑(1:ℕ)) : ℤ) = -1 from by norm_num,
    show ((↑(1:ℕ)) : ℤ) = 1 from by norm_num]
  rw [show (-(2 * (1:ℤ))) = -2 from by norm_num,
    show ((2 * (1:ℤ)) : ℤ) = 2 from by norm_num]
  rw [show intRange (-1) 1 = [-1, 0, 1] from by decide,
    show intRange (-2) 2 = [-2, -1, 0, 1, 2] from by decide]
  simp only [List.map_cons, List.map_nil]
  rw [show Cell.precompute_neighbor (Cell.clamp_rotation (7 + -1) 8) (Real.pi / 4) false = Cell.mk 6 (0) (-1) false from by
    rw [show Cell.clamp_rotation (7 + -1) 8 = 6 from by decide]
    exact pnF6]
  rw [show Cell.precompute_neighbor (Cell.clamp_rotation (7 + 0) 8) (Real.pi / 4) false = Cell.mk 7 (1) (-1) false from by
    rw [show Cell.clamp_rotation (7 + 0) 8 = 7 from by decide]
    exact pnF7]
  rw [show Cell.precompute_neighbor (Cell.clamp_rotation (7 + 1) 8) (Real.pi / 4) false = Cell.mk 0 (1) (0) false from by
    rw [show Cell.clamp_rotation (7 + 1) 8 = 0 from by decide]
    exact pnF0]
  rw [show Cell.precompute_neighbor (Cell.clamp_rotation (7 + -2) 8) (Real.pi / 4) true = Cell.mk 5 (1) (1) true from by
    rw [show Cell.clamp_rotation (7 + -2) 8 = 5 from by decide]
    exact pnT5]
  rw [show Cell.precompute_neighbor (Cell.clamp_rotation (7 + -1) 8) (Real.pi / 4) true = Cell.mk 6 (0) (1) true from by
    rw [show Cell.clamp_rotation (7 + -1) 8 = 6 from by decide]
    exact pnT6]
  rw [show Cell.precompute_neighbor (Cell.clamp_rotation (7 + 0) 8) (Real.pi / 4) true = Cell.mk 7 (-1) (1) true from by
    rw [show Cell.clamp_rotation (7 + 0) 8 = 7 from by decide]
    exact pnT7]
  rw [show Cell.precompute_neighbor (Cell.clamp_rotation (7 + 1) 8) (Real.pi / 4) true = Cell.mk 0 (-1) (0) true from by
    rw [show Cell.clamp_rotation (7 + 1) 8 = 0 from by decide]
    exact pnT0]
  rw [show Cell.precompute_neighbor (Cell.clamp_rotation (7 + 2) 8) (Real.pi / 4) true = Cell.mk 1 (-1) (-1) true from by
    rw [show Cell.clamp_rotation (7 + 2) 8 = 1 from by decide]
    exact pnT1]
  decide

theorem cache_eval : NeighborCache.precompute 8 1 =
    [
     [((1, -1), 7, false), ((1, 0), 0, false), ((1, 1), 1, false), ((0, 1), 6, true), ((-1, 1), 7, true), ((-1, 0), 0, true), ((-1, -1), 1, true), ((0, -1), 2, true)],
     [((1, 0), 0, false), ((1, 1), 1, false), ((0, 1), 2, false), ((-1, 1), 7, true), ((-1, 0), 0, true), ((-1, -1), 1, true), ((0, -1), 2, true), ((1, -1), 3, true)],
     [((1, 1), 1, false), ((0, 1), 2, false), ((-1, 1), 3, false), ((-1, 0), 0, true), ((-1, -1), 1, true), ((0, -1), 2, true), ((1, -1), 3, true), ((1, 0), 4, true)],
     [((0, 1), 2, false), ((-1, 1), 3, false), ((-1, 0), 4, false), ((-1, -1), 1, true), ((0, -1), 2, true), ((1, -1), 3, true), ((1, 0), 4, true), ((1, 1), 5, true)],
     [((-1, 1), 3, false), ((-1, 0), 4, false), ((-1, -1), 5, false), ((0, -1), 2, true), ((1, -1), 3, true), ((1, 0), 4, true), ((1, 1), 5, true), ((0, 1), 6, true)],
     [((-1, 0), 4, false), ((-1, -1), 5, false), ((0, -1), 6, false), ((1, -1), 3, true), ((1, 0), 4, true), ((1, 1), 5, true), ((0, 1), 6, true), ((-1, 1), 7, true)],
     [((-1, -1), 5, false), ((0, -1), 6, false), ((1, -1), 7, false), ((1, 0), 4, true), ((1, 1), 5, true), ((0, 1), 6, true), ((-1, 1), 7, true), ((-1, 0), 0, true)],
     [((0, -1), 6, false), ((1, -1), 7, false), ((1, 0), 0, false), ((1, 1), 5, true), ((0, 1), 6, true), ((-1, 1), 7, true), ((-1, 0), 0, true), ((-1, -1), 1, true)]] := by
  unfold NeighborCache.precompute
  rw [show (2 * Real.pi / ((8:ℕ):ℝ)) = Real.pi / 4 from by push_cast; ring]
  rw [cardinalValues8]
  rw [show List.range 8 = [0, 1, 2, 3, 4, 5, 6, 7] from rfl]
  simp only [List.map_cons, List.map_nil]
  rw [show ((0:ℕ):ℤ) = 0 from by norm_num,
    show ((1:ℕ):ℤ) = 1 from by norm_num,
    show ((2:ℕ):ℤ) = 2 from by norm_num,
    show ((3:ℕ):ℤ) = 3 from by norm_num,
    show ((4:ℕ):ℤ) = 4 from by norm_num,
    show ((5:ℕ):ℤ) = 5 from by norm_num,
    show ((6:ℕ):ℤ) = 6 from by norm_num,
    show ((7:ℕ):ℤ) = 7 from by norm_num]
  rw [rowEval0, rowEval1, rowEval2, rowEval3, rowEval4, rowEval5, rowEval6,
    rowEval7]


/-! ### Evaluation of the edge costs at `maxIncrements 8` -/

theorem rustRem_small (k : ℤ) (h1 : -7 ≤ k) (h2 : k ≤ 7) :
    rustRem ((k:ℝ) * (Real.pi / 4)) (2 * Real.pi) = (k:ℝ) * (Real.pi / 4) := by
  unfold rustRem
  have hxy : ((k:ℝ) * (Real.pi / 4)) / (2 * Real.pi) = (k:ℝ) / 8 := by
    rw [div_eq_div_iff (by positivity) (by norm_num)]
    ring
  rw [hxy]
  rcases le_or_lt 0 k with hk | hk
  · have hk' : (0:ℝ) ≤ (k:ℝ) := by exact_mod_cast hk
    have hk7 : (k:ℝ) ≤ 7 := by exact_mod_cast h2
    rw [if_pos (div_nonneg hk' (by norm_num))]
    rw [show ⌊(k:ℝ) / 8⌋ = 0 by
      rw [Int.floor_eq_iff]
      constructor
      · simpa using div_nonneg hk' (by norm_num)
      · push_cast
        rw [div_lt_iff (by norm_num : (0:ℝ) < 8)]
        linarith]
    push_cast
    ring
  · have hk' : (k:ℝ) < 0 := by exact_mod_cast hk
    have hk7 : (-7:ℝ) ≤ (k:ℝ) := by exact_mod_cast h1
    rw [if_neg (by
      rw [not_le]
      exact div_neg_of_neg_of_pos hk' (by norm_num))]
    rw [show ⌊-((k:ℝ) / 8)⌋ = 0 by
      rw [Int.floor_eq_iff]
      constructor
      · simp
        exact le_of_lt (div_neg_of_neg_of_pos hk' (by norm_num))
      · push_cast
        have : -((k:ℝ) / 8) < 1 := by
          rw [neg_div']
          rw [div_lt_iff₀ (by norm_num : (0:ℝ) < 8)]
          linarith
        linarith]
    push_cast
    ring

theorem angle_diff_pi4 (k : ℤ) (h1 : -7 ≤ k) (h2 : k ≤ 7) (θ1 θ2 : ℝ)
    (hdiff : θ2 - θ1 = (k:ℝ) * (Real.pi / 4)) :
    |angle_difference θ1 θ2| =
      ((min ((k % 8).toNat) (((-k) % 8).toNat)) : ℕ) * (Real.pi / 4) := by
  unfold angle_difference
  rw [hdiff, rustRem_small k h1 h2]
  interval_cases k
  · -- k = -7
    rw [if_neg (by nlinarith [Real.pi_pos])]
    rw [if_pos (by nlinarith [Real.pi_pos])]
    rw [abs_of_nonneg (by nlinarith [Real.pi_pos])]
    rw [show ((min (((-7 : ℤ) % 8).toNat) (((-(-7 : ℤ)) % 8).toNat) : ℕ) : ℝ) = 1 from by
      rw [show (min (((-7 : ℤ) % 8).toNat) (((-(-7 : ℤ)) % 8).toNat) : ℕ) = 1 from by decide]
      norm_num]
    push_cast
    ring
  · -- k = -6
    rw [if_neg (by nlinarith [Real.pi_pos])]
    rw [if_pos (by nlinarith [Real.pi_pos])]
    rw [abs_of_nonneg (by nlinarith [Real.pi_pos])]
    rw [show ((min (((-6 : ℤ) % 8).toNat) (((-(-6 : ℤ)) % 8).toNat) : ℕ) : ℝ) = 2 from by
      rw [show (min (((-6 : ℤ) % 8).toNat) (((-(-6 : ℤ)) % 8).toNat) : ℕ) = 2 from by decide]
      norm_num]
    push_cast
    ring
  · -- k = -5
    rw [if_neg (by nlinarith [Real.pi_pos])]
    rw [if_pos (by nlinarith [Real.pi_pos])]
    rw [abs_of_nonneg (by nlinarith [Real.pi_pos])]
    rw [show ((min (((-5 : ℤ) % 8).toNat) (((-(-5 : ℤ)) % 8).toNat) : ℕ) : ℝ) = 3 from by
      rw [show (min (((-5 : ℤ) % 8).toNat) (((-(-5 : ℤ)) % 8).toNat) : ℕ) = 3 from by decide]
      norm_num]
    push_cast
    ring
  · -- k = -4
    rw [if_neg (by nlinarith [Real.pi_pos])]
    rw [if_neg (by nlinarith [Real.pi_pos])]
    rw [abs_of_nonpos (by nlinarith [Real.pi_pos])]
    rw [show ((min (((-4 : ℤ) % 8).toNat) (((-(-4 : ℤ)) % 8).toNat) : ℕ) : ℝ) = 4 from by
      rw [show (min (((-4 : ℤ) % 8).toNat) (((-(-4 : ℤ)) % 8).toNat) : ℕ) = 4 from by decide]
      norm_num]
    push_cast
    ring
  · -- k = -3
    rw [if_neg (by nlinarith [Real.pi_pos])]
    rw [if_neg (by nlinarith [Real.pi_pos])]
    rw [abs_of_nonpos (by nlinarith [Real.pi_pos])]
    rw [show ((min (((-3 : ℤ) % 8).toNat) (((-(-3 : ℤ)) % 8).toNat) : ℕ) : ℝ) = 3 from by
      rw [show (min (((-3 : ℤ) % 8).toNat) (((-(-3 : ℤ)) % 8).toNat) : ℕ) = 3 from by decide]
      norm_num]
    push_cast
    ring
  · -- k = -2
    rw [if_neg (by nlinarith [Real.pi_pos])]
    rw [if_neg (by nlinarith [Real.pi_pos])]
    rw [abs_of_nonpos (by nlinarith [Real.pi_pos])]
    rw [show ((min (((-2 : ℤ) % 8).toNat) (((-(-2 : ℤ)) % 8).toNat) : ℕ) : ℝ) = 2 from by
      rw [show (min (((-2 : ℤ) % 8).toNat) (((-(-2 : ℤ)) % 8).toNat) : ℕ) = 2 from by decide]
      norm_num]
    push_cast
    ring
  · -- k = -1
    rw [if_neg (by nlinarith [Real.pi_pos])]
    rw [if_neg (by nlinarith [Real.pi_pos])]
    rw [abs_of_nonpos (by nlinarith [Real.pi_pos])]
    rw [show ((min (((-1 : ℤ) % 8).toNat) (((-(-1 : ℤ)) % 8).toNat) : ℕ) : ℝ) = 1 from by
      rw [show (min (((-1 : ℤ) % 8).toNat) (((-(-1 : ℤ)) % 8).toNat) : ℕ) = 1 from by decide]
      norm_num]
    push_cast
    ring
  · -- k = 0
    rw [if_neg (by nlinarith [Real.pi_pos])]
    rw [if_neg (by nlinarith [Real.pi_pos])]
    rw [abs_of_nonneg (by nlinarith [Real.pi_pos])]
    rw [show ((min (((0 : ℤ) % 8).toNat) (((-(0 : ℤ)) % 8).toNat) : ℕ) : ℝ) = 0 from by
      rw [show (min (((0 : ℤ) % 8).toNat) (((-(0 : ℤ)) % 8).toNat) : ℕ) = 0 from by decide]
      norm_num]
    push_cast
    ring
  · -- k = 1
    rw [if_neg (by nlinarith [Real.pi_pos])]
    rw [if_neg (by nlinarith [Real.pi_pos])]
    rw [abs_of_nonneg (by nlinarith [Real.pi_pos])]
    rw [show ((min (((1 : ℤ) % 8).toNat) (((-(1 : ℤ)) % 8).toNat) : ℕ) : ℝ) = 1 from by
      rw [show (min (((1 : ℤ) % 8).toNat) (((-(1 : ℤ)) % 8).toNat) : ℕ) = 1 from by decide]
      norm_num]
    push_cast
    ring
  · -- k = 2
    rw [if_neg (by nlinarith [Real.pi_pos])]
    rw [if_neg (by nlinarith [Real.pi_pos])]
    rw [abs_of_nonneg (by nlinarith [Real.pi_pos])]
    rw [show ((min (((2 : ℤ) % 8).toNat) (((-(2 : ℤ)) % 8).toNat) : ℕ) : ℝ) = 2 from by
      rw [show (min (((2 : ℤ) % 8).toNat) (((-(2 : ℤ)) % 8).toNat) : ℕ) = 2 from by decide]
      norm_num]
    push_cast
    ring
  · -- k = 3
    rw [if_neg (by nlinarith [Real.pi_pos])]
    rw [if_neg (by nlinarith [Real.pi_pos])]
    rw [abs_of_nonneg (by nlinarith [Real.pi_pos])]
    rw [show ((min (((3 : ℤ) % 8).toNat) (((-(3 : ℤ)) % 8).toNat) : ℕ) : ℝ) = 3 from by
      rw [show (min (((3 : ℤ) % 8).toNat) (((-(3 : ℤ)) % 8).toNat) : ℕ) = 3 from by decide]
      norm_num]
    push_cast
    ring
  · -- k = 4
    rw [if_neg (by nlinarith [Real.pi_pos])]
    rw [if_neg (by nlinarith [Real.pi_pos])]
    rw [abs_of_nonneg (by nlinarith [Real.pi_pos])]
    rw [show ((min (((4 : ℤ) % 8).toNat) (((-(4 : ℤ)) % 8).toNat) : ℕ) : ℝ) = 4 from by
      rw [show (min (((4 : ℤ) % 8).toNat) (((-(4 : ℤ)) % 8).toNat) : ℕ) = 4 from by decide]
      norm_num]
    push_cast
    ring
  · -- k = 5
    rw [if_pos (by nlinarith [Real.pi_pos])]
    rw [abs_of_nonpos (by nlinarith [Real.pi_pos])]
    rw [show ((min (((5 : ℤ) % 8).toNat) (((-(5 : ℤ)) % 8).toNat) : ℕ) : ℝ) = 3 from by
      rw [show (min (((5 : ℤ) % 8).toNat) (((-(5 : ℤ)) % 8).toNat) : ℕ) = 3 from by decide]
      norm_num]
    push_cast
    ring
  · -- k = 6
    rw [if_pos (by nlinarith [Real.pi_pos])]
    rw [abs_of_nonpos (by nlinarith [Real.pi_pos])]
    rw [show ((min (((6 : ℤ) % 8).toNat) (((-(6 : ℤ)) % 8).toNat) : ℕ) : ℝ) = 2 from by
      rw [show (min (((6 : ℤ) % 8).toNat) (((-(6 : ℤ)) % 8).toNat) : ℕ) = 2 from by decide]
      norm_num]
    push_cast
    ring
  · -- k = 7
    rw [if_pos (by nlinarith [Real.pi_pos])]
    rw [abs_of_nonpos (by nlinarith [Real.pi_pos])]
    rw [show ((min (((7 : ℤ) % 8).toNat) (((-(7 : ℤ)) % 8).toNat) : ℕ) : ℝ) = 1 from by
      rw [show (min (((7 : ℤ) % 8).toNat) (((-(7 : ℤ)) % 8).toNat) : ℕ) = 1 from by decide]
      norm_num]
    push_cast
    ring

theorem slf0 : (⌊speed_loss_fraction 0 * 1000⌋).toNat = 0 := by
  unfold speed_loss_fraction
  rw [if_pos rfl]
  norm_num

theorem slf1 : (⌊speed_loss_fraction (Real.pi / 4) * 1000⌋).toNat = 724 := by
  unfold speed_loss_fraction
  have hπ1 : (3.141592 : ℝ) < Real.pi := Real.pi_gt_d6
  have hπ2 : Real.pi < 3.141593 := Real.pi_lt_d6
  rw [if_neg (ne_of_gt (by positivity))]
  rw [show (0.75 * 9.81 * (1 / (Real.pi / 4)) : ℝ) = 29.43 / Real.pi by
    field_simp
    ring]
  have hs0 : (0:ℝ) ≤ Real.sqrt (29.43 / Real.pi) := Real.sqrt_nonneg _
  have hs2 : (Real.sqrt (29.43 / Real.pi)) ^ 2 = 29.43 / Real.pi :=
    Real.sq_sqrt (by positivity)
  have hsπ : (Real.sqrt (29.43 / Real.pi)) ^ 2 * Real.pi = 29.43 := by
    rw [hs2]
    field_simp
  have hslo : (3.056 : ℝ) < Real.sqrt (29.43 / Real.pi) := by
    nlinarith [hsπ, hs0, Real.pi_pos]
  have hshi : Real.sqrt (29.43 / Real.pi) < 3.066 := by
    nlinarith [hsπ, hs0, Real.pi_pos]
  rw [show (40 * 0.27778 : ℝ) = 11.1112 by norm_num]
  simp only []
  rw [if_neg (by
    rw [not_lt]
    nlinarith)]
  rw [max_eq_left (by
    apply div_nonneg _ (by norm_num)
    linarith)]
  rw [min_eq_left (by
    rw [div_le_one (by norm_num)]
    linarith)]
  rw [show ⌊((11.1112 - Real.sqrt (29.43 / Real.pi)) / 11.1112 * 1000 : ℝ)⌋ =
      724 from by
    rw [Int.floor_eq_iff]
    push_cast
    rw [div_mul_eq_mul_div, le_div_iff (by norm_num : (0:ℝ) < 11.1112),
      div_lt_iff (by norm_num : (0:ℝ) < 11.1112)]
    constructor
    · nlinarith
    · nlinarith]
  rfl

theorem slf2 : (⌊speed_loss_fraction (Real.pi / 2) * 1000⌋).toNat = 805 := by
  unfold speed_loss_fraction
  have hπ1 : (3.141592 : ℝ) < Real.pi := Real.pi_gt_d6
  have hπ2 : Real.pi < 3.141593 := Real.pi_lt_d6
  rw [if_neg (ne_of_gt (by positivity))]
  rw [show (0.75 * 9.81 * (1 / (Real.pi / 2)) : ℝ) = 14.715 / Real.pi by
    field_simp
    ring]
  have hs0 : (0:ℝ) ≤ Real.sqrt (14.715 / Real.pi) := Real.sqrt_nonneg _
  have hs2 : (Real.sqrt (14.715 / Real.pi)) ^ 2 = 14.715 / Real.pi :=
    Real.sq_sqrt (by positivity)
  have hsπ : (Real.sqrt (14.715 / Real.pi)) ^ 2 * Real.pi = 14.715 := by
    rw [hs2]
    field_simp
  have hslo : (2.156 : ℝ) < Real.sqrt (14.715 / Real.pi) := by
    nlinarith [hsπ, hs0, Real.pi_pos]
  have hshi : Real.sqrt (14.715 / Real.pi) < 2.166 := by
    nlinarith [hsπ, hs0, Real.pi_pos]
  rw [show (40 * 0.27778 : ℝ) = 11.1112 by norm_num]
  simp only []
  rw [if_neg (by
    rw [not_lt]
    nlinarith)]
  rw [max_eq_left (by
    apply div_nonneg _ (by norm_num)
    linarith)]
  rw [min_eq_left (by
    rw [div_le_one (by norm_num)]
    linarith)]
  rw [show ⌊((11.1112 - Real.sqrt (14.715 / Real.pi)) / 11.1112 * 1000 : ℝ)⌋ =
      805 from by
    rw [Int.floor_eq_iff]
    push_cast
    rw [div_mul_eq_mul_div, le_div_iff (by norm_num : (0:ℝ) < 11.1112),
      div_lt_iff (by norm_num : (0:ℝ) < 11.1112)]
    constructor
    · nlinarith
    · nlinarith]
  rfl

theorem cost_decomp (self fr : Cell) (ac : ℕ)
    (hangle : (⌊speed_loss_fraction
        |angle_difference ((self.rotation : ℝ) * 2 * Real.pi / ((8:ℕ):ℝ))
          ((fr.rotation : ℝ) * 2 * Real.pi / ((8:ℕ):ℝ))| * 1000⌋).toNat = ac) :
    Cell.cost self (some fr) 8 =
      (ac + 1000 * ((self.x - fr.x) ^ 2 + (self.y - fr.y) ^ 2).toNat) *
        (if self.reverse then 10 else 1) := by
  unfold Cell.cost
  simp only []
  rw [hangle]
  rw [show ((((self.x - fr.x : ℤ) : ℝ)) ^ 2 + (((self.y - fr.y : ℤ) : ℝ)) ^ 2) *
      1000 = ((((self.x - fr.x) ^ 2 + (self.y - fr.y) ^ 2) * 1000 : ℤ) : ℝ) by
    push_cast
    ring, Int.floor_intCast]
  have hnn : (0:ℤ) ≤ (self.x - fr.x) ^ 2 + (self.y - fr.y) ^ 2 := by positivity
  obtain ⟨n, hn⟩ := Int.eq_ofNat_of_zero_le hnn
  rw [hn]
  rw [show ((n : ℤ) * 1000) = ((n * 1000 : ℕ) : ℤ) by push_cast; ring,
    Int.toNat_natCast, Int.toNat_natCast]
  ring

theorem ac_eval0 (nr r : ℤ) (h1 : -7 ≤ r - nr) (h2 : r - nr ≤ 7)
    (hd : min (((r - nr) % 8).toNat) (((-(r - nr)) % 8).toNat) = 0) :
    (⌊speed_loss_fraction
      |angle_difference ((nr : ℝ) * 2 * Real.pi / ((8:ℕ):ℝ))
        ((r : ℝ) * 2 * Real.pi / ((8:ℕ):ℝ))| * 1000⌋).toNat = 0 := by
  rw [angle_diff_pi4 (r - nr) h1 h2 _ _ (by push_cast; ring), hd]
  rw [Nat.cast_zero, zero_mul]
  exact slf0

theorem ac_eval1 (nr r : ℤ) (h1 : -7 ≤ r - nr) (h2 : r - nr ≤ 7)
    (hd : min (((r - nr) % 8).toNat) (((-(r - nr)) % 8).toNat) = 1) :
    (⌊speed_loss_fraction
      |angle_difference ((nr : ℝ) * 2 * Real.pi / ((8:ℕ):ℝ))
        ((r : ℝ) * 2 * Real.pi / ((8:ℕ):ℝ))| * 1000⌋).toNat = 724 := by
  rw [angle_diff_pi4 (r - nr) h1 h2 _ _ (by push_cast; ring), hd]
  rw [Nat.cast_one, one_mul]
  exact slf1

theorem ac_eval2 (nr r : ℤ) (h1 : -7 ≤ r - nr) (h2 : r - nr ≤ 7)
    (hd : min (((r - nr) % 8).toNat) (((-(r - nr)) % 8).toNat) = 2) :
    (⌊speed_loss_fraction
      |angle_difference ((nr : ℝ) * 2 * Real.pi / ((8:ℕ):ℝ))
        ((r : ℝ) * 2 * Real.pi / ((8:ℕ):ℝ))| * 1000⌋).toNat = 805 := by
  rw [angle_diff_pi4 (r - nr) h1 h2 _ _ (by push_cast; ring), hd]
  rw [show (((2:ℕ):ℝ)) * (Real.pi / 4) = Real.pi / 2 by push_cast; ring]
  exact slf2


/-! ### The executable neighbor/heuristic/goal functions match the model -/

theorem step_congr {α β : Type} (em : α → β) {C C2 D : Prop}
    [Decidable C] [Decidable C2] [Decidable D]
    (hCD : C ↔ D) (hC2 : C → C2) {w : α} {v : β}
    (hv : D → v = em w) {S : List α} {R : List β}
    (hR : R = S.map em) :
    (if D then v :: R else R) =
      (if C then (if C2 then w :: S else S) else S).map em := by
  by_cases h : D
  · rw [if_pos h, if_pos (hCD.mpr h), if_pos (hC2 (hCD.mpr h)), List.map_cons,
      hv h, hR]
  · rw [if_neg h, if_neg (fun hc => h (hCD.mp hc)), hR]


set_option maxHeartbeats 3200000 in
theorem hneigh (c : Cell) (hc : CellOK c) :
    neighborsN (encCell c) =
      (pathfindNeighbors grid67 (NeighborCache.precompute 8 1)
        (Agent.footprints 0.01 0.01 8) 8 c).map (fun p => (encCell p.1, p.2)) := by
  obtain ⟨rot, x, y, rv⟩ := c
  obtain ⟨hx0, hx6, hy0, hy7, hr0, hr8⟩ := hc
  unfold neighborsN pathfindNeighbors Cell.neighbors
  rw [cache_eval]
  dsimp only at hx0 hx6 hy0 hy7 hr0 hr8 ⊢
  interval_cases rot
  · rw [show NeighborCache.get
        [[((1, -1), 7, false), ((1, 0), 0, false), ((1, 1), 1, false), ((0, 1), 6, true), ((-1, 1), 7, true), ((-1, 0), 0, true), ((-1, -1), 1, true), ((0, -1), 2, true)],
         [((1, 0), 0, false), ((1, 1), 1, false), ((0, 1), 2, false), ((-1, 1), 7, true), ((-1, 0), 0, true), ((-1, -1), 1, true), ((0, -1), 2, true), ((1, -1), 3, true)],
         [((1, 1), 1, false), ((0, 1), 2, false), ((-1, 1), 3, false), ((-1, 0), 0, true), ((-1, -1), 1, true), ((0, -1), 2, true), ((1, -1), 3, true), ((1, 0), 4, true)],
         [((0, 1), 2, false), ((-1, 1), 3, false), ((-1, 0), 4, false), ((-1, -1), 1, true), ((0, -1), 2, true), ((1, -1), 3, true), ((1, 0), 4, true), ((1, 1), 5, true)],
         [((-1, 1), 3, false), ((-1, 0), 4, false), ((-1, -1), 5, false), ((0, -1), 2, true), ((1, -1), 3, true), ((1, 0), 4, true), ((1, 1), 5, true), ((0, 1), 6, true)],
         [((-1, 0), 4, false), ((-1, -1), 5, false), ((0, -1), 6, false), ((1, -1), 3, true), ((1, 0), 4, true), ((1, 1), 5, true), ((0, 1), 6, true), ((-1, 1), 7, true)],
         [((-1, -1), 5, false), ((0, -1), 6, false), ((1, -1), 7, false), ((1, 0), 4, true), ((1, 1), 5, true), ((0, 1), 6, true), ((-1, 1), 7, true), ((-1, 0), 0, true)],
         [((0, -1), 6, false), ((1, -1), 7, false), ((1, 0), 0, false), ((1, 1), 5, true), ((0, 1), 6, true), ((-1, 1), 7, true), ((-1, 0), 0, true), ((-1, -1), 1, true)]]
        0 = some [((1, -1), 7, false), ((1, 0), 0, false), ((1, 1), 1, false), ((0, 1), 6, true), ((-1, 1), 7, true), ((-1, 0), 0, true), ((-1, -1), 1, true), ((0, -1), 2, true)] from by decide]
    dsimp only
    simp only [List.map_cons, List.map_nil]
    rw [show encCell { rotation := 0, x := x, y := y, reverse := rv } % 8 = 0
        from by simp only [encCell]; omega]
    rw [show encCell { rotation := 0, x := x, y := y, reverse := rv } / 8 % 8 =
        x.toNat from by simp only [encCell]; omega,
      show encCell { rotation := 0, x := x, y := y, reverse := rv } / 8 / 8 =
        y.toNat from by simp only [encCell]; omega]
    simp only [rowN, List.foldr_cons, List.foldr_nil]
    dsimp only
    refine step_congr _ ?_ ?_ ?_ ?_
    · dsimp only
      rw [grid67_blocked]
      omega
    · intro hC
      dsimp only
      rw [grid67_blocked] at hC
      rw [fps001_eval 7 (by norm_num) (by norm_num)]
      simp only [List.all_cons, List.all_nil, Bool.and_true, decide_eq_true_eq,
        zero_add]
      rw [grid67_blocked]
      omega
    · intro hD
      dsimp only
      rw [Prod.mk.injEq]
      constructor
      · simp only [encCell]
        omega
      · rw [cost_decomp ⟨7, x + 1, y + -1, false⟩ ⟨0, x, y, rv⟩ 724
          (by exact ac_eval1 7 0 (by norm_num) (by norm_num) (by decide))]
        rw [show x + 1 - x = (1:ℤ) from by ring,
          show y + -1 - y = (-1:ℤ) from by ring]
        dsimp only
        decide
    refine step_congr _ ?_ ?_ ?_ ?_
    · dsimp only
      rw [grid67_blocked]
      omega
    · intro hC
      dsimp only
      rw [grid67_blocked] at hC
      rw [fps001_eval 0 (by norm_num) (by norm_num)]
      simp only [List.all_cons, List.all_nil, Bool.and_true, decide_eq_true_eq,
        zero_add]
      rw [grid67_blocked]
      omega
    · intro hD
      dsimp only
      rw [Prod.mk.injEq]
      constructor
      · simp only [encCell]
        omega
      · rw [cost_decomp ⟨0, x + 1, y + 0, false⟩ ⟨0, x, y, rv⟩ 0
          (by exact ac_eval0 0 0 (by norm_num) (by norm_num) (by decide))]
        rw [show x + 1 - x = (1:ℤ) from by ring,
          show y + 0 - y = (0:ℤ) from by ring]
        dsimp only
        decide
    refine step_congr _ ?_ ?_ ?_ ?_
    · dsimp only
      rw [grid67_blocked]
      omega
    · intro hC
      dsimp only
      rw [grid67_blocked] at hC
      rw [fps001_eval 1 (by norm_num) (by norm_num)]
      simp only [List.all_cons, List.all_nil, Bool.and_true, decide_eq_true_eq,
        zero_add]
      rw [grid67_blocked]
      omega
    · intro hD
      dsimp only
      rw [Prod.mk.injEq]
      constructor
      · simp only [encCell]
        omega
      · rw [cost_decomp ⟨1, x + 1, y + 1, false⟩ ⟨0, x, y, rv⟩ 724
          (by exact ac_eval1 1 0 (by norm_num) (by norm_num) (by decide))]
        rw [show x + 1 - x = (1:ℤ) from by ring,
          show y + 1 - y = (1:ℤ) from by ring]
        dsimp only
        decide
    refine step_congr _ ?_ ?_ ?_ ?_
    · dsimp only
      rw [grid67_blocked]
      omega
    · intro hC
      dsimp only
      rw [grid67_blocked] at hC
      rw [fps001_eval 6 (by norm_num) (by norm_num)]
      simp only [List.all_cons, List.all_nil, Bool.and_true, decide_eq_true_eq,
        zero_add]
      rw [grid67_blocked]
      omega
    · intro hD
      dsimp only
      rw [Prod.mk.injEq]
      constructor
      · simp only [encCell]
        omega
      · rw [cost_decomp ⟨6, x + 0, y + 1, true⟩ ⟨0, x, y, rv⟩ 805
          (by exact ac_eval2 6 0 (by norm_num) (by norm_num) (by decide))]
        rw [show x + 0 - x = (0:ℤ) from by ring,
          show y + 1 - y = (1:ℤ) from by ring]
        dsimp only
        decide
    refine step_congr _ ?_ ?_ ?_ ?_
    · dsimp only
      rw [grid67_blocked]
      omega
    · intro hC
      dsimp only
      rw [grid67_blocked] at hC
      rw [fps001_eval 7 (by norm_num) (by norm_num)]
      simp only [List.all_cons, List.all_nil, Bool.and_true, decide_eq_true_eq,
        zero_add]
      rw [grid67_blocked]
      omega
    · intro hD
      dsimp only
      rw [Prod.mk.injEq]
      constructor
      · simp only [encCell]
        omega
      · rw [cost_decomp ⟨7, x + -1, y + 1, true⟩ ⟨0, x, y, rv⟩ 724
          (by exact ac_eval1 7 0 (by norm_num) (by norm_num) (by decide))]
        rw [show x + -1 - x = (-1:ℤ) from by ring,
          show y + 1 - y = (1:ℤ) from by ring]
        dsimp only
        decide
    refine step_congr _ ?_ ?_ ?_ ?_
    · dsimp only
      rw [grid67_blocked]
      omega
    · intro hC
      dsimp only
      rw [grid67_blocked] at hC
      rw [fps001_eval 0 (by norm_num) (by norm_num)]
      simp only [List.all_cons, List.all_nil, Bool.and_true, decide_eq_true_eq,
        zero_add]
      rw [grid67_blocked]
      omega
    · intro hD
      dsimp only
      rw [Prod.mk.injEq]
      constructor
      · simp only [encCell]
        omega
      · rw [cost_decomp ⟨0, x + -1, y + 0, true⟩ ⟨0, x, y, rv⟩ 0
          (by exact ac_eval0 0 0 (by norm_num) (by norm_num) (by decide))]
        rw [show x + -1 - x = (-1:ℤ) from by ring,
          show y + 0 - y = (0:ℤ) from by ring]
        dsimp only
        decide
    refine step_congr _ ?_ ?_ ?_ ?_
    · dsimp only
      rw [grid67_blocked]
      omega
    · intro hC
      dsimp only
      rw [grid67_blocked] at hC
      rw [fps001_eval 1 (by norm_num) (by norm_num)]
      simp only [List.all_cons, List.all_nil, Bool.and_true, decide_eq_true_eq,
        zero_add]
      rw [grid67_blocked]
      omega
    · intro hD
      dsimp only
      rw [Prod.mk.injEq]
      constructor
      · simp only [encCell]
        omega
      · rw [cost_decomp ⟨1, x + -1, y + -1, true⟩ ⟨0, x, y, rv⟩ 724
          (by exact ac_eval1 1 0 (by norm_num) (by norm_num) (by decide))]
        rw [show x + -1 - x = (-1:ℤ) from by ring,
          show y + -1 - y = (-1:ℤ) from by ring]
        dsimp only
        decide
    refine step_congr _ ?_ ?_ ?_ ?_
    · dsimp only
      rw [grid67_blocked]
      omega
    · intro hC
      dsimp only
      rw [grid67_blocked] at hC
      rw [fps001_eval 2 (by norm_num) (by norm_num)]
      simp only [List.all_cons, List.all_nil, Bool.and_true, decide_eq_true_eq,
        zero_add]
      rw [grid67_blocked]
      omega
    · intro hD
      dsimp only
      rw [Prod.mk.injEq]
      constructor
      · simp only [encCell]
        omega
      · rw [cost_decomp ⟨2, x + 0, y + -1, true⟩ ⟨0, x, y, rv⟩ 805
          (by exact ac_eval2 2 0 (by norm_num) (by norm_num) (by decide))]
        rw [show x + 0 - x = (0:ℤ) from by ring,
          show y + -1 - y = (-1:ℤ) from by ring]
        dsimp only
        decide
    · rfl
  · rw [show NeighborCache.get
        [[((1, -1), 7, false), ((1, 0), 0, false), ((1, 1), 1, false), ((0, 1), 6, true), ((-1, 1), 7, true), ((-1, 0), 0, true), ((-1, -1), 1, true), ((0, -1), 2, true)],
         [((1, 0), 0, false), ((1, 1), 1, false), ((0, 1), 2, false), ((-1, 1), 7, true), ((-1, 0), 0, true), ((-1, -1), 1, true), ((0, -1), 2, true), ((1, -1), 3, true)],
         [((1, 1), 1, false), ((0, 1), 2, false), ((-1, 1), 3, false), ((-1, 0), 0, true), ((-1, -1), 1, true), ((0, -1), 2, true), ((1, -1), 3, true), ((1, 0), 4, true)],
         [((0, 1), 2, false), ((-1, 1), 3, false), ((-1, 0), 4, false), ((-1, -1), 1, true), ((0, -1), 2, true), ((1, -1), 3, true), ((1, 0), 4, true), ((1, 1), 5, true)],
         [((-1, 1), 3, false), ((-1, 0), 4, false), ((-1, -1), 5, false), ((0, -1), 2, true), ((1, -1), 3, true), ((1, 0), 4, true), ((1, 1), 5, true), ((0, 1), 6, true)],
         [((-1, 0), 4, false), ((-1, -1), 5, false), ((0, -1), 6, false), ((1, -1), 3, true), ((1, 0), 4, true), ((1, 1), 5, true), ((0, 1), 6, true), ((-1, 1), 7, true)],
         [((-1, -1), 5, false), ((0, -1), 6, false), ((1, -1), 7, false), ((1, 0), 4, true), ((1, 1), 5, true), ((0, 1), 6, true), ((-1, 1), 7, true), ((-1, 0), 0, true)],
         [((0, -1), 6, false), ((1, -1), 7, false), ((1, 0), 0, false), ((1, 1), 5, true), ((0, 1), 6, true), ((-1, 1), 7, true), ((-1, 0), 0, true), ((-1, -1), 1, true)]]
        1 = some [((1, 0), 0, false), ((1, 1), 1, false), ((0, 1), 2, false), ((-1, 1), 7, true), ((-1, 0), 0, true), ((-1, -1), 1, true), ((0, -1), 2, true), ((1, -1), 3, true)] from by decide]
    dsimp only
    simp only [List.map_cons, List.map_nil]
    rw [show encCell { rotation := 1, x := x, y := y, reverse := rv } % 8 = 1
        from by simp only [encCell]; omega]
    rw [show encCell { rotation := 1, x := x, y := y, reverse := rv } / 8 % 8 =
        x.toNat from by simp only [encCell]; omega,
      show encCell { rotation := 1, x := x, y := y, reverse := rv } / 8 / 8 =
        y.toNat from by simp only [encCell]; omega]
    simp only [rowN, List.foldr_cons, List.foldr_nil]
    dsimp only
    refine step_congr _ ?_ ?_ ?_ ?_
    · dsimp only
      rw [grid67_blocked]
      omega
    · intro hC
      dsimp only
      rw [grid67_blocked] at hC
      rw [fps001_eval 0 (by norm_num) (by norm_num)]
      simp only [List.all_cons, List.all_nil, Bool.and_true, decide_eq_true_eq,
        zero_add]
      rw [grid67_blocked]
      omega
    · intro hD
      dsimp only
      rw [Prod.mk.injEq]
      constructor
      · simp only [encCell]
        omega
      · rw [cost_decomp ⟨0, x + 1, y + 0, false⟩ ⟨1, x, y, rv⟩ 724
          (by exact ac_eval1 0 1 (by norm_num) (by norm_num) (by decide))]
        rw [show x + 1 - x = (1:ℤ) from by ring,
          show y + 0 - y = (0:ℤ) from by ring]
        dsimp only
        decide
    refine step_congr _ ?_ ?_ ?_ ?_
    · dsimp only
      rw [grid67_blocked]
      omega
    · intro hC
      dsimp only
      rw [grid67_blocked] at hC
      rw [fps001_eval 1 (by norm_num) (by norm_num)]
      simp only [List.all_cons, List.all_nil, Bool.and_true, decide_eq_true_eq,
        zero_add]
      rw [grid67_blocked]
      omega
    · intro hD
      dsimp only
      rw [Prod.mk.injEq]
      constructor
      · simp only [encCell]
        omega
      · rw [cost_decomp ⟨1, x + 1, y + 1, false⟩ ⟨1, x, y, rv⟩ 0
          (by exact ac_eval0 1 1 (by norm_num) (by norm_num) (by decide))]
        rw [show x + 1 - x = (1:ℤ) from by ring,
          show y + 1 - y = (1:ℤ) from by ring]
        dsimp only
        decide
    refine step_congr _ ?_ ?_ ?_ ?_
    · dsimp only
      rw [grid67_blocked]
      omega
    · intro hC
      dsimp only
      rw [grid67_blocked] at hC
      rw [fps001_eval 2 (by norm_num) (by norm_num)]
      simp only [List.all_cons, List.all_nil, Bool.and_true, decide_eq_true_eq,
        zero_add]
      rw [grid67_blocked]
      omega
    · intro hD
      dsimp only
      rw [Prod.mk.injEq]
      constructor
      · simp only [encCell]
        omega
      · rw [cost_decomp ⟨2, x + 0, y + 1, false⟩ ⟨1, x, y, rv⟩ 724
          (by exact ac_eval1 2 1 (by norm_num) (by norm_num) (by decide))]
        rw [show x + 0 - x = (0:ℤ) from by ring,
          show y + 1 - y = (1:ℤ) from by ring]
        dsimp only
        decide
    refine step_congr _ ?_ ?_ ?_ ?_
    · dsimp only
      rw [grid67_blocked]
      omega
    · intro hC
      dsimp only
      rw [grid67_blocked] at hC
      rw [fps001_eval 7 (by norm_num) (by norm_num)]
      simp only [List.all_cons, List.all_nil, Bool.and_true, decide_eq_true_eq,
        zero_add]
      rw [grid67_blocked]
      omega
    · intro hD
      dsimp only
      rw [Prod.mk.injEq]
      constructor
      · simp only [encCell]
        omega
      · rw [cost_decomp ⟨7, x + -1, y + 1, true⟩ ⟨1, x, y, rv⟩ 805
          (by exact ac_eval2 7 1 (by norm_num) (by norm_num) (by decide))]
        rw [show x + -1 - x = (-1:ℤ) from by ring,
          show y + 1 - y = (1:ℤ) from by ring]
        dsimp only
        decide
    refine step_congr _ ?_ ?_ ?_ ?_
    · dsimp only
      rw [grid67_blocked]
      omega
    · intro hC
      dsimp only
      rw [grid67_blocked] at hC
      rw [fps001_eval 0 (by norm_num) (by norm_num)]
      simp only [List.all_cons, List.all_nil, Bool.and_true, decide_eq_true_eq,
        zero_add]
      rw [grid67_blocked]
      omega
    · intro hD
      dsimp only
      rw [Prod.mk.injEq]
      constructor
      · simp only [encCell]
        omega
      · rw [cost_decomp ⟨0, x + -1, y + 0, true⟩ ⟨1, x, y, rv⟩ 724
          (by exact ac_eval1 0 1 (by norm_num) (by norm_num) (by decide))]
        rw [show x + -1 - x = (-1:ℤ) from by ring,
          show y + 0 - y = (0:ℤ) from by ring]
        dsimp only
        decide
    refine step_congr _ ?_ ?_ ?_ ?_
    · dsimp only
      rw [grid67_blocked]
      omega
    · intro hC
      dsimp only
      rw [grid67_blocked] at hC
      rw [fps001_eval 1 (by norm_num) (by norm_num)]
      simp only [List.all_cons, List.all_nil, Bool.and_true, decide_eq_true_eq,
        zero_add]
      rw [grid67_blocked]
      omega
    · intro hD
      dsimp only
      rw [Prod.mk.injEq]
      constructor
      · simp only [encCell]
        omega
      · rw [cost_decomp ⟨1, x + -1, y + -1, true⟩ ⟨1, x, y, rv⟩ 0
          (by exact ac_eval0 1 1 (by norm_num) (by norm_num) (by decide))]
        rw [show x + -1 - x = (-1:ℤ) from by ring,
          show y + -1 - y = (-1:ℤ) from by ring]
        dsimp only
        decide
    refine step_congr _ ?_ ?_ ?_ ?_
    · dsimp only
      rw [grid67_blocked]
      omega
    · intro hC
      dsimp only
      rw [grid67_blocked] at hC
      rw [fps001_eval 2 (by norm_num) (by norm_num)]
      simp only [List.all_cons, List.all_nil, Bool.and_true, decide_eq_true_eq,
        zero_add]
      rw [grid67_blocked]
      omega
    · intro hD
      dsimp only
      rw [Prod.mk.injEq]
      constructor
      · simp only [encCell]
        omega
      · rw [cost_decomp ⟨2, x + 0, y + -1, true⟩ ⟨1, x, y, rv⟩ 724
          (by exact ac_eval1 2 1 (by norm_num) (by norm_num) (by decide))]
        rw [show x + 0 - x = (0:ℤ) from by ring,
          show y + -1 - y = (-1:ℤ) from by ring]
        dsimp only
        decide
    refine step_congr _ ?_ ?_ ?_ ?_
    · dsimp only
      rw [grid67_blocked]
      omega
    · intro hC
      dsimp only
      rw [grid67_blocked] at hC
      rw [fps001_eval 3 (by norm_num) (by norm_num)]
      simp only [List.all_cons, List.all_nil, Bool.and_true, decide_eq_true_eq,
        zero_add]
      rw [grid67_blocked]
      omega
    · intro hD
      dsimp only
      rw [Prod.mk.injEq]
      constructor
      · simp only [encCell]
        omega
      · rw [cost_decomp ⟨3, x + 1, y + -1, true⟩ ⟨1, x, y, rv⟩ 805
          (by exact ac_eval2 3 1 (by norm_num) (by norm_num) (by decide))]
        rw [show x + 1 - x = (1:ℤ) from by ring,
          show y + -1 - y = (-1:ℤ) from by ring]
        dsimp only
        decide
    · rfl
  · rw [show NeighborCache.get
        [[((1, -1), 7, false), ((1, 0), 0, false), ((1, 1), 1, false), ((0, 1), 6, true), ((-1, 1), 7, true), ((-1, 0), 0, true), ((-1, -1), 1, true), ((0, -1), 2, true)],
         [((1, 0), 0, false), ((1, 1), 1, false), ((0, 1), 2, false), ((-1, 1), 7, true), ((-1, 0), 0, true), ((-1, -1), 1, true), ((0, -1), 2, true), ((1, -1), 3, true)],
         [((1, 1), 1, false), ((0, 1), 2, false), ((-1, 1), 3, false), ((-1, 0), 0, true), ((-1, -1), 1, true), ((0, -1), 2, true), ((1, -1), 3, true), ((1, 0), 4, true)],
         [((0, 1), 2, false), ((-1, 1), 3, false), ((-1, 0), 4, false), ((-1, -1), 1, true), ((0, -1), 2, true), ((1, -1), 3, true), ((1, 0), 4, true), ((1, 1), 5, true)],
         [((-1, 1), 3, false), ((-1, 0), 4, false), ((-1, -1), 5, false), ((0, -1), 2, true), ((1, -1), 3, true), ((1, 0), 4, true), ((1, 1), 5, true), ((0, 1), 6, true)],
         [((-1, 0), 4, false), ((-1, -1), 5, false), ((0, -1), 6, false), ((1, -1), 3, true), ((1, 0), 4, true), ((1, 1), 5, true), ((0, 1), 6, true), ((-1, 1), 7, true)],
         [((-1, -1), 5, false), ((0, -1), 6, false), ((1, -1), 7, false), ((1, 0), 4, true), ((1, 1), 5, true), ((0, 1), 6, true), ((-1, 1), 7, true), ((-1, 0), 0, true)],
         [((0, -1), 6, false), ((1, -1), 7, false), ((1, 0), 0, false), ((1, 1), 5, true), ((0, 1), 6, true), ((-1, 1), 7, true), ((-1, 0), 0, true), ((-1, -1), 1, true)]]
        2 = some [((1, 1), 1, false), ((0, 1), 2, false), ((-1, 1), 3, false), ((-1, 0), 0, true), ((-1, -1), 1, true), ((0, -1), 2, true), ((1, -1), 3, true), ((1, 0), 4, true)] from by decide]
    dsimp only
    simp only [List.map_cons, List.map_nil]
    rw [show encCell { rotation := 2, x := x, y := y, reverse := rv } % 8 = 2
        from by simp only [encCell]; omega]
    rw [show encCell { rotation := 2, x := x, y := y, reverse := rv } / 8 % 8 =
        x.toNat from by simp only [encCell]; omega,
      show encCell { rotation := 2, x := x, y := y, reverse := rv } / 8 / 8 =
        y.toNat from by simp only [encCell]; omega]
    simp only [rowN, List.foldr_cons, List.foldr_nil]
    dsimp only
    refine step_congr _ ?_ ?_ ?_ ?_
    · dsimp only
      rw [grid67_blocked]
      omega
    · intro hC
      dsimp only
      rw [grid67_blocked] at hC
      rw [fps001_eval 1 (by norm_num) (by norm_num)]
      simp only [List.all_cons, List.all_nil, Bool.and_true, decide_eq_true_eq,
        zero_add]
      rw [grid67_blocked]
      omega
    · intro hD
      dsimp only
      rw [Prod.mk.injEq]
      constructor
      · simp only [encCell]
        omega
      · rw [cost_decomp ⟨1, x + 1, y + 1, false⟩ ⟨2, x, y, rv⟩ 724
          (by exact ac_eval1 1 2 (by norm_num) (by norm_num) (by decide))]
        rw [show x + 1 - x = (1:ℤ) from by ring,
          show y + 1 - y = (1:ℤ) from by ring]
        dsimp only
        decide
    refine step_congr _ ?_ ?_ ?_ ?_
    · dsimp only
      rw [grid67_blocked]
      omega
    · intro hC
      dsimp only
      rw [grid67_blocked] at hC
      rw [fps001_eval 2 (by norm_num) (by norm_num)]
      simp only [List.all_cons, List.all_nil, Bool.and_true, decide_eq_true_eq,
        zero_add]
      rw [grid67_blocked]
      omega
    · intro hD
      dsimp only
      rw [Prod.mk.injEq]
      constructor
      · simp only [encCell]
        omega
      · rw [cost_decomp ⟨2, x + 0, y + 1, false⟩ ⟨2, x, y, rv⟩ 0
          (by exact ac_eval0 2 2 (by norm_num) (by norm_num) (by decide))]
        rw [show x + 0 - x = (0:ℤ) from by ring,
          show y + 1 - y = (1:ℤ) from by ring]
        dsimp only
        decide
    refine step_congr _ ?_ ?_ ?_ ?_
    · dsimp only
      rw [grid67_blocked]
      omega
    · intro hC
      dsimp only
      rw [grid67_blocked] at hC
      rw [fps001_eval 3 (by norm_num) (by norm_num)]
      simp only [List.all_cons, List.all_nil, Bool.and_true, decide_eq_true_eq,
        zero_add]
      rw [grid67_blocked]
      omega
    · intro hD
      dsimp only
      rw [Prod.mk.injEq]
      constructor
      · simp only [encCell]
        omega
      · rw [cost_decomp ⟨3, x + -1, y + 1, false⟩ ⟨2, x, y, rv⟩ 724
          (by exact ac_eval1 3 2 (by norm_num) (by norm_num) (by decide))]
        rw [show x + -1 - x = (-1:ℤ) from by ring,
          show y + 1 - y = (1:ℤ) from by ring]
        dsimp only
        decide
    refine step_congr _ ?_ ?_ ?_ ?_
    · dsimp only
      rw [grid67_blocked]
      omega
    · intro hC
      dsimp only
      rw [grid67_blocked] at hC
      rw [fps001_eval 0 (by norm_num) (by norm_num)]
      simp only [List.all_cons, List.all_nil, Bool.and_true, decide_eq_true_eq,
        zero_add]
      rw [grid67_blocked]
      omega
    · intro hD
      dsimp only
      rw [Prod.mk.injEq]
      constructor
      · simp only [encCell]
        omega
      · rw [cost_decomp ⟨0, x + -1, y + 0, true⟩ ⟨2, x, y, rv⟩ 805
          (by exact ac_eval2 0 2 (by norm_num) (by norm_num) (by decide))]
        rw [show x + -1 - x = (-1:ℤ) from by ring,
          show y + 0 - y = (0:ℤ) from by ring]
        dsimp only
        decide
    refine step_congr _ ?_ ?_ ?_ ?_
    · dsimp only
      rw [grid67_blocked]
      omega
    · intro hC
      dsimp only
      rw [grid67_blocked] at hC
      rw [fps001_eval 1 (by norm_num) (by norm_num)]
      simp only [List.all_cons, List.all_nil, Bool.and_true, decide_eq_true_eq,
        zero_add]
      rw [grid67_blocked]
      omega
    · intro hD
      dsimp only
      rw [Prod.mk.injEq]
      constructor
      · simp only [encCell]
        omega
      · rw [cost_decomp ⟨1, x + -1, y + -1, true⟩ ⟨2, x, y, rv⟩ 724
          (by exact ac_eval1 1 2 (by norm_num) (by norm_num) (by decide))]
        rw [show x + -1 - x = (-1:ℤ) from by ring,
          show y + -1 - y = (-1:ℤ) from by ring]
        dsimp only
        decide
    refine step_congr _ ?_ ?_ ?_ ?_
    · dsimp only
      rw [grid67_blocked]
      omega
    · intro hC
      dsimp only
      rw [grid67_blocked] at hC
      rw [fps001_eval 2 (by norm_num) (by norm_num)]
      simp only [List.all_cons, List.all_nil, Bool.and_true, decide_eq_true_eq,
        zero_add]
      rw [grid67_blocked]
      omega
    · intro hD
      dsimp only
      rw [Prod.mk.injEq]
      constructor
      · simp only [encCell]
        omega
      · rw [cost_decomp ⟨2, x + 0, y + -1, true⟩ ⟨2, x, y, rv⟩ 0
          (by exact ac_eval0 2 2 (by norm_num) (by norm_num) (by decide))]
        rw [show x + 0 - x = (0:ℤ) from by ring,
          show y + -1 - y = (-1:ℤ) from by ring]
        dsimp only
        decide
    refine step_congr _ ?_ ?_ ?_ ?_
    · dsimp only
      rw [grid67_blocked]
      omega
    · intro hC
      dsimp only
      rw [grid67_blocked] at hC
      rw [fps001_eval 3 (by norm_num) (by norm_num)]
      simp only [List.all_cons, List.all_nil, Bool.and_true, decide_eq_true_eq,
        zero_add]
      rw [grid67_blocked]
      omega
    · intro hD
      dsimp only
      rw [Prod.mk.injEq]
      constructor
      · simp only [encCell]
        omega
      · rw [cost_decomp ⟨3, x + 1, y + -1, true⟩ ⟨2, x, y, rv⟩ 724
          (by exact ac_eval1 3 2 (by norm_num) (by norm_num) (by decide))]
        rw [show x + 1 - x = (1:ℤ) from by ring,
          show y + -1 - y = (-1:ℤ) from by ring]
        dsimp only
        decide
    refine step_congr _ ?_ ?_ ?_ ?_
    · dsimp only
      rw [grid67_blocked]
      omega
    · intro hC
      dsimp only
      rw [grid67_blocked] at hC
      rw [fps001_eval 4 (by norm_num) (by norm_num)]
      simp only [List.all_cons, List.all_nil, Bool.and_true, decide_eq_true_eq,
        zero_add]
      rw [grid67_blocked]
      omega
    · intro hD
      dsimp only
      rw [Prod.mk.injEq]
      constructor
      · simp only [encCell]
        omega
      · rw [cost_decomp ⟨4, x + 1, y + 0, true⟩ ⟨2, x, y, rv⟩ 805
          (by exact ac_eval2 4 2 (by norm_num) (by norm_num) (by decide))]
        rw [show x + 1 - x = (1:ℤ) from by ring,
          show y + 0 - y = (0:ℤ) from by ring]
        dsimp only
        decide
    · rfl
  · rw [show NeighborCache.get
        [[((1, -1), 7, false), ((1, 0), 0, false), ((1, 1), 1, false), ((0, 1), 6, true), ((-1, 1), 7, true), ((-1, 0), 0, true), ((-1, -1), 1, true), ((0, -1), 2, true)],
         [((1, 0), 0, false), ((1, 1), 1, false), ((0, 1), 2, false), ((-1, 1), 7, true), ((-1, 0), 0, true), ((-1, -1), 1, true), ((0, -1), 2, true), ((1, -1), 3, true)],
         [((1, 1), 1, false), ((0, 1), 2, false), ((-1, 1), 3, false), ((-1, 0), 0, true), ((-1, -1), 1, true), ((0, -1), 2, true), ((1, -1), 3, true), ((1, 0), 4, true)],
         [((0, 1), 2, false), ((-1, 1), 3, false), ((-1, 0), 4, false), ((-1, -1), 1, true), ((0, -1), 2, true), ((1, -1), 3, true), ((1, 0), 4, true), ((1, 1), 5, true)],
         [((-1, 1), 3, false), ((-1, 0), 4, false), ((-1, -1), 5, false), ((0, -1), 2, true), ((1, -1), 3, true), ((1, 0), 4, true), ((1, 1), 5, true), ((0, 1), 6, true)],
         [((-1, 0), 4, false), ((-1, -1), 5, false), ((0, -1), 6, false), ((1, -1), 3, true), ((1, 0), 4, true), ((1, 1), 5, true), ((0, 1), 6, true), ((-1, 1), 7, true)],
         [((-1, -1), 5, false), ((0, -1), 6, false), ((1, -1), 7, false), ((1, 0), 4, true), ((1, 1), 5, true), ((0, 1), 6, true), ((-1, 1), 7, true), ((-1, 0), 0, true)],
         [((0, -1), 6, false), ((1, -1), 7, false), ((1, 0), 0, false), ((1, 1), 5, true), ((0, 1), 6, true), ((-1, 1), 7, true), ((-1, 0), 0, true), ((-1, -1), 1, true)]]
        3 = some [((0, 1), 2, false), ((-1, 1), 3, false), ((-1, 0), 4, false), ((-1, -1), 1, true), ((0, -1), 2, true), ((1, -1), 3, true), ((1, 0), 4, true), ((1, 1), 5, true)] from by decide]
    dsimp only
    simp only [List.map_cons, List.map_nil]
    rw [show encCell { rotation := 3, x := x, y := y, reverse := rv } % 8 = 3
        from by simp only [encCell]; omega]
    rw [show encCell { rotation := 3, x := x, y := y, reverse := rv } / 8 % 8 =
        x.toNat from by simp only [encCell]; omega,
      show encCell { rotation := 3, x := x, y := y, reverse := rv } / 8 / 8 =
        y.toNat from by simp only [encCell]; omega]
    simp only [rowN, List.foldr_cons, List.foldr_nil]
    dsimp only
    refine step_congr _ ?_ ?_ ?_ ?_
    · dsimp only
      rw [grid67_blocked]
      omega
    · intro hC
      dsimp only
      rw [grid67_blocked] at hC
      rw [fps001_eval 2 (by norm_num) (by norm_num)]
      simp only [List.all_cons, List.all_nil, Bool.and_true, decide_eq_true_eq,
        zero_add]
      rw [grid67_blocked]
      omega
    · intro hD
      dsimp only
      rw [Prod.mk.injEq]
      constructor
      · simp only [encCell]
        omega
      · rw [cost_decomp ⟨2, x + 0, y + 1, false⟩ ⟨3, x, y, rv⟩ 724
          (by exact ac_eval1 2 3 (by norm_num) (by norm_num) (by decide))]
        rw [show x + 0 - x = (0:ℤ) from by ring,
          show y + 1 - y = (1:ℤ) from by ring]
        dsimp only
        decide
    refine step_congr _ ?_ ?_ ?_ ?_
    · dsimp only
      rw [grid67_blocked]
      omega
    · intro hC
      dsimp only
      rw [grid67_blocked] at hC
      rw [fps001_eval 3 (by norm_num) (by norm_num)]
      simp only [List.all_cons, List.all_nil, Bool.and_true, decide_eq_true_eq,
        zero_add]
      rw [grid67_blocked]
      omega
    · intro hD
      dsimp only
      rw [Prod.mk.injEq]
      constructor
      · simp only [encCell]
        omega
      · rw [cost_decomp ⟨3, x + -1, y + 1, false⟩ ⟨3, x, y, rv⟩ 0
          (by exact ac_eval0 3 3 (by norm_num) (by norm_num) (by decide))]
        rw [show x + -1 - x = (-1:ℤ) from by ring,
          show y + 1 - y = (1:ℤ) from by ring]
        dsimp only
        decide
    refine step_congr _ ?_ ?_ ?_ ?_
    · dsimp only
      rw [grid67_blocked]
      omega
    · intro hC
      dsimp only
      rw [grid67_blocked] at hC
      rw [fps001_eval 4 (by norm_num) (by norm_num)]
      simp only [List.all_cons, List.all_nil, Bool.and_true, decide_eq_true_eq,
        zero_add]
      rw [grid67_blocked]
      omega
    · intro hD
      dsimp only
      rw [Prod.mk.injEq]
      constructor
      · simp only [encCell]
        omega
      · rw [cost_decomp ⟨4, x + -1, y + 0, false⟩ ⟨3, x, y, rv⟩ 724
          (by exact ac_eval1 4 3 (by norm_num) (by norm_num) (by decide))]
        rw [show x + -1 - x = (-1:ℤ) from by ring,
          show y + 0 - y = (0:ℤ) from by ring]
        dsimp only
        decide
    refine step_congr _ ?_ ?_ ?_ ?_
    · dsimp only
      rw [grid67_blocked]
      omega
    · intro hC
      dsimp only
      rw [grid67_blocked] at hC
      rw [fps001_eval 1 (by norm_num) (by norm_num)]
      simp only [List.all_cons, List.all_nil, Bool.and_true, decide_eq_true_eq,
        zero_add]
      rw [grid67_blocked]
      omega
    · intro hD
      dsimp only
      rw [Prod.mk.injEq]
      constructor
      · simp only [encCell]
        omega
      · rw [cost_decomp ⟨1, x + -1, y + -1, true⟩ ⟨3, x, y, rv⟩ 805
          (by exact ac_eval2 1 3 (by norm_num) (by norm_num) (by decide))]
        rw [show x + -1 - x = (-1:ℤ) from by ring,
          show y + -1 - y = (-1:ℤ) from by ring]
        dsimp only
        decide
    refine step_congr _ ?_ ?_ ?_ ?_
    · dsimp only
      rw [grid67_blocked]
      omega
    · intro hC
      dsimp only
      rw [grid67_blocked] at hC
      rw [fps001_eval 2 (by norm_num) (by norm_num)]
      simp only [List.all_cons, List.all_nil, Bool.and_true, decide_eq_true_eq,
        zero_add]
      rw [grid67_blocked]
      omega
    · intro hD
      dsimp only
      rw [Prod.mk.injEq]
      constructor
      · simp only [encCell]
        omega
      · rw [cost_decomp ⟨2, x + 0, y + -1, true⟩ ⟨3, x, y, rv⟩ 724
          (by exact ac_eval1 2 3 (by norm_num) (by norm_num) (by decide))]
        rw [show x + 0 - x = (0:ℤ) from by ring,
          show y + -1 - y = (-1:ℤ) from by ring]
        dsimp only
        decide
    refine step_congr _ ?_ ?_ ?_ ?_
    · dsimp only
      rw [grid67_blocked]
      omega
    · intro hC
      dsimp only
      rw [grid67_blocked] at hC
      rw [fps001_eval 3 (by norm_num) (by norm_num)]
      simp only [List.all_cons, List.all_nil, Bool.and_true, decide_eq_true_eq,
        zero_add]
      rw [grid67_blocked]
      omega
    · intro hD
      dsimp only
      rw [Prod.mk.injEq]
      constructor
      · simp only [encCell]
        omega
      · rw [cost_decomp ⟨3, x + 1, y + -1, true⟩ ⟨3, x, y, rv⟩ 0
          (by exact ac_eval0 3 3 (by norm_num) (by norm_num) (by decide))]
        rw [show x + 1 - x = (1:ℤ) from by ring,
          show y + -1 - y = (-1:ℤ) from by ring]
        dsimp only
        decide
    refine step_congr _ ?_ ?_ ?_ ?_
    · dsimp only
      rw [grid67_blocked]
      omega
    · intro hC
      dsimp only
      rw [grid67_blocked] at hC
      rw [fps001_eval 4 (by norm_num) (by norm_num)]
      simp only [List.all_cons, List.all_nil, Bool.and_true, decide_eq_true_eq,
        zero_add]
      rw [grid67_blocked]
      omega
    · intro hD
      dsimp only
      rw [Prod.mk.injEq]
      constructor
      · simp only [encCell]
        omega
      · rw [cost_decomp ⟨4, x + 1, y + 0, true⟩ ⟨3, x, y, rv⟩ 724
          (by exact ac_eval1 4 3 (by norm_num) (by norm_num) (by decide))]
        rw [show x + 1 - x = (1:ℤ) from by ring,
          show y + 0 - y = (0:ℤ) from by ring]
        dsimp only
        decide
    refine step_congr _ ?_ ?_ ?_ ?_
    · dsimp only
      rw [grid67_blocked]
      omega
    · intro hC
      dsimp only
      rw [grid67_blocked] at hC
      rw [fps001_eval 5 (by norm_num) (by norm_num)]
      simp only [List.all_cons, List.all_nil, Bool.and_true, decide_eq_true_eq,
        zero_add]
      rw [grid67_blocked]
      omega
    · intro hD
      dsimp only
      rw [Prod.mk.injEq]
      constructor
      · simp only [encCell]
        omega
      · rw [cost_decomp ⟨5, x + 1, y + 1, true⟩ ⟨3, x, y, rv⟩ 805
          (by exact ac_eval2 5 3 (by norm_num) (by norm_num) (by decide))]
        rw [show x + 1 - x = (1:ℤ) from by ring,
          show y + 1 - y = (1:ℤ) from by ring]
        dsimp only
        decide
    · rfl
  · rw [show NeighborCache.get
        [[((1, -1), 7, false), ((1, 0), 0, false), ((1, 1), 1, false), ((0, 1), 6, true), ((-1, 1), 7, true), ((-1, 0), 0, true), ((-1, -1), 1, true), ((0, -1), 2, true)],
         [((1, 0), 0, false), ((1, 1), 1, false), ((0, 1), 2, false), ((-1, 1), 7, true), ((-1, 0), 0, true), ((-1, -1), 1, true), ((0, -1), 2, true), ((1, -1), 3, true)],
         [((1, 1), 1, false), ((0, 1), 2, false), ((-1, 1), 3, false), ((-1, 0), 0, true), ((-1, -1), 1, true), ((0, -1), 2, true), ((1, -1), 3, true), ((1, 0), 4, true)],
         [((0, 1), 2, false), ((-1, 1), 3, false), ((-1, 0), 4, false), ((-1, -1), 1, true), ((0, -1), 2, true), ((1, -1), 3, true), ((1, 0), 4, true), ((1, 1), 5, true)],
         [((-1, 1), 3, false), ((-1, 0), 4, false), ((-1, -1), 5, false), ((0, -1), 2, true), ((1, -1), 3, true), ((1, 0), 4, true), ((1, 1), 5, true), ((0, 1), 6, true)],
         [((-1, 0), 4, false), ((-1, -1), 5, false), ((0, -1), 6, false), ((1, -1), 3, true), ((1, 0), 4, true), ((1, 1), 5, true), ((0, 1), 6, true), ((-1, 1), 7, true)],
         [((-1, -1), 5, false), ((0, -1), 6, false), ((1, -1), 7, false), ((1, 0), 4, true), ((1, 1), 5, true), ((0, 1), 6, true), ((-1, 1), 7, true), ((-1, 0), 0, true)],
         [((0, -1), 6, false), ((1, -1), 7, false), ((1, 0), 0, false), ((1, 1), 5, true), ((0, 1), 6, true), ((-1, 1), 7, true), ((-1, 0), 0, true), ((-1, -1), 1, true)]]
        4 = some [((-1, 1), 3, false), ((-1, 0), 4, false), ((-1, -1), 5, false), ((0, -1), 2, true), ((1, -1), 3, true), ((1, 0), 4, true), ((1, 1), 5, true), ((0, 1), 6, true)] from by decide]
    dsimp only
    simp only [List.map_cons, List.map_nil]
    rw [show encCell { rotation := 4, x := x, y := y, reverse := rv } % 8 = 4
        from by simp only [encCell]; omega]
    rw [show encCell { rotation := 4, x := x, y := y, reverse := rv } / 8 % 8 =
        x.toNat from by simp only [encCell]; omega,
      show encCell { rotation := 4, x := x, y := y, reverse := rv } / 8 / 8 =
        y.toNat from by simp only [encCell]; omega]
    simp only [rowN, List.foldr_cons, List.foldr_nil]
    dsimp only
    refine step_congr _ ?_ ?_ ?_ ?_
    · dsimp only
      rw [grid67_blocked]
      omega
    · intro hC
      dsimp only
      rw [grid67_blocked] at hC
      rw [fps001_eval 3 (by norm_num) (by norm_num)]
      simp only [List.all_cons, List.all_nil, Bool.and_true, decide_eq_true_eq,
        zero_add]
      rw [grid67_blocked]
      omega
    · intro hD
      dsimp only
      rw [Prod.mk.injEq]
      constructor
      · simp only [encCell]
        omega
      · rw [cost_decomp ⟨3, x + -1, y + 1, false⟩ ⟨4, x, y, rv⟩ 724
          (by exact ac_eval1 3 4 (by norm_num) (by norm_num) (by decide))]
        rw [show x + -1 - x = (-1:ℤ) from by ring,
          show y + 1 - y = (1:ℤ) from by ring]
        dsimp only
        decide
    refine step_congr _ ?_ ?_ ?_ ?_
    · dsimp only
      rw [grid67_blocked]
      omega
    · intro hC
      dsimp only
      rw [grid67_blocked] at hC
      rw [fps001_eval 4 (by norm_num) (by norm_num)]
      simp only [List.all_cons, List.all_nil, Bool.and_true, decide_eq_true_eq,
        zero_add]
      rw [grid67_blocked]
      omega
    · intro hD
      dsimp only
      rw [Prod.mk.injEq]
      constructor
      · simp only [encCell]
        omega
      · rw [cost_decomp ⟨4, x + -1, y + 0, false⟩ ⟨4, x, y, rv⟩ 0
          (by exact ac_eval0 4 4 (by norm_num) (by norm_num) (by decide))]
        rw [show x + -1 - x = (-1:ℤ) from by ring,
          show y + 0 - y = (0:ℤ) from by ring]
        dsimp only
        decide
    refine step_congr _ ?_ ?_ ?_ ?_
    · dsimp only
      rw [grid67_blocked]
      omega
    · intro hC
      dsimp only
      rw [grid67_blocked] at hC
      rw [fps001_eval 5 (by norm_num) (by norm_num)]
      simp only [List.all_cons, List.all_nil, Bool.and_true, decide_eq_true_eq,
        zero_add]
      rw [grid67_blocked]
      omega
    · intro hD
      dsimp only
      rw [Prod.mk.injEq]
      constructor
      · simp only [encCell]
        omega
      · rw [cost_decomp ⟨5, x + -1, y + -1, false⟩ ⟨4, x, y, rv⟩ 724
          (by exact ac_eval1 5 4 (by norm_num) (by norm_num) (by decide))]
        rw [show x + -1 - x = (-1:ℤ) from by ring,
          show y + -1 - y = (-1:ℤ) from by ring]
        dsimp only
        decide
    refine step_congr _ ?_ ?_ ?_ ?_
    · dsimp only
      rw [grid67_blocked]
      omega
    · intro hC
      dsimp only
      rw [grid67_blocked] at hC
      rw [fps001_eval 2 (by norm_num) (by norm_num)]
      simp only [List.all_cons, List.all_nil, Bool.and_true, decide_eq_true_eq,
        zero_add]
      rw [grid67_blocked]
      omega
    · intro hD
      dsimp only
      rw [Prod.mk.injEq]
      constructor
      · simp only [encCell]
        omega
      · rw [cost_decomp ⟨2, x + 0, y + -1, true⟩ ⟨4, x, y, rv⟩ 805
          (by exact ac_eval2 2 4 (by norm_num) (by norm_num) (by decide))]
        rw [show x + 0 - x = (0:ℤ) from by ring,
          show y + -1 - y = (-1:ℤ) from by ring]
        dsimp only
        decide
    refine step_congr _ ?_ ?_ ?_ ?_
    · dsimp only
      rw [grid67_blocked]
      omega
    · intro hC
      dsimp only
      rw [grid67_blocked] at hC
      rw [fps001_eval 3 (by norm_num) (by norm_num)]
      simp only [List.all_cons, List.all_nil, Bool.and_true, decide_eq_true_eq,
        zero_add]
      rw [grid67_blocked]
      omega
    · intro hD
      dsimp only
      rw [Prod.mk.injEq]
      constructor
      · simp only [encCell]
        omega
      · rw [cost_decomp ⟨3, x + 1, y + -1, true⟩ ⟨4, x, y, rv⟩ 724
          (by exact ac_eval1 3 4 (by norm_num) (by norm_num) (by decide))]
        rw [show x + 1 - x = (1:ℤ) from by ring,
          show y + -1 - y = (-1:ℤ) from by ring]
        dsimp only
        decide
    refine step_congr _ ?_ ?_ ?_ ?_
    · dsimp only
      rw [grid67_blocked]
      omega
    · intro hC
      dsimp only
      rw [grid67_blocked] at hC
      rw [fps001_eval 4 (by norm_num) (by norm_num)]
      simp only [List.all_cons, List.all_nil, Bool.and_true, decide_eq_true_eq,
        zero_add]
      rw [grid67_blocked]
      omega
    · intro hD
      dsimp only
      rw [Prod.mk.injEq]
      constructor
      · simp only [encCell]
        omega
      · rw [cost_decomp ⟨4, x + 1, y + 0, true⟩ ⟨4, x, y, rv⟩ 0
          (by exact ac_eval0 4 4 (by norm_num) (by norm_num) (by decide))]
        rw [show x + 1 - x = (1:ℤ) from by ring,
          show y + 0 - y = (0:ℤ) from by ring]
        dsimp only
        decide
    refine step_congr _ ?_ ?_ ?_ ?_
    · dsimp only
      rw [grid67_blocked]
      omega
    · intro hC
      dsimp only
      rw [grid67_blocked] at hC
      rw [fps001_eval 5 (by norm_num) (by norm_num)]
      simp only [List.all_cons, List.all_nil, Bool.and_true, decide_eq_true_eq,
        zero_add]
      rw [grid67_blocked]
      omega
    · intro hD
      dsimp only
      rw [Prod.mk.injEq]
      constructor
      · simp only [encCell]
        omega
      · rw [cost_decomp ⟨5, x + 1, y + 1, true⟩ ⟨4, x, y, rv⟩ 724
          (by exact ac_eval1 5 4 (by norm_num) (by norm_num) (by decide))]
        rw [show x + 1 - x = (1:ℤ) from by ring,
          show y + 1 - y = (1:ℤ) from by ring]
        dsimp only
        decide
    refine step_congr _ ?_ ?_ ?_ ?_
    · dsimp only
      rw [grid67_blocked]
      omega
    · intro hC
      dsimp only
      rw [grid67_blocked] at hC
      rw [fps001_eval 6 (by norm_num) (by norm_num)]
      simp only [List.all_cons, List.all_nil, Bool.and_true, decide_eq_true_eq,
        zero_add]
      rw [grid67_blocked]
      omega
    · intro hD
      dsimp only
      rw [Prod.mk.injEq]
      constructor
      · simp only [encCell]
        omega
      · rw [cost_decomp ⟨6, x + 0, y + 1, true⟩ ⟨4, x, y, rv⟩ 805
          (by exact ac_eval2 6 4 (by norm_num) (by norm_num) (by decide))]
        rw [show x + 0 - x = (0:ℤ) from by ring,
          show y + 1 - y = (1:ℤ) from by ring]
        dsimp only
        decide
    · rfl
  · rw [show NeighborCache.get
        [[((1, -1), 7, false), ((1, 0), 0, false), ((1, 1), 1, false), ((0, 1), 6, true), ((-1, 1), 7, true), ((-1, 0), 0, true), ((-1, -1), 1, true), ((0, -1), 2, true)],
         [((1, 0), 0, false), ((1, 1), 1, false), ((0, 1), 2, false), ((-1, 1), 7, true), ((-1, 0), 0, true), ((-1, -1), 1, true), ((0, -1), 2, true), ((1, -1), 3, true)],
         [((1, 1), 1, false), ((0, 1), 2, false), ((-1, 1), 3, false), ((-1, 0), 0, true), ((-1, -1), 1, true), ((0, -1), 2, true), ((1, -1), 3, true), ((1, 0), 4, true)],
         [((0, 1), 2, false), ((-1, 1), 3, false), ((-1, 0), 4, false), ((-1, -1), 1, true), ((0, -1), 2, true), ((1, -1), 3, true), ((1, 0), 4, true), ((1, 1), 5, true)],
         [((-1, 1), 3, false), ((-1, 0), 4, false), ((-1, -1), 5, false), ((0, -1), 2, true), ((1, -1), 3, true), ((1, 0), 4, true), ((1, 1), 5, true), ((0, 1), 6, true)],
         [((-1, 0), 4, false), ((-1, -1), 5, false), ((0, -1), 6, false), ((1, -1), 3, true), ((1, 0), 4, true), ((1, 1), 5, true), ((0, 1), 6, true), ((-1, 1), 7, true)],
         [((-1, -1), 5, false), ((0, -1), 6, false), ((1, -1), 7, false), ((1, 0), 4, true), ((1, 1), 5, true), ((0, 1), 6, true), ((-1, 1), 7, true), ((-1, 0), 0, true)],
         [((0, -1), 6, false), ((1, -1), 7, false), ((1, 0), 0, false), ((1, 1), 5, true), ((0, 1), 6, true), ((-1, 1), 7, true), ((-1, 0), 0, true), ((-1, -1), 1, true)]]
        5 = some [((-1, 0), 4, false), ((-1, -1), 5, false), ((0, -1), 6, false), ((1, -1), 3, true), ((1, 0), 4, true), ((1, 1), 5, true), ((0, 1), 6, true), ((-1, 1), 7, true)] from by decide]
    dsimp only
    simp only [List.map_cons, List.map_nil]
    rw [show encCell { rotation := 5, x := x, y := y, reverse := rv } % 8 = 5
        from by simp only [encCell]; omega]
    rw [show encCell { rotation := 5, x := x, y := y, reverse := rv } / 8 % 8 =
        x.toNat from by simp only [encCell]; omega,
      show encCell { rotation := 5, x := x, y := y, reverse := rv } / 8 / 8 =
        y.toNat from by simp only [encCell]; omega]
    simp only [rowN, List.foldr_cons, List.foldr_nil]
    dsimp only
    refine step_congr _ ?_ ?_ ?_ ?_
    · dsimp only
      rw [grid67_blocked]
      omega
    · intro hC
      dsimp only
      rw [grid67_blocked] at hC
      rw [fps001_eval 4 (by norm_num) (by norm_num)]
      simp only [List.all_cons, List.all_nil, Bool.and_true, decide_eq_true_eq,
        zero_add]
      rw [grid67_blocked]
      omega
    · intro hD
      dsimp only
      rw [Prod.mk.injEq]
      constructor
      · simp only [encCell]
        omega
      · rw [cost_decomp ⟨4, x + -1, y + 0, false⟩ ⟨5, x, y, rv⟩ 724
          (by exact ac_eval1 4 5 (by norm_num) (by norm_num) (by decide))]
        rw [show x + -1 - x = (-1:ℤ) from by ring,
          show y + 0 - y = (0:ℤ) from by ring]
        dsimp only
        decide
    refine step_congr _ ?_ ?_ ?_ ?_
    · dsimp only
      rw [grid67_blocked]
      omega
    · intro hC
      dsimp only
      rw [grid67_blocked] at hC
      rw [fps001_eval 5 (by norm_num) (by norm_num)]
      simp only [List.all_cons, List.all_nil, Bool.and_true, decide_eq_true_eq,
        zero_add]
      rw [grid67_blocked]
      omega
    · intro hD
      dsimp only
      rw [Prod.mk.injEq]
      constructor
      · simp only [encCell]
        omega
      · rw [cost_decomp ⟨5, x + -1, y + -1, false⟩ ⟨5, x, y, rv⟩ 0
          (by exact ac_eval0 5 5 (by norm_num) (by norm_num) (by decide))]
        rw [show x + -1 - x = (-1:ℤ) from by ring,
          show y + -1 - y = (-1:ℤ) from by ring]
        dsimp only
        decide
    refine step_congr _ ?_ ?_ ?_ ?_
    · dsimp only
      rw [grid67_blocked]
      omega
    · intro hC
      dsimp only
      rw [grid67_blocked] at hC
      rw [fps001_eval 6 (by norm_num) (by norm_num)]
      simp only [List.all_cons, List.all_nil, Bool.and_true, decide_eq_true_eq,
        zero_add]
      rw [grid67_blocked]
      omega
    · intro hD
      dsimp only
      rw [Prod.mk.injEq]
      constructor
      · simp only [encCell]
        omega
      · rw [cost_decomp ⟨6, x + 0, y + -1, false⟩ ⟨5, x, y, rv⟩ 724
          (by exact ac_eval1 6 5 (by norm_num) (by norm_num) (by decide))]
        rw [show x + 0 - x = (0:ℤ) from by ring,
          show y + -1 - y = (-1:ℤ) from by ring]
        dsimp only
        decide
    refine step_congr _ ?_ ?_ ?_ ?_
    · dsimp only
      rw [grid67_blocked]
      omega
    · intro hC
      dsimp only
      rw [grid67_blocked] at hC
      rw [fps001_eval 3 (by norm_num) (by norm_num)]
      simp only [List.all_cons, List.all_nil, Bool.and_true, decide_eq_true_eq,
        zero_add]
      rw [grid67_blocked]
      omega
    · intro hD
      dsimp only
      rw [Prod.mk.injEq]
      constructor
      · simp only [encCell]
        omega
      · rw [cost_decomp ⟨3, x + 1, y + -1, true⟩ ⟨5, x, y, rv⟩ 805
          (by exact ac_eval2 3 5 (by norm_num) (by norm_num) (by decide))]
        rw [show x + 1 - x = (1:ℤ) from by ring,
          show y + -1 - y = (-1:ℤ) from by ring]
        dsimp only
        decide
    refine step_congr _ ?_ ?_ ?_ ?_
    · dsimp only
      rw [grid67_blocked]
      omega
    · intro hC
      dsimp only
      rw [grid67_blocked] at hC
      rw [fps001_eval 4 (by norm_num) (by norm_num)]
      simp only [List.all_cons, List.all_nil, Bool.and_true, decide_eq_true_eq,
        zero_add]
      rw [grid67_blocked]
      omega
    · intro hD
      dsimp only
      rw [Prod.mk.injEq]
      constructor
      · simp only [encCell]
        omega
      · rw [cost_decomp ⟨4, x + 1, y + 0, true⟩ ⟨5, x, y, rv⟩ 724
          (by exact ac_eval1 4 5 (by norm_num) (by norm_num) (by decide))]
        rw [show x + 1 - x = (1:ℤ) from by ring,
          show y + 0 - y = (0:ℤ) from by ring]
        dsimp only
        decide
    refine step_congr _ ?_ ?_ ?_ ?_
    · dsimp only
      rw [grid67_blocked]
      omega
    · intro hC
      dsimp only
      rw [grid67_blocked] at hC
      rw [fps001_eval 5 (by norm_num) (by norm_num)]
      simp only [List.all_cons, List.all_nil, Bool.and_true, decide_eq_true_eq,
        zero_add]
      rw [grid67_blocked]
      omega
    · intro hD
      dsimp only
      rw [Prod.mk.injEq]
      constructor
      · simp only [encCell]
        omega
      · rw [cost_decomp ⟨5, x + 1, y + 1, true⟩ ⟨5, x, y, rv⟩ 0
          (by exact ac_eval0 5 5 (by norm_num) (by norm_num) (by decide))]
        rw [show x + 1 - x = (1:ℤ) from by ring,
          show y + 1 - y = (1:ℤ) from by ring]
        dsimp only
        decide
    refine step_congr _ ?_ ?_ ?_ ?_
    · dsimp only
      rw [grid67_blocked]
      omega
    · intro hC
      dsimp only
      rw [grid67_blocked] at hC
      rw [fps001_eval 6 (by norm_num) (by norm_num)]
      simp only [List.all_cons, List.all_nil, Bool.and_true, decide_eq_true_eq,
        zero_add]
      rw [grid67_blocked]
      omega
    · intro hD
      dsimp only
      rw [Prod.mk.injEq]
      constructor
      · simp only [encCell]
        omega
      · rw [cost_decomp ⟨6, x + 0, y + 1, true⟩ ⟨5, x, y, rv⟩ 724
          (by exact ac_eval1 6 5 (by norm_num) (by norm_num) (by decide))]
        rw [show x + 0 - x = (0:ℤ) from by ring,
          show y + 1 - y = (1:ℤ) from by ring]
        dsimp only
        decide
    refine step_congr _ ?_ ?_ ?_ ?_
    · dsimp only
      rw [grid67_blocked]
      omega
    · intro hC
      dsimp only
      rw [grid67_blocked] at hC
      rw [fps001_eval 7 (by norm_num) (by norm_num)]
      simp only [List.all_cons, List.all_nil, Bool.and_true, decide_eq_true_eq,
        zero_add]
      rw [grid67_blocked]
      omega
    · intro hD
      dsimp only
      rw [Prod.mk.injEq]
      constructor
      · simp only [encCell]
        omega
      · rw [cost_decomp ⟨7, x + -1, y + 1, true⟩ ⟨5, x, y, rv⟩ 805
          (by exact ac_eval2 7 5 (by norm_num) (by norm_num) (by decide))]
        rw [show x + -1 - x = (-1:ℤ) from by ring,
          show y + 1 - y = (1:ℤ) from by ring]
        dsimp only
        decide
    · rfl
  · rw [show NeighborCache.get
        [[((1, -1), 7, false), ((1, 0), 0, false), ((1, 1), 1, false), ((0, 1), 6, true), ((-1, 1), 7, true), ((-1, 0), 0, true), ((-1, -1), 1, true), ((0, -1), 2, true)],
         [((1, 0), 0, false), ((1, 1), 1, false), ((0, 1), 2, false), ((-1, 1), 7, true), ((-1, 0), 0, true), ((-1, -1), 1, true), ((0, -1), 2, true), ((1, -1), 3, true)],
         [((1, 1), 1, false), ((0, 1), 2, false), ((-1, 1), 3, false), ((-1, 0), 0, true), ((-1, -1), 1, true), ((0, -1), 2, true), ((1, -1), 3, true), ((1, 0), 4, true)],
         [((0, 1), 2, false), ((-1, 1), 3, false), ((-1, 0), 4, false), ((-1, -1), 1, true), ((0, -1), 2, true), ((1, -1), 3, true), ((1, 0), 4, true), ((1, 1), 5, true)],
         [((-1, 1), 3, false), ((-1, 0), 4, false), ((-1, -1), 5, false), ((0, -1), 2, true), ((1, -1), 3, true), ((1, 0), 4, true), ((1, 1), 5, true), ((0, 1), 6, true)],
         [((-1, 0), 4, false), ((-1, -1), 5, false), ((0, -1), 6, false), ((1, -1), 3, true), ((1, 0), 4, true), ((1, 1), 5, true), ((0, 1), 6, true), ((-1, 1), 7, true)],
         [((-1, -1), 5, false), ((0, -1), 6, false), ((1, -1), 7, false), ((1, 0), 4, true), ((1, 1), 5, true), ((0, 1), 6, true), ((-1, 1), 7, true), ((-1, 0), 0, true)],
         [((0, -1), 6, false), ((1, -1), 7, false), ((1, 0), 0, false), ((1, 1), 5, true), ((0, 1), 6, true), ((-1, 1), 7, true), ((-1, 0), 0, true), ((-1, -1), 1, true)]]
        6 = some [((-1, -1), 5, false), ((0, -1), 6, false), ((1, -1), 7, false), ((1, 0), 4, true), ((1, 1), 5, true), ((0, 1), 6, true), ((-1, 1), 7, true), ((-1, 0), 0, true)] from by decide]
    dsimp only
    simp only [List.map_cons, List.map_nil]
    rw [show encCell { rotation := 6, x := x, y := y, reverse := rv } % 8 = 6
        from by simp only [encCell]; omega]
    rw [show encCell { rotation := 6, x := x, y := y, reverse := rv } / 8 % 8 =
        x.toNat from by simp only [encCell]; omega,
      show encCell { rotation := 6, x := x, y := y, reverse := rv } / 8 / 8 =
        y.toNat from by simp only [encCell]; omega]
    simp only [rowN, List.foldr_cons, List.foldr_nil]
    dsimp only
    refine step_congr _ ?_ ?_ ?_ ?_
    · dsimp only
      rw [grid67_blocked]
      omega
    · intro hC
      dsimp only
      rw [grid67_blocked] at hC
      rw [fps001_eval 5 (by norm_num) (by norm_num)]
      simp only [List.all_cons, List.all_nil, Bool.and_true, decide_eq_true_eq,
        zero_add]
      rw [grid67_blocked]
      omega
    · intro hD
      dsimp only
      rw [Prod.mk.injEq]
      constructor
      · simp only [encCell]
        omega
      · rw [cost_decomp ⟨5, x + -1, y + -1, false⟩ ⟨6, x, y, rv⟩ 724
          (by exact ac_eval1 5 6 (by norm_num) (by norm_num) (by decide))]
        rw [show x + -1 - x = (-1:ℤ) from by ring,
          show y + -1 - y = (-1:ℤ) from by ring]
        dsimp only
        decide
    refine step_congr _ ?_ ?_ ?_ ?_
    · dsimp only
      rw [grid67_blocked]
      omega
    · intro hC
      dsimp only
      rw [grid67_blocked] at hC
      rw [fps001_eval 6 (by norm_num) (by norm_num)]
      simp only [List.all_cons, List.all_nil, Bool.and_true, decide_eq_true_eq,
        zero_add]
      rw [grid67_blocked]
      omega
    · intro hD
      dsimp only
      rw [Prod.mk.injEq]
      constructor
      · simp only [encCell]
        omega
      · rw [cost_decomp ⟨6, x + 0, y + -1, false⟩ ⟨6, x, y, rv⟩ 0
          (by exact ac_eval0 6 6 (by norm_num) (by norm_num) (by decide))]
        rw [show x + 0 - x = (0:ℤ) from by ring,
          show y + -1 - y = (-1:ℤ) from by ring]
        dsimp only
        decide
    refine step_congr _ ?_ ?_ ?_ ?_
    · dsimp only
      rw [grid67_blocked]
      omega
    · intro hC
      dsimp only
      rw [grid67_blocked] at hC
      rw [fps001_eval 7 (by norm_num) (by norm_num)]
      simp only [List.all_cons, List.all_nil, Bool.and_true, decide_eq_true_eq,
        zero_add]
      rw [grid67_blocked]
      omega
    · intro hD
      dsimp only
      rw [Prod.mk.injEq]
      constructor
      · simp only [encCell]
        omega
      · rw [cost_decomp ⟨7, x + 1, y + -1, false⟩ ⟨6, x, y, rv⟩ 724
          (by exact ac_eval1 7 6 (by norm_num) (by norm_num) (by decide))]
        rw [show x + 1 - x = (1:ℤ) from by ring,
          show y + -1 - y = (-1:ℤ) from by ring]
        dsimp only
        decide
    refine step_congr _ ?_ ?_ ?_ ?_
    · dsimp only
      rw [grid67_blocked]
      omega
    · intro hC
      dsimp only
      rw [grid67_blocked] at hC
      rw [fps001_eval 4 (by norm_num) (by norm_num)]
      simp only [List.all_cons, List.all_nil, Bool.and_true, decide_eq_true_eq,
        zero_add]
      rw [grid67_blocked]
      omega
    · intro hD
      dsimp only
      rw [Prod.mk.injEq]
      constructor
      · simp only [encCell]
        omega
      · rw [cost_decomp ⟨4, x + 1, y + 0, true⟩ ⟨6, x, y, rv⟩ 805
          (by exact ac_eval2 4 6 (by norm_num) (by norm_num) (by decide))]
        rw [show x + 1 - x = (1:ℤ) from by ring,
          show y + 0 - y = (0:ℤ) from by ring]
        dsimp only
        decide
    refine step_congr _ ?_ ?_ ?_ ?_
    · dsimp only
      rw [grid67_blocked]
      omega
    · intro hC
      dsimp only
      rw [grid67_blocked] at hC
      rw [fps001_eval 5 (by norm_num) (by norm_num)]
      simp only [List.all_cons, List.all_nil, Bool.and_true, decide_eq_true_eq,
        zero_add]
      rw [grid67_blocked]
      omega
    · intro hD
      dsimp only
      rw [Prod.mk.injEq]
      constructor
      · simp only [encCell]
        omega
      · rw [cost_decomp ⟨5, x + 1, y + 1, true⟩ ⟨6, x, y, rv⟩ 724
          (by exact ac_eval1 5 6 (by norm_num) (by norm_num) (by decide))]
        rw [show x + 1 - x = (1:ℤ) from by ring,
          show y + 1 - y = (1:ℤ) from by ring]
        dsimp only
        decide
    refine step_congr _ ?_ ?_ ?_ ?_
    · dsimp only
      rw [grid67_blocked]
      omega
    · intro hC
      dsimp only
      rw [grid67_blocked] at hC
      rw [fps001_eval 6 (by norm_num) (by norm_num)]
      simp only [List.all_cons, List.all_nil, Bool.and_true, decide_eq_true_eq,
        zero_add]
      rw [grid67_blocked]
      omega
    · intro hD
      dsimp only
      rw [Prod.mk.injEq]
      constructor
      · simp only [encCell]
        omega
      · rw [cost_decomp ⟨6, x + 0, y + 1, true⟩ ⟨6, x, y, rv⟩ 0
          (by exact ac_eval0 6 6 (by norm_num) (by norm_num) (by decide))]
        rw [show x + 0 - x = (0:ℤ) from by ring,
          show y + 1 - y = (1:ℤ) from by ring]
        dsimp only
        decide
    refine step_congr _ ?_ ?_ ?_ ?_
    · dsimp only
      rw [grid67_blocked]
      omega
    · intro hC
      dsimp only
      rw [grid67_blocked] at hC
      rw [fps001_eval 7 (by norm_num) (by norm_num)]
      simp only [List.all_cons, List.all_nil, Bool.and_true, decide_eq_true_eq,
        zero_add]
      rw [grid67_blocked]
      omega
    · intro hD
      dsimp only
      rw [Prod.mk.injEq]
      constructor
      · simp only [encCell]
        omega
      · rw [cost_decomp ⟨7, x + -1, y + 1, true⟩ ⟨6, x, y, rv⟩ 724
          (by exact ac_eval1 7 6 (by norm_num) (by norm_num) (by decide))]
        rw [show x + -1 - x = (-1:ℤ) from by ring,
          show y + 1 - y = (1:ℤ) from by ring]
        dsimp only
        decide
    refine step_congr _ ?_ ?_ ?_ ?_
    · dsimp only
      rw [grid67_blocked]
      omega
    · intro hC
      dsimp only
      rw [grid67_blocked] at hC
      rw [fps001_eval 0 (by norm_num) (by norm_num)]
      simp only [List.all_cons, List.all_nil, Bool.and_true, decide_eq_true_eq,
        zero_add]
      rw [grid67_blocked]
      omega
    · intro hD
      dsimp only
      rw [Prod.mk.injEq]
      constructor
      · simp only [encCell]
        omega
      · rw [cost_decomp ⟨0, x + -1, y + 0, true⟩ ⟨6, x, y, rv⟩ 805
          (by exact ac_eval2 0 6 (by norm_num) (by norm_num) (by decide))]
        rw [show x + -1 - x = (-1:ℤ) from by ring,
          show y + 0 - y = (0:ℤ) from by ring]
        dsimp only
        decide
    · rfl
  · rw [show NeighborCache.get
        [[((1, -1), 7, false), ((1, 0), 0, false), ((1, 1), 1, false), ((0, 1), 6, true), ((-1, 1), 7, true), ((-1, 0), 0, true), ((-1, -1), 1, true), ((0, -1), 2, true)],
         [((1, 0), 0, false), ((1, 1), 1, false), ((0, 1), 2, false), ((-1, 1), 7, true), ((-1, 0), 0, true), ((-1, -1), 1, true), ((0, -1), 2, true), ((1, -1), 3, true)],
         [((1, 1), 1, false), ((0, 1), 2, false), ((-1, 1), 3, false), ((-1, 0), 0, true), ((-1, -1), 1, true), ((0, -1), 2, true), ((1, -1), 3, true), ((1, 0), 4, true)],
         [((0, 1), 2, false), ((-1, 1), 3, false), ((-1, 0), 4, false), ((-1, -1), 1, true), ((0, -1), 2, true), ((1, -1), 3, true), ((1, 0), 4, true), ((1, 1), 5, true)],
         [((-1, 1), 3, false), ((-1, 0), 4, false), ((-1, -1), 5, false), ((0, -1), 2, true), ((1, -1), 3, true), ((1, 0), 4, true), ((1, 1), 5, true), ((0, 1), 6, true)],
         [((-1, 0), 4, false), ((-1, -1), 5, false), ((0, -1), 6, false), ((1, -1), 3, true), ((1, 0), 4, true), ((1, 1), 5, true), ((0, 1), 6, true), ((-1, 1), 7, true)],
         [((-1, -1), 5, false), ((0, -1), 6, false), ((1, -1), 7, false), ((1, 0), 4, true), ((1, 1), 5, true), ((0, 1), 6, true), ((-1, 1), 7, true), ((-1, 0), 0, true)],
         [((0, -1), 6, false), ((1, -1), 7, false), ((1, 0), 0, false), ((1, 1), 5, true), ((0, 1), 6, true), ((-1, 1), 7, true), ((-1, 0), 0, true), ((-1, -1), 1, true)]]
        7 = some [((0, -1), 6, false), ((1, -1), 7, false), ((1, 0), 0, false), ((1, 1), 5, true), ((0, 1), 6, true), ((-1, 1), 7, true), ((-1, 0), 0, true), ((-1, -1), 1, true)] from by decide]
    dsimp only
    simp only [List.map_cons, List.map_nil]
    rw [show encCell { rotation := 7, x := x, y := y, reverse := rv } % 8 = 7
        from by simp only [encCell]; omega]
    rw [show encCell { rotation := 7, x := x, y := y, reverse := rv } / 8 % 8 =
        x.toNat from by simp only [encCell]; omega,
      show encCell { rotation := 7, x := x, y := y, reverse := rv } / 8 / 8 =
        y.toNat from by simp only [encCell]; omega]
    simp only [rowN, List.foldr_cons, List.foldr_nil]
    dsimp only
    refine step_congr _ ?_ ?_ ?_ ?_
    · dsimp only
      rw [grid67_blocked]
      omega
    · intro hC
      dsimp only
      rw [grid67_blocked] at hC
      rw [fps001_eval 6 (by norm_num) (by norm_num)]
      simp only [List.all_cons, List.all_nil, Bool.and_true, decide_eq_true_eq,
        zero_add]
      rw [grid67_blocked]
      omega
    · intro hD
      dsimp only
      rw [Prod.mk.injEq]
      constructor
      · simp only [encCell]
        omega
      · rw [cost_decomp ⟨6, x + 0, y + -1, false⟩ ⟨7, x, y, rv⟩ 724
          (by exact ac_eval1 6 7 (by norm_num) (by norm_num) (by decide))]
        rw [show x + 0 - x = (0:ℤ) from by ring,
          show y + -1 - y = (-1:ℤ) from by ring]
        dsimp only
        decide
    refine step_congr _ ?_ ?_ ?_ ?_
    · dsimp only
      rw [grid67_blocked]
      omega
    · intro hC
      dsimp only
      rw [grid67_blocked] at hC
      rw [fps001_eval 7 (by norm_num) (by norm_num)]
      simp only [List.all_cons, List.all_nil, Bool.and_true, decide_eq_true_eq,
        zero_add]
      rw [grid67_blocked]
      omega
    · intro hD
      dsimp only
      rw [Prod.mk.injEq]
      constructor
      · simp only [encCell]
        omega
      · rw [cost_decomp ⟨7, x + 1, y + -1, false⟩ ⟨7, x, y, rv⟩ 0
          (by exact ac_eval0 7 7 (by norm_num) (by norm_num) (by decide))]
        rw [show x + 1 - x = (1:ℤ) from by ring,
          show y + -1 - y = (-1:ℤ) from by ring]
        dsimp only
        decide
    refine step_congr _ ?_ ?_ ?_ ?_
    · dsimp only
      rw [grid67_blocked]
      omega
    · intro hC
      dsimp only
      rw [grid67_blocked] at hC
      rw [fps001_eval 0 (by norm_num) (by norm_num)]
      simp only [List.all_cons, List.all_nil, Bool.and_true, decide_eq_true_eq,
        zero_add]
      rw [grid67_blocked]
      omega
    · intro hD
      dsimp only
      rw [Prod.mk.injEq]
      constructor
      · simp only [encCell]
        omega
      · rw [cost_decomp ⟨0, x + 1, y + 0, false⟩ ⟨7, x, y, rv⟩ 724
          (by exact ac_eval1 0 7 (by norm_num) (by norm_num) (by decide))]
        rw [show x + 1 - x = (1:ℤ) from by ring,
          show y + 0 - y = (0:ℤ) from by ring]
        dsimp only
        decide
    refine step_congr _ ?_ ?_ ?_ ?_
    · dsimp only
      rw [grid67_blocked]
      omega
    · intro hC
      dsimp only
      rw [grid67_blocked] at hC
      rw [fps001_eval 5 (by norm_num) (by norm_num)]
      simp only [List.all_cons, List.all_nil, Bool.and_true, decide_eq_true_eq,
        zero_add]
      rw [grid67_blocked]
      omega
    · intro hD
      dsimp only
      rw [Prod.mk.injEq]
      constructor
      · simp only [encCell]
        omega
      · rw [cost_decomp ⟨5, x + 1, y + 1, true⟩ ⟨7, x, y, rv⟩ 805
          (by exact ac_eval2 5 7 (by norm_num) (by norm_num) (by decide))]
        rw [show x + 1 - x = (1:ℤ) from by ring,
          show y + 1 - y = (1:ℤ) from by ring]
        dsimp only
        decide
    refine step_congr _ ?_ ?_ ?_ ?_
    · dsimp only
      rw [grid67_blocked]
      omega
    · intro hC
      dsimp only
      rw [grid67_blocked] at hC
      rw [fps001_eval 6 (by norm_num) (by norm_num)]
      simp only [List.all_cons, List.all_nil, Bool.and_true, decide_eq_true_eq,
        zero_add]
      rw [grid67_blocked]
      omega
    · intro hD
      dsimp only
      rw [Prod.mk.injEq]
      constructor
      · simp only [encCell]
        omega
      · rw [cost_decomp ⟨6, x + 0, y + 1, true⟩ ⟨7, x, y, rv⟩ 724
          (by exact ac_eval1 6 7 (by norm_num) (by norm_num) (by decide))]
        rw [show x + 0 - x = (0:ℤ) from by ring,
          show y + 1 - y = (1:ℤ) from by ring]
        dsimp only
        decide
    refine step_congr _ ?_ ?_ ?_ ?_
    · dsimp only
      rw [grid67_blocked]
      omega
    · intro hC
      dsimp only
      rw [grid67_blocked] at hC
      rw [fps001_eval 7 (by norm_num) (by norm_num)]
      simp only [List.all_cons, List.all_nil, Bool.and_true, decide_eq_true_eq,
        zero_add]
      rw [grid67_blocked]
      omega
    · intro hD
      dsimp only
      rw [Prod.mk.injEq]
      constructor
      · simp only [encCell]
        omega
      · rw [cost_decomp ⟨7, x + -1, y + 1, true⟩ ⟨7, x, y, rv⟩ 0
          (by exact ac_eval0 7 7 (by norm_num) (by norm_num) (by decide))]
        rw [show x + -1 - x = (-1:ℤ) from by ring,
          show y + 1 - y = (1:ℤ) from by ring]
        dsimp only
        decide
    refine step_congr _ ?_ ?_ ?_ ?_
    · dsimp only
      rw [grid67_blocked]
      omega
    · intro hC
      dsimp only
      rw [grid67_blocked] at hC
      rw [fps001_eval 0 (by norm_num) (by norm_num)]
      simp only [List.all_cons, List.all_nil, Bool.and_true, decide_eq_true_eq,
        zero_add]
      rw [grid67_blocked]
      omega
    · intro hD
      dsimp only
      rw [Prod.mk.injEq]
      constructor
      · simp only [encCell]
        omega
      · rw [cost_decomp ⟨0, x + -1, y + 0, true⟩ ⟨7, x, y, rv⟩ 724
          (by exact ac_eval1 0 7 (by norm_num) (by norm_num) (by decide))]
        rw [show x + -1 - x = (-1:ℤ) from by ring,
          show y + 0 - y = (0:ℤ) from by ring]
        dsimp only
        decide
    refine step_congr _ ?_ ?_ ?_ ?_
    · dsimp only
      rw [grid67_blocked]
      omega
    · intro hC
      dsimp only
      rw [grid67_blocked] at hC
      rw [fps001_eval 1 (by norm_num) (by norm_num)]
      simp only [List.all_cons, List.all_nil, Bool.and_true, decide_eq_true_eq,
        zero_add]
      rw [grid67_blocked]
      omega
    · intro hD
      dsimp only
      rw [Prod.mk.injEq]
      constructor
      · simp only [encCell]
        omega
      · rw [cost_decomp ⟨1, x + -1, y + -1, true⟩ ⟨7, x, y, rv⟩ 805
          (by exact ac_eval2 1 7 (by norm_num) (by norm_num) (by decide))]
        rw [show x + -1 - x = (-1:ℤ) from by ring,
          show y + -1 - y = (-1:ℤ) from by ring]
        dsimp only
        decide
    · rfl

theorem pathfindNeighbors_mem (grid : Grid)
    (cache : List (List ((ℤ × ℤ) × ℤ × Bool)))
    (footprints : List (List (ℤ × ℤ))) (m : ℕ) (c : Cell) :
    ∀ p ∈ pathfindNeighbors grid cache footprints m c,
      p.1 ∈ c.neighbors cache ∧
        (grid.is_cell_blocked p.1.x p.1.y).getD true = false := by
  unfold pathfindNeighbors
  have aux : ∀ l : List Cell, ∀ p ∈ l.foldr (fun neigh acc =>
      if (grid.is_cell_blocked neigh.x neigh.y).getD true = false then
        if (Agent.rotation_footprint footprints neigh.rotation).all (fun cell =>
            decide ((grid.is_cell_blocked (cell.1 + neigh.x)
              (cell.2 + neigh.y)).getD true = false)) = true then
          (neigh, neigh.cost (some c) m) :: acc
        else acc
      else acc) [],
      p.1 ∈ l ∧ (grid.is_cell_blocked p.1.x p.1.y).getD true = false := by
    intro l
    induction l with
    | nil => intro p hp; cases hp
    | cons nb rest ih =>
        intro p hp
        simp only [List.foldr_cons] at hp
        by_cases h1 : (grid.is_cell_blocked nb.x nb.y).getD true = false
        · rw [if_pos h1] at hp
          by_cases h2 : (Agent.rotation_footprint footprints nb.rotation).all
              (fun cell => decide ((grid.is_cell_blocked (cell.1 + nb.x)
                (cell.2 + nb.y)).getD true = false)) = true
          · rw [if_pos h2] at hp
            rcases List.mem_cons.mp hp with rfl | hp'
            · exact ⟨by simp, h1⟩
            · obtain ⟨ha, hb⟩ := ih p hp'
              exact ⟨by simp [ha], hb⟩
          · rw [if_neg h2] at hp
            obtain ⟨ha, hb⟩ := ih p hp
            exact ⟨by simp [ha], hb⟩
        · rw [if_neg h1] at hp
          obtain ⟨ha, hb⟩ := ih p hp
          exact ⟨by simp [ha], hb⟩
  exact aux _

theorem hclosed (c : Cell) (hc : CellOK c) :
    ∀ p ∈ pathfindNeighbors grid67 (NeighborCache.precompute 8 1)
      (Agent.footprints 0.01 0.01 8) 8 c, CellOK p.1 := by
  intro p hp
  obtain ⟨hmem, hblock⟩ := pathfindNeighbors_mem grid67 _ _ 8 c p hp
  rw [grid67_blocked] at hblock
  unfold Cell.neighbors at hmem
  rw [cache_eval] at hmem
  rcases hget : NeighborCache.get
      [[((1, -1), 7, false), ((1, 0), 0, false), ((1, 1), 1, false), ((0, 1), 6, true), ((-1, 1), 7, true), ((-1, 0), 0, true), ((-1, -1), 1, true), ((0, -1), 2, true)],
       [((1, 0), 0, false), ((1, 1), 1, false), ((0, 1), 2, false), ((-1, 1), 7, true), ((-1, 0), 0, true), ((-1, -1), 1, true), ((0, -1), 2, true), ((1, -1), 3, true)],
       [((1, 1), 1, false), ((0, 1), 2, false), ((-1, 1), 3, false), ((-1, 0), 0, true), ((-1, -1), 1, true), ((0, -1), 2, true), ((1, -1), 3, true), ((1, 0), 4, true)],
       [((0, 1), 2, false), ((-1, 1), 3, false), ((-1, 0), 4, false), ((-1, -1), 1, true), ((0, -1), 2, true), ((1, -1), 3, true), ((1, 0), 4, true), ((1, 1), 5, true)],
       [((-1, 1), 3, false), ((-1, 0), 4, false), ((-1, -1), 5, false), ((0, -1), 2, true), ((1, -1), 3, true), ((1, 0), 4, true), ((1, 1), 5, true), ((0, 1), 6, true)],
       [((-1, 0), 4, false), ((-1, -1), 5, false), ((0, -1), 6, false), ((1, -1), 3, true), ((1, 0), 4, true), ((1, 1), 5, true), ((0, 1), 6, true), ((-1, 1), 7, true)],
       [((-1, -1), 5, false), ((0, -1), 6, false), ((1, -1), 7, false), ((1, 0), 4, true), ((1, 1), 5, true), ((0, 1), 6, true), ((-1, 1), 7, true), ((-1, 0), 0, true)],
       [((0, -1), 6, false), ((1, -1), 7, false), ((1, 0), 0, false), ((1, 1), 5, true), ((0, 1), 6, true), ((-1, 1), 7, true), ((-1, 0), 0, true), ((-1, -1), 1, true)]]
      c.rotation with _ | row
  · rw [hget] at hmem
    cases hmem
  · rw [hget] at hmem
    simp only [List.mem_map] at hmem
    obtain ⟨e, he, hpe⟩ := hmem
    rw [← hpe] at hblock ⊢
    have hrow : row ∈
        [[((1, -1), 7, false), ((1, 0), 0, false), ((1, 1), 1, false), ((0, 1), 6, true), ((-1, 1), 7, true), ((-1, 0), 0, true), ((-1, -1), 1, true), ((0, -1), 2, true)],
         [((1, 0), 0, false), ((1, 1), 1, false), ((0, 1), 2, false), ((-1, 1), 7, true), ((-1, 0), 0, true), ((-1, -1), 1, true), ((0, -1), 2, true), ((1, -1), 3, true)],
         [((1, 1), 1, false), ((0, 1), 2, false), ((-1, 1), 3, false), ((-1, 0), 0, true), ((-1, -1), 1, true), ((0, -1), 2, true), ((1, -1), 3, true), ((1, 0), 4, true)],
         [((0, 1), 2, false), ((-1, 1), 3, false), ((-1, 0), 4, false), ((-1, -1), 1, true), ((0, -1), 2, true), ((1, -1), 3, true), ((1, 0), 4, true), ((1, 1), 5, true)],
         [((-1, 1), 3, false), ((-1, 0), 4, false), ((-1, -1), 5, false), ((0, -1), 2, true), ((1, -1), 3, true), ((1, 0), 4, true), ((1, 1), 5, true), ((0, 1), 6, true)],
         [((-1, 0), 4, false), ((-1, -1), 5, false), ((0, -1), 6, false), ((1, -1), 3, true), ((1, 0), 4, true), ((1, 1), 5, true), ((0, 1), 6, true), ((-1, 1), 7, true)],
         [((-1, -1), 5, false), ((0, -1), 6, false), ((1, -1), 7, false), ((1, 0), 4, true), ((1, 1), 5, true), ((0, 1), 6, true), ((-1, 1), 7, true), ((-1, 0), 0, true)],
         [((0, -1), 6, false), ((1, -1), 7, false), ((1, 0), 0, false), ((1, 1), 5, true), ((0, 1), 6, true), ((-1, 1), 7, true), ((-1, 0), 0, true), ((-1, -1), 1, true)]] := by
      unfold NeighborCache.get at hget
      split at hget
      · cases hget
      · exact List.get?_mem hget
    have hall : ∀ rw0 ∈
        ([[((1, -1), 7, false), ((1, 0), 0, false), ((1, 1), 1, false), ((0, 1), 6, true), ((-1, 1), 7, true), ((-1, 0), 0, true), ((-1, -1), 1, true), ((0, -1), 2, true)],
         [((1, 0), 0, false), ((1, 1), 1, false), ((0, 1), 2, false), ((-1, 1), 7, true), ((-1, 0), 0, true), ((-1, -1), 1, true), ((0, -1), 2, true), ((1, -1), 3, true)],
         [((1, 1), 1, false), ((0, 1), 2, false), ((-1, 1), 3, false), ((-1, 0), 0, true), ((-1, -1), 1, true), ((0, -1), 2, true), ((1, -1), 3, true), ((1, 0), 4, true)],
         [((0, 1), 2, false), ((-1, 1), 3, false), ((-1, 0), 4, false), ((-1, -1), 1, true), ((0, -1), 2, true), ((1, -1), 3, true), ((1, 0), 4, true), ((1, 1), 5, true)],
         [((-1, 1), 3, false), ((-1, 0), 4, false), ((-1, -1), 5, false), ((0, -1), 2, true), ((1, -1), 3, true), ((1, 0), 4, true), ((1, 1), 5, true), ((0, 1), 6, true)],
         [((-1, 0), 4, false), ((-1, -1), 5, false), ((0, -1), 6, false), ((1, -1), 3, true), ((1, 0), 4, true), ((1, 1), 5, true), ((0, 1), 6, true), ((-1, 1), 7, true)],
         [((-1, -1), 5, false), ((0, -1), 6, false), ((1, -1), 7, false), ((1, 0), 4, true), ((1, 1), 5, true), ((0, 1), 6, true), ((-1, 1), 7, true), ((-1, 0), 0, true)],
         [((0, -1), 6, false), ((1, -1), 7, false), ((1, 0), 0, false), ((1, 1), 5, true), ((0, 1), 6, true), ((-1, 1), 7, true), ((-1, 0), 0, true), ((-1, -1), 1, true)]] :
          List (List ((ℤ × ℤ) × ℤ × Bool))),
        ∀ e0 ∈ rw0, 0 ≤ e0.2.1 ∧ e0.2.1 < 8 := by decide
    obtain ⟨hrot0, hrot8⟩ := hall row hrow e he
    exact ⟨hblock.1, hblock.2.1, hblock.2.2.1, hblock.2.2.2, hrot0, hrot8⟩


/-! ### The search compares Eq-equal keys with different hash streams (C10)

`pathfind`'s two `HashMap`s key on `Cell`.  The neighbor generator
produces, from two poses of the same (empty) grid, successor cells that
are `==`-equal — under the `Eq`/`Hash` contract one `g_score`/`came_from`
binding serves both — yet carry opposite `reverse` flags and therefore
feed the seeded hasher different field streams (C5).  Where each stream
lands, and hence whether the lookup that compares the two keys hits,
is decided by the run's random hasher seed. -/

/-- C10: the determinism claim rests on the `Eq`/`Hash` contract the
code violates.  The search's own neighbor generator produces, from two
poses of the empty `6 × 7` grid (the heading-0 reverse-straight
successor of `(5,5)` and the heading-0 forward-straight successor of
`(3,5)`), the cells `{position (4,5), rotation 0, reverse true}` and
`{position (4,5), rotation 0, reverse false}`: equal under the source's
`PartialEq` — so the later `g_score` relaxation queries the binding
stored for the earlier — but hashed from different field streams, so
whether that seeded-`HashMap` lookup hits, and with it the search's
bookkeeping, depends on the random hasher seed that the claim asserts
cannot influence the result. -/
theorem C10_search_compares_eq_equal_keys_with_different_hashes :
    ∃ p q : Cell × ℕ,
      p ∈ pathfindNeighbors grid67 (NeighborCache.precompute 8 1)
            (Agent.footprints 0.01 0.01 8) 8 (Cell.mk 0 5 5 false) ∧
      q ∈ pathfindNeighbors grid67 (NeighborCache.precompute 8 1)
            (Agent.footprints 0.01 0.01 8) 8 (Cell.mk 0 3 5 false) ∧
      (p.1 == q.1) = true ∧
      p.1.reverse = true ∧ q.1.reverse = false ∧
      Cell.hashStream p.1 ≠ Cell.hashStream q.1 := by
  have hA := hneigh (Cell.mk 0 5 5 false) (by decide)
  have hmA : (((5 : ℕ) * 8 + 4) * 8, (10000 : ℕ)) ∈
      neighborsN (encCell (Cell.mk 0 5 5 false)) := by decide
  rw [hA] at hmA
  obtain ⟨⟨pc, pcost⟩, hpmem, hpe⟩ := List.mem_map.mp hmA
  have hpe1 : encCell pc = (5 * 8 + 4) * 8 := congrArg Prod.fst hpe
  have hB := hneigh (Cell.mk 0 3 5 false) (by decide)
  have hmB : (((5 : ℕ) * 8 + 4) * 8, (1000 : ℕ)) ∈
      neighborsN (encCell (Cell.mk 0 3 5 false)) := by decide
  rw [hB] at hmB
  obtain ⟨⟨qc, qcost⟩, hqmem, hqe⟩ := List.mem_map.mp hmB
  have hqe1 : encCell qc = (5 * 8 + 4) * 8 := congrArg Prod.fst hqe
  have hpn := (pathfindNeighbors_mem grid67 _ _ 8 _ _ hpmem).1
  have hqn := (pathfindNeighbors_mem grid67 _ _ 8 _ _ hqmem).1
  have hLA : Cell.neighbors (Cell.mk 0 5 5 false) (NeighborCache.precompute 8 1) =
      [Cell.mk 7 6 4 false, Cell.mk 0 6 5 false, Cell.mk 1 6 6 false,
       Cell.mk 6 5 6 true, Cell.mk 7 4 6 true, Cell.mk 0 4 5 true,
       Cell.mk 1 4 4 true, Cell.mk 2 5 4 true] := by
    rw [cache_eval]
    decide
  have hLB : Cell.neighbors (Cell.mk 0 3 5 false) (NeighborCache.precompute 8 1) =
      [Cell.mk 7 4 4 false, Cell.mk 0 4 5 false, Cell.mk 1 4 6 false,
       Cell.mk 6 3 6 true, Cell.mk 7 2 6 true, Cell.mk 0 2 5 true,
       Cell.mk 1 2 4 true, Cell.mk 2 3 4 true] := by
    rw [cache_eval]
    decide
  rw [hLA] at hpn
  rw [hLB] at hqn
  simp only [List.mem_cons, List.not_mem_nil, or_false] at hpn hqn
  have hpc : pc = Cell.mk 0 4 5 true := by
    rcases hpn with rfl | rfl | rfl | rfl | rfl | rfl | rfl | rfl <;>
      first
        | rfl
        | exact absurd hpe1 (by decide)
  have hqc : qc = Cell.mk 0 4 5 false := by
    rcases hqn with rfl | rfl | rfl | rfl | rfl | rfl | rfl | rfl <;>
      first
        | rfl
        | exact absurd hqe1 (by decide)
  refine ⟨(pc, pcost), (qc, qcost), hpmem, hqmem, ?_, ?_, ?_, ?_⟩
  · rw [hpc, hqc]
    dsimp only
    decide
  · rw [hpc]
  · rw [hqc]
  · rw [hpc, hqc]
    dsimp only
    decide

set_option maxRecDepth 100000 in
set_option maxHeartbeats 16000000 in
/-- Kernel evaluation of the executable instance: the search pops its
way to the goal and returns the three-pose path
`(5,5,h0) → (4,5,h0) → (5,6,h1)` (codes `360, 352, 417`) at cost
`12724 = 10000` (one straight reverse step) `+ 2724` (one diagonal
forward step with a one-increment turn). -/
theorem runC9_eval :
    runC9 = some ([(5 * 8 + 5) * 8, (5 * 8 + 4) * 8, (6 * 8 + 5) * 8 + 1],
      12724) := by
  decide

/-- C9: in the reverse-preference scenario — the empty `6 × 7` grid,
`maxIncrements 8`, `arc 1`, start `(5,5)` heading `0`, goal `(5,6)` — the
search returns the path `(5,5) → (4,5) → (5,6)` at cost `12724`: its
second pose keeps the start heading (a pure straight reverse step), and
only the final pose turns; the cheap reverse step beats every forward
arc. -/
theorem C9_reverse_preference :
    ∃ (path : List Cell) (cost : ℕ),
      pathfind grid67 (NeighborCache.precompute 8 1)
          (Agent.footprints 0.01 0.01 8) 0 5 5 5 6 8 120 =
        some (path, cost) ∧
      cost = 12724 ∧
      ∃ p0 p1 p2, path = [p0, p1, p2] ∧
        p0.rotation = 0 ∧ p0.x = 5 ∧ p0.y = 5 ∧
        p1.rotation = p0.rotation ∧ p1.x = 4 ∧ p1.y = 5 ∧
        p2.x = 5 ∧ p2.y = 6 := by
  have hstart : CellOK (Cell.mk 0 5 5 false) := by decide
  have hsim := astarWith_sim
    (assocOps Cell Cell) (assocOps Cell ℕ) (trieOps ℕ) (trieOps ℕ)
    encCell CellOK (fun k => k < 512) encCell_lt
    ((assocOps_lawful Cell Cell).on CellOK)
    ((assocOps_lawful Cell ℕ).on CellOK)
    (trieOps_lawful ℕ) (trieOps_lawful ℕ)
    encCell_key
    (pathfindNeighbors grid67 (NeighborCache.precompute 8 1)
      (Agent.footprints 0.01 0.01 8) 8)
    neighborsN hneigh hclosed
    (fun a => Cell.heuristic a 5 6) (heurN 5 6)
    (fun s hs => (heur_eval s hs).symm)
    (fun a => decide (a.x = 5) && decide (a.y = 6)) (goalN 5 6)
    (fun s hs => (goal_eval s hs).symm)
    120 (Cell.mk 0 5 5 false) hstart
  have hrun : astarWith (trieOps ℕ) (trieOps ℕ) 120
      (encCell (Cell.mk 0 5 5 false)) neighborsN (heurN 5 6) (goalN 5 6) =
      some ([(5 * 8 + 5) * 8, (5 * 8 + 4) * 8, (6 * 8 + 5) * 8 + 1], 12724) := by
    rw [show encCell (Cell.mk 0 5 5 false) = (5 * 8 + 5) * 8 from by decide]
    exact runC9_eval
  rw [hrun] at hsim
  have hpf : pathfind grid67 (NeighborCache.precompute 8 1)
      (Agent.footprints 0.01 0.01 8) 0 5 5 5 6 8 120 =
      astarWith (assocOps Cell Cell) (assocOps Cell ℕ) 120
        (Cell.mk 0 5 5 false)
        (pathfindNeighbors grid67 (NeighborCache.precompute 8 1)
          (Agent.footprints 0.01 0.01 8) 8)
        (fun a => Cell.heuristic a 5 6)
        (fun a => decide (a.x = 5) && decide (a.y = 6)) := rfl
  rcases hmodel : astarWith (assocOps Cell Cell) (assocOps Cell ℕ) 120
      (Cell.mk 0 5 5 false)
      (pathfindNeighbors grid67 (NeighborCache.precompute 8 1)
        (Agent.footprints 0.01 0.01 8) 8)
      (fun a => Cell.heuristic a 5 6)
      (fun a => decide (a.x = 5) && decide (a.y = 6)) with _ | pc
  · rw [hmodel] at hsim
    cases hsim
  · rw [hmodel] at hsim
    obtain ⟨path, cost⟩ := pc
    simp only [Option.map_some', Option.some.injEq, Prod.mk.injEq] at hsim
    obtain ⟨hpath, hcost⟩ := hsim
    have hvalid := astarWith_path_all
      ((assocOps_lawful Cell Cell).on CellOK)
      (pathfindNeighbors grid67 (NeighborCache.precompute 8 1)
        (Agent.footprints 0.01 0.01 8) 8)
      hclosed
      (fun a => Cell.heuristic a 5 6)
      (fun a => decide (a.x = 5) && decide (a.y = 6))
      120 (Cell.mk 0 5 5 false) hstart path cost hmodel
    rcases path with _ | ⟨p0, path⟩
    · simp at hpath
    rcases path with _ | ⟨p1, path⟩
    · simp at hpath
    rcases path with _ | ⟨p2, path⟩
    · simp at hpath
    rcases path with _ | ⟨p3, path⟩
    swap
    · simp at hpath
    simp only [List.map_cons, List.map_nil, List.cons.injEq, and_true] at hpath
    obtain ⟨he0, he1, he2⟩ := hpath
    have hv0 : CellOK p0 := hvalid p0 (by simp)
    have hv1 : CellOK p1 := hvalid p1 (by simp)
    have hv2 : CellOK p2 := hvalid p2 (by simp)
    obtain ⟨hx0a, hx0b, hy0a, hy0b, hr0a, hr0b⟩ := hv0
    obtain ⟨hx1a, hx1b, hy1a, hy1b, hr1a, hr1b⟩ := hv1
    obtain ⟨hx2a, hx2b, hy2a, hy2b, hr2a, hr2b⟩ := hv2
    unfold encCell at he0 he1 he2
    refine ⟨[p0, p1, p2], 12724, ?_, rfl, p0, p1, p2, rfl, ?_, ?_, ?_, ?_, ?_,
      ?_, ?_, ?_⟩
    · rw [hpf, hmodel, hcost]
    · omega
    · omega
    · omega
    · omega
    · omega
    · omega
    · omega
    · omega

end VP
